import Mathlib

/-!
# Rive RHI render context: a shallow embedding

Model of `pls_render_context_rhi_impl.cpp` (`RenderContextRHIImpl` and the buffer
classes around it).  Calls into the graphics device and into the image libraries
are recorded as events; the functions of the source become functions that return
the events they issue together with their result.
-/

namespace RiveRHI

/-! ## Image decoding (`RenderContextRHIImpl::decodeImageTexture`) -/

/-- Values of `EImageFormat` that `decodeImageTexture` uses. -/
inductive EImageFormat
  | Invalid
  | PNG
  | JPEG
deriving DecidableEq, Repr

/-- Pixel formats named in the source file. -/
inductive EPixelFormat
  | PF_B8G8R8A8
  | PF_R8G8B8A8
  | PF_R32_UINT
  | PF_R32G32B32A32_UINT
deriving DecidableEq, Repr

/-- A `Span<const uint8_t>`: `bytes` are the `size()` bytes that belong to the span,
`beyond k` is the byte stored `k` positions after its end.  The source compares
signatures with `memcmp` at `data()` without consulting `size()`, so what lies after
a short span takes part in the comparison. -/
structure ByteSpan where
  bytes : List Nat
  beyond : Nat → Nat

/-- Byte at offset `i` from `data()`. -/
def ByteSpan.byteAt (s : ByteSpan) (i : Nat) : Nat :=
  if i < s.bytes.length then s.bytes.getD i 0 else s.beyond (i - s.bytes.length)

/-- The `n` bytes starting at offset `off` from `data()`. -/
def ByteSpan.read (s : ByteSpan) (off : Nat) : Nat → List Nat
  | 0 => []
  | n + 1 => s.byteAt off :: s.read (off + 1) n

/-- Outcome `memcmp(sig, span.data(), sizeof(sig)) == 0`. -/
def memcmpEq (sig : List Nat) (s : ByteSpan) : Bool :=
  s.read 0 sig.length == sig

/-- Signature `PNG[4]`. -/
def PNG : List Nat := [0x89, 0x50, 0x4E, 0x47]

/-- Signature `JPEG[3]`. -/
def JPEG : List Nat := [0xFF, 0xD8, 0xFF]

/-- Signature `WEBP[3]` (the letters R, I, F). -/
def WEBP : List Nat := [0x52, 0x49, 0x46]

/-- Behaviour of the engine image codec (`IImageWrapperModule`, `IImageWrapper`) as
seen by `decodeImageTexture`; the codec itself is an external collaborator. -/
structure ImageWrapperModule where
  /-- Outcome `CreateImageWrapper(format).IsValid()`. -/
  createIsValid : EImageFormat → Bool
  /-- Outcome `SetCompressed(data, size)`. -/
  setCompressed : EImageFormat → List Nat → Bool
  /-- Outcome `GetRaw(ERGBFormat::BGRA, 8, out)`: the pixels on success. -/
  getRaw : EImageFormat → List Nat → Option (List Nat)
  getWidth : EImageFormat → List Nat → Nat
  getHeight : EImageFormat → List Nat → Nat

/-- Behaviour of the WEBP library (`webp/decode.h`, `webp/demux.h`) as seen by
`decodeImageTexture`; the library is an external collaborator. -/
structure WebPLibrary where
  /-- Outcome `WebPInitDecoderConfig(&config)`. -/
  initDecoderConfig : Bool
  /-- Outcome `WebPGetInfo(data, size, nullptr, nullptr)`. -/
  getInfo : List Nat → Bool
  /-- Whether `WebPDemux(&data)` returns a demuxer. -/
  demux : List Nat → Bool
  /-- Outcome `WebPDemuxGetFrame(demuxer, 1, &frame)`: the fragment of the first frame. -/
  demuxGetFrame : List Nat → Option (List Nat)
  /-- Value `WebPDemuxGetI(demuxer, WEBP_FF_CANVAS_WIDTH)`. -/
  canvasWidth : List Nat → Nat
  /-- Value `WebPDemuxGetI(demuxer, WEBP_FF_CANVAS_HEIGHT)`. -/
  canvasHeight : List Nat → Nat
  /-- Outcome `WebPDecode(fragment, size, &config)` for the given output stride and
  buffer size: the RGBA pixels when the status is `VP8_STATUS_OK`. -/
  decode : List Nat → Nat → Nat → Option (List Nat)

/-- Calls that `decodeImageTexture` makes, in the order of issue. -/
inductive DecodeCall
  | loadImageWrapperModule
  | createImageWrapper (format : EImageFormat)
  | setCompressed (format : EImageFormat) (size : Nat)
  | getRaw (format : EImageFormat)
  | webPInitDecoderConfig
  | webPGetInfo
  | webPDemux
  | webPDemuxGetFrame
  | webPDecode
  | webPDemuxReleaseIterator
  | webPDemuxDelete
  | createTexture (width height mipLevelCount : Nat) (format : EPixelFormat)
deriving DecidableEq, Repr

/-- Calls that construct a `PLSTextureRHIImpl`. -/
def DecodeCall.isCreateTexture : DecodeCall → Bool
  | .createTexture _ _ _ _ => true
  | _ => false

/-- A `PLSTextureRHIImpl` as constructed by `decodeImageTexture`. -/
structure PLSTextureRHIImpl where
  width : Nat
  height : Nat
  mipLevelCount : Nat
  imageData : List Nat
  pixelFormat : EPixelFormat
deriving DecidableEq, Repr

/-- What one call of `decodeImageTexture` did: the calls it made and the texture it
returned (`none` is the null `rcp`). -/
structure DecodeResult where
  calls : List DecodeCall
  texture : Option PLSTextureRHIImpl
deriving DecidableEq, Repr

/-- Branch `format != EImageFormat::Invalid` of `decodeImageTexture`. -/
def decodeWithImageWrapper (iw : ImageWrapperModule) (format : EImageFormat)
    (data : List Nat) : DecodeResult :=
  if !iw.createIsValid format then
    { calls := [.loadImageWrapperModule, .createImageWrapper format], texture := none }
  else if !iw.setCompressed format data then
    { calls := [.loadImageWrapperModule, .createImageWrapper format,
                .setCompressed format data.length],
      texture := none }
  else
    match iw.getRaw format data with
    | none =>
      { calls := [.loadImageWrapperModule, .createImageWrapper format,
                  .setCompressed format data.length, .getRaw format],
        texture := none }
    | some raw =>
      { calls := [.loadImageWrapperModule, .createImageWrapper format,
                  .setCompressed format data.length, .getRaw format,
                  .createTexture (iw.getWidth format data) (iw.getHeight format data) 1
                    .PF_B8G8R8A8],
        texture := some
          { width := iw.getWidth format data, height := iw.getHeight format data,
            mipLevelCount := 1, imageData := raw, pixelFormat := .PF_B8G8R8A8 } }

/-- Branch `// WEBP Decoding` of `decodeImageTexture`.  A failing `WebPGetInfo` only
prints a message; the function goes on to the demuxer. -/
def decodeWithWebP (wp : WebPLibrary) (data : List Nat) : DecodeResult :=
  if !wp.initDecoderConfig then
    { calls := [.webPInitDecoderConfig], texture := none }
  else if !wp.demux data then
    { calls := [.webPInitDecoderConfig, .webPGetInfo, .webPDemux], texture := none }
  else
    match wp.demuxGetFrame data with
    | none =>
      { calls := [.webPInitDecoderConfig, .webPGetInfo, .webPDemux, .webPDemuxGetFrame,
                  .webPDemuxDelete],
        texture := none }
    | some fragment =>
      let width := wp.canvasWidth data
      let height := wp.canvasHeight data
      let pixelBufferSize := (width * height * 4) % 2 ^ 64
      let stride := (width * 4) % 2 ^ 32
      match wp.decode fragment stride pixelBufferSize with
      | none =>
        { calls := [.webPInitDecoderConfig, .webPGetInfo, .webPDemux, .webPDemuxGetFrame,
                    .webPDecode, .webPDemuxReleaseIterator, .webPDemuxDelete],
          texture := none }
      | some pixels =>
        { calls := [.webPInitDecoderConfig, .webPGetInfo, .webPDemux, .webPDemuxGetFrame,
                    .webPDecode, .webPDemuxReleaseIterator, .webPDemuxDelete,
                    .createTexture width height 1 .PF_R8G8B8A8],
          texture := some
            { width := width, height := height, mipLevelCount := 1, imageData := pixels,
              pixelFormat := .PF_R8G8B8A8 } }

/-- Model of `RenderContextRHIImpl::decodeImageTexture`. -/
def decodeImageTexture (iw : ImageWrapperModule) (wp : WebPLibrary)
    (encodedBytes : ByteSpan) : DecodeResult :=
  if memcmpEq PNG encodedBytes then
    decodeWithImageWrapper iw .PNG encodedBytes.bytes
  else if memcmpEq JPEG encodedBytes then
    decodeWithImageWrapper iw .JPEG encodedBytes.bytes
  else if memcmpEq WEBP encodedBytes then
    decodeWithWebP wp encodedBytes.bytes
  else
    { calls := [], texture := none }

/-! ## Ring buffers owned by the render context -/

/-- Enumerators of `DrawType` that the draw loop switches over. -/
inductive DrawType
  | midpointFanPatches
  | outerCurvePatches
  | interiorTriangulation
  | imageRect
  | imageMesh
  | gpuAtomicInitialize
  | gpuAtomicResolve
  | stencilClipReset
deriving DecidableEq, Repr

/-- The two patch draw types. -/
def DrawType.isPatches : DrawType → Bool
  | .midpointFanPatches => true
  | .outerCurvePatches => true
  | _ => false

/-- Constants and size functions that the source takes from the renderer library
headers (`sizeof` of the GPU structures, the static index and vertex tables, the
texture widths).  They are parameters of the model. -/
structure GpuConstants where
  sizeofGradientSpan : Nat
  sizeofTriangleVertex : Nat
  sizeofVec2D : Nat
  kGradTextureWidth : Nat
  kTessTextureWidth : Nat
  /-- Value `std::size(kTessSpanIndices)`. -/
  kTessSpanIndicesCount : Nat
  /-- Value `std::size(kImageRectVertices)`. -/
  kImageRectVerticesCount : Nat
  /-- Value `std::size(kImageRectIndices)`. -/
  kImageRectIndicesCount : Nat
  kPatchVertexBufferCount : Nat
  /-- Function `StorageBufferElementSizeInBytes`, by the ordinal of the structure. -/
  StorageBufferElementSizeInBytes : Nat → Nat
  /-- Function `PatchBaseIndex`. -/
  PatchBaseIndex : DrawType → Nat
  /-- Function `PatchIndexCount`. -/
  PatchIndexCount : DrawType → Nat

/-- Value `sizeof(TessVertexSpan)`: the constructor of the context lays out three
`float4` and four `uint` attributes and checks `tessOffset + 4 == sizeof(TessVertexSpan)`
with `tessOffset = 3 * 16 + 3 * 4`. -/
def sizeofTessVertexSpan : Nat := 64

/-- A `StorageBufferStructure` argument; the enumerators are declared in the renderer
library, the model keeps the ordinal. -/
structure StorageBufferStructure where
  ordinal : Nat
deriving DecidableEq, Repr

/-- Usage flags that the context passes when it creates its buffers. -/
inductive EBufferUsageFlags
  | VertexBuffer
  | IndexBuffer
  | StructuredBufferShaderResource
deriving DecidableEq, Repr

/-- Modelled from the spec: the `BufferRing` base class of the renderer library, whose
header is not among the sources.  Section 3 gives a ring buffer a capacity in bytes and
a CPU-visible shadow region; section 4.1 says that `map` exposes that shadow region. -/
structure BufferRing where
  capacityInBytes : Nat
deriving DecidableEq, Repr

/-- A writable region handed out by `map`: the start of a shadow buffer together with
the number of bytes that belong to it. -/
structure MappedRegion where
  sizeInBytes : Nat
deriving DecidableEq, Repr

/-- Modelled from the spec: `BufferRing::shadowBuffer`, the CPU shadow region of the
ring; it spans the capacity of the ring. -/
def BufferRing.shadowBuffer (b : BufferRing) : MappedRegion :=
  { sizeInBytes := b.capacityInBytes }

/-- A `BufferRingRHIImpl`: the base ring and the arguments of `CreateBuffer`. -/
structure BufferRingRHIImpl where
  ring : BufferRing
  m_flags : EBufferUsageFlags
  /-- Size of the GPU buffer `m_buffer`. -/
  bufferSizeInBytes : Nat
  stride : Nat
deriving DecidableEq, Repr

/-- Constructor `BufferRingRHIImpl::BufferRingRHIImpl`. -/
def BufferRingRHIImpl.make (flags : EBufferUsageFlags) (in_sizeInBytes stride : Nat) :
    BufferRingRHIImpl :=
  { ring := { capacityInBytes := in_sizeInBytes }, m_flags := flags,
    bufferSizeInBytes := in_sizeInBytes, stride := stride }

/-- Method `BufferRingRHIImpl::onMapBuffer`: returns the shadow buffer. -/
def BufferRingRHIImpl.onMapBuffer (b : BufferRingRHIImpl) (_bufferIdx _mapSizeInBytes : Nat) :
    MappedRegion × BufferRingRHIImpl :=
  (b.ring.shadowBuffer, b)

/-- A `StructuredBufferRingRHIImpl`. -/
structure StructuredBufferRingRHIImpl where
  ring : BufferRing
  m_flags : EBufferUsageFlags
  m_elementSize : Nat
  m_lastMapSizeInBytes : Nat
  /-- Size of the structured GPU buffer `m_buffer`. -/
  bufferSizeInBytes : Nat
deriving DecidableEq, Repr

/-- Constructor `StructuredBufferRingRHIImpl::StructuredBufferRingRHIImpl`. -/
def StructuredBufferRingRHIImpl.make (flags : EBufferUsageFlags)
    (in_sizeInBytes elementSize : Nat) : StructuredBufferRingRHIImpl :=
  { ring := { capacityInBytes := in_sizeInBytes }, m_flags := flags,
    m_elementSize := elementSize, m_lastMapSizeInBytes := in_sizeInBytes,
    bufferSizeInBytes := in_sizeInBytes }

/-- Method `StructuredBufferRingRHIImpl::onMapBuffer`: records the map size and returns
the shadow buffer. -/
def StructuredBufferRingRHIImpl.onMapBuffer (b : StructuredBufferRingRHIImpl)
    (_bufferIdx mapSizeInBytes : Nat) : MappedRegion × StructuredBufferRingRHIImpl :=
  (b.ring.shadowBuffer, { b with m_lastMapSizeInBytes := mapSizeInBytes })

/-- Uniform block types of `UniformBufferRHIImpl<T>`. -/
inductive UniformType
  | FFlushUniforms
  | FImageDrawUniforms
deriving DecidableEq, Repr

/-- Modelled from the spec: `UniformBufferRHIImpl<T>`, declared in the header of the
context, which is not among the sources; a ring buffer of the requested capacity. -/
structure UniformBufferRHIImpl where
  ring : BufferRing
  uniformType : UniformType
deriving DecidableEq, Repr

/-- Modelled from the spec: constructor `UniformBufferRHIImpl<T>(sizeInBytes)`. -/
def UniformBufferRHIImpl.make (t : UniformType) (sizeInBytes : Nat) : UniformBufferRHIImpl :=
  { ring := { capacityInBytes := sizeInBytes }, uniformType := t }

/-- Modelled from the spec: `onMapBuffer` of `UniformBufferRHIImpl<T>`; `map` exposes the
shadow region. -/
def UniformBufferRHIImpl.onMapBuffer (b : UniformBufferRHIImpl)
    (_bufferIdx _mapSizeInBytes : Nat) : MappedRegion × UniformBufferRHIImpl :=
  (b.ring.shadowBuffer, b)

/-- Modelled from the spec: `HeapBufferRing` of the renderer library, a ring buffer that
lives in CPU memory only. -/
structure HeapBufferRing where
  ring : BufferRing
deriving DecidableEq, Repr

/-- Modelled from the spec: constructor `HeapBufferRing(sizeInBytes)`. -/
def HeapBufferRing.make (sizeInBytes : Nat) : HeapBufferRing :=
  { ring := { capacityInBytes := sizeInBytes } }

/-- Modelled from the spec: `onMapBuffer` of `HeapBufferRing`; `map` exposes the shadow
region. -/
def HeapBufferRing.onMapBuffer (b : HeapBufferRing) (_bufferIdx _mapSizeInBytes : Nat) :
    MappedRegion × HeapBufferRing :=
  (b.ring.shadowBuffer, b)

/-- Modelled from the spec: `BufferRing::mapBuffer` for a `BufferRingRHIImpl`; it hands
the request to `onMapBuffer` (both overrides in the source ignore the ring index). -/
def BufferRingRHIImpl.mapBuffer (b : BufferRingRHIImpl) (mapSizeInBytes : Nat) :
    MappedRegion × BufferRingRHIImpl :=
  b.onMapBuffer 0 mapSizeInBytes

/-- Modelled from the spec: `BufferRing::mapBuffer` for a `StructuredBufferRingRHIImpl`. -/
def StructuredBufferRingRHIImpl.mapBuffer (b : StructuredBufferRingRHIImpl)
    (mapSizeInBytes : Nat) : MappedRegion × StructuredBufferRingRHIImpl :=
  b.onMapBuffer 0 mapSizeInBytes

/-- Modelled from the spec: `BufferRing::mapBuffer` for a `UniformBufferRHIImpl<T>`. -/
def UniformBufferRHIImpl.mapBuffer (b : UniformBufferRHIImpl) (mapSizeInBytes : Nat) :
    MappedRegion × UniformBufferRHIImpl :=
  b.onMapBuffer 0 mapSizeInBytes

/-- Modelled from the spec: `BufferRing::mapBuffer` for a `HeapBufferRing`. -/
def HeapBufferRing.mapBuffer (b : HeapBufferRing) (mapSizeInBytes : Nat) :
    MappedRegion × HeapBufferRing :=
  b.onMapBuffer 0 mapSizeInBytes

/-- A two-dimensional texture created by the context, by the extent of its creation
descriptor (an `FIntPoint`, two signed 32-bit integers). -/
structure Texture2D where
  width : Int
  height : Int
  format : EPixelFormat
deriving DecidableEq, Repr

/-- The members of `RenderContextRHIImpl` that change after construction.  A `none`
is a null `unique_ptr` or a null texture reference. -/
structure RenderContextRHIImpl where
  m_flushUniformBuffer : Option UniformBufferRHIImpl
  m_imageDrawUniformBuffer : Option UniformBufferRHIImpl
  m_pathBuffer : Option StructuredBufferRingRHIImpl
  m_paintBuffer : Option StructuredBufferRingRHIImpl
  m_paintAuxBuffer : Option StructuredBufferRingRHIImpl
  m_contourBuffer : Option StructuredBufferRingRHIImpl
  m_simpleColorRampsBuffer : Option HeapBufferRing
  m_gradSpanBuffer : Option BufferRingRHIImpl
  m_tessSpanBuffer : Option BufferRingRHIImpl
  m_triangleBuffer : Option BufferRingRHIImpl
  m_gradiantTexture : Option Texture2D
  m_tesselationTexture : Option Texture2D
  /-- Whether `m_tessSRV` holds a view. -/
  m_tessSRV : Bool
deriving DecidableEq, Repr

/-- The context right after construction: nothing allocated. -/
def RenderContextRHIImpl.initial : RenderContextRHIImpl :=
  { m_flushUniformBuffer := none, m_imageDrawUniformBuffer := none, m_pathBuffer := none,
    m_paintBuffer := none, m_paintAuxBuffer := none, m_contourBuffer := none,
    m_simpleColorRampsBuffer := none, m_gradSpanBuffer := none, m_tessSpanBuffer := none,
    m_triangleBuffer := none, m_gradiantTexture := none, m_tesselationTexture := none,
    m_tessSRV := false }

/-- Method `RenderContextRHIImpl::resizeFlushUniformBuffer`. -/
def resizeFlushUniformBuffer (ctx : RenderContextRHIImpl) (sizeInBytes : Nat) :
    RenderContextRHIImpl :=
  let ctx := { ctx with m_flushUniformBuffer := none }
  if sizeInBytes != 0 then
    { ctx with m_flushUniformBuffer := some (UniformBufferRHIImpl.make .FFlushUniforms sizeInBytes) }
  else ctx

/-- Method `RenderContextRHIImpl::resizeImageDrawUniformBuffer`. -/
def resizeImageDrawUniformBuffer (ctx : RenderContextRHIImpl) (sizeInBytes : Nat) :
    RenderContextRHIImpl :=
  let ctx := { ctx with m_imageDrawUniformBuffer := none }
  if sizeInBytes != 0 then
    { ctx with
      m_imageDrawUniformBuffer := some (UniformBufferRHIImpl.make .FImageDrawUniforms sizeInBytes) }
  else ctx

/-- Method `RenderContextRHIImpl::resizePathBuffer`. -/
def resizePathBuffer (k : GpuConstants) (ctx : RenderContextRHIImpl) (sizeInBytes : Nat)
    (structure_ : StorageBufferStructure) : RenderContextRHIImpl :=
  let ctx := { ctx with m_pathBuffer := none }
  if sizeInBytes != 0 then
    { ctx with
      m_pathBuffer := some (StructuredBufferRingRHIImpl.make .StructuredBufferShaderResource
        sizeInBytes (k.StorageBufferElementSizeInBytes structure_.ordinal)) }
  else ctx

/-- Method `RenderContextRHIImpl::resizePaintBuffer`. -/
def resizePaintBuffer (k : GpuConstants) (ctx : RenderContextRHIImpl) (sizeInBytes : Nat)
    (structure_ : StorageBufferStructure) : RenderContextRHIImpl :=
  let ctx := { ctx with m_paintBuffer := none }
  if sizeInBytes != 0 then
    { ctx with
      m_paintBuffer := some (StructuredBufferRingRHIImpl.make .StructuredBufferShaderResource
        sizeInBytes (k.StorageBufferElementSizeInBytes structure_.ordinal)) }
  else ctx

/-- Method `RenderContextRHIImpl::resizePaintAuxBuffer`. -/
def resizePaintAuxBuffer (k : GpuConstants) (ctx : RenderContextRHIImpl) (sizeInBytes : Nat)
    (structure_ : StorageBufferStructure) : RenderContextRHIImpl :=
  let ctx := { ctx with m_paintAuxBuffer := none }
  if sizeInBytes != 0 then
    { ctx with
      m_paintAuxBuffer := some (StructuredBufferRingRHIImpl.make .StructuredBufferShaderResource
        sizeInBytes (k.StorageBufferElementSizeInBytes structure_.ordinal)) }
  else ctx

/-- Method `RenderContextRHIImpl::resizeContourBuffer`. -/
def resizeContourBuffer (k : GpuConstants) (ctx : RenderContextRHIImpl) (sizeInBytes : Nat)
    (structure_ : StorageBufferStructure) : RenderContextRHIImpl :=
  let ctx := { ctx with m_contourBuffer := none }
  if sizeInBytes != 0 then
    { ctx with
      m_contourBuffer := some (StructuredBufferRingRHIImpl.make .StructuredBufferShaderResource
        sizeInBytes (k.StorageBufferElementSizeInBytes structure_.ordinal)) }
  else ctx

/-- Method `RenderContextRHIImpl::resizeSimpleColorRampsBuffer`. -/
def resizeSimpleColorRampsBuffer (ctx : RenderContextRHIImpl) (sizeInBytes : Nat) :
    RenderContextRHIImpl :=
  let ctx := { ctx with m_simpleColorRampsBuffer := none }
  if sizeInBytes != 0 then
    { ctx with m_simpleColorRampsBuffer := some (HeapBufferRing.make sizeInBytes) }
  else ctx

/-- Method `RenderContextRHIImpl::resizeGradSpanBuffer`. -/
def resizeGradSpanBuffer (k : GpuConstants) (ctx : RenderContextRHIImpl) (sizeInBytes : Nat) :
    RenderContextRHIImpl :=
  let ctx := { ctx with m_gradSpanBuffer := none }
  if sizeInBytes != 0 then
    { ctx with
      m_gradSpanBuffer := some (BufferRingRHIImpl.make .VertexBuffer sizeInBytes
        k.sizeofGradientSpan) }
  else ctx

/-- Method `RenderContextRHIImpl::resizeTessVertexSpanBuffer`. -/
def resizeTessVertexSpanBuffer (ctx : RenderContextRHIImpl) (sizeInBytes : Nat) :
    RenderContextRHIImpl :=
  let ctx := { ctx with m_tessSpanBuffer := none }
  if sizeInBytes != 0 then
    { ctx with
      m_tessSpanBuffer := some (BufferRingRHIImpl.make .VertexBuffer sizeInBytes
        sizeofTessVertexSpan) }
  else ctx

/-- Method `RenderContextRHIImpl::resizeTriangleVertexBuffer`. -/
def resizeTriangleVertexBuffer (k : GpuConstants) (ctx : RenderContextRHIImpl)
    (sizeInBytes : Nat) : RenderContextRHIImpl :=
  let ctx := { ctx with m_triangleBuffer := none }
  if sizeInBytes != 0 then
    { ctx with
      m_triangleBuffer := some (BufferRingRHIImpl.make .VertexBuffer sizeInBytes
        k.sizeofTriangleVertex) }
  else ctx

/-- Result of a `map*Buffer` call: the region and the context after the call, or `none`
when the call dereferences a null `unique_ptr`. -/
abbrev MapResult := Option (MappedRegion × RenderContextRHIImpl)

/-- Method `RenderContextRHIImpl::mapFlushUniformBuffer`. -/
def mapFlushUniformBuffer (ctx : RenderContextRHIImpl) (mapSizeInBytes : Nat) : MapResult :=
  match ctx.m_flushUniformBuffer with
  | none => none
  | some b =>
    let r := b.mapBuffer mapSizeInBytes
    some (r.1, { ctx with m_flushUniformBuffer := some r.2 })

/-- Method `RenderContextRHIImpl::mapImageDrawUniformBuffer`. -/
def mapImageDrawUniformBuffer (ctx : RenderContextRHIImpl) (mapSizeInBytes : Nat) : MapResult :=
  match ctx.m_imageDrawUniformBuffer with
  | none => none
  | some b =>
    let r := b.mapBuffer mapSizeInBytes
    some (r.1, { ctx with m_imageDrawUniformBuffer := some r.2 })

/-- Method `RenderContextRHIImpl::mapPathBuffer`. -/
def mapPathBuffer (ctx : RenderContextRHIImpl) (mapSizeInBytes : Nat) : MapResult :=
  match ctx.m_pathBuffer with
  | none => none
  | some b =>
    let r := b.mapBuffer mapSizeInBytes
    some (r.1, { ctx with m_pathBuffer := some r.2 })

/-- Method `RenderContextRHIImpl::mapPaintBuffer`. -/
def mapPaintBuffer (ctx : RenderContextRHIImpl) (mapSizeInBytes : Nat) : MapResult :=
  match ctx.m_paintBuffer with
  | none => none
  | some b =>
    let r := b.mapBuffer mapSizeInBytes
    some (r.1, { ctx with m_paintBuffer := some r.2 })

/-- Method `RenderContextRHIImpl::mapPaintAuxBuffer`. -/
def mapPaintAuxBuffer (ctx : RenderContextRHIImpl) (mapSizeInBytes : Nat) : MapResult :=
  match ctx.m_paintAuxBuffer with
  | none => none
  | some b =>
    let r := b.mapBuffer mapSizeInBytes
    some (r.1, { ctx with m_paintAuxBuffer := some r.2 })

/-- Method `RenderContextRHIImpl::mapContourBuffer`. -/
def mapContourBuffer (ctx : RenderContextRHIImpl) (mapSizeInBytes : Nat) : MapResult :=
  match ctx.m_contourBuffer with
  | none => none
  | some b =>
    let r := b.mapBuffer mapSizeInBytes
    some (r.1, { ctx with m_contourBuffer := some r.2 })

/-- Method `RenderContextRHIImpl::mapSimpleColorRampsBuffer`. -/
def mapSimpleColorRampsBuffer (ctx : RenderContextRHIImpl) (mapSizeInBytes : Nat) : MapResult :=
  match ctx.m_simpleColorRampsBuffer with
  | none => none
  | some b =>
    let r := b.mapBuffer mapSizeInBytes
    some (r.1, { ctx with m_simpleColorRampsBuffer := some r.2 })

/-- Method `RenderContextRHIImpl::mapGradSpanBuffer`. -/
def mapGradSpanBuffer (ctx : RenderContextRHIImpl) (mapSizeInBytes : Nat) : MapResult :=
  match ctx.m_gradSpanBuffer with
  | none => none
  | some b =>
    let r := b.mapBuffer mapSizeInBytes
    some (r.1, { ctx with m_gradSpanBuffer := some r.2 })

/-- Method `RenderContextRHIImpl::mapTessVertexSpanBuffer`. -/
def mapTessVertexSpanBuffer (ctx : RenderContextRHIImpl) (mapSizeInBytes : Nat) : MapResult :=
  match ctx.m_tessSpanBuffer with
  | none => none
  | some b =>
    let r := b.mapBuffer mapSizeInBytes
    some (r.1, { ctx with m_tessSpanBuffer := some r.2 })

/-- Method `RenderContextRHIImpl::mapTriangleVertexBuffer`. -/
def mapTriangleVertexBuffer (ctx : RenderContextRHIImpl) (mapSizeInBytes : Nat) : MapResult :=
  match ctx.m_triangleBuffer with
  | none => none
  | some b =>
    let r := b.mapBuffer mapSizeInBytes
    some (r.1, { ctx with m_triangleBuffer := some r.2 })

/-- The ten logical buffers of the context. -/
inductive LogicalBuffer
  | flushUniform
  | imageDrawUniform
  | path
  | paint
  | paintAux
  | contour
  | simpleColorRamps
  | gradSpan
  | tessSpan
  | triangle
deriving DecidableEq, Repr

/-- A buffer object of any of the four classes. -/
inductive BufferObject
  | uniform (b : UniformBufferRHIImpl)
  | structured (b : StructuredBufferRingRHIImpl)
  | heap (b : HeapBufferRing)
  | vertex (b : BufferRingRHIImpl)
deriving DecidableEq, Repr

/-- Capacity of a buffer object (`capacityInBytes()`). -/
def BufferObject.capacityInBytes : BufferObject → Nat
  | .uniform b => b.ring.capacityInBytes
  | .structured b => b.ring.capacityInBytes
  | .heap b => b.ring.capacityInBytes
  | .vertex b => b.ring.capacityInBytes

/-- The member that holds a logical buffer. -/
def RenderContextRHIImpl.slot (ctx : RenderContextRHIImpl) : LogicalBuffer → Option BufferObject
  | .flushUniform => ctx.m_flushUniformBuffer.map .uniform
  | .imageDrawUniform => ctx.m_imageDrawUniformBuffer.map .uniform
  | .path => ctx.m_pathBuffer.map .structured
  | .paint => ctx.m_paintBuffer.map .structured
  | .paintAux => ctx.m_paintAuxBuffer.map .structured
  | .contour => ctx.m_contourBuffer.map .structured
  | .simpleColorRamps => ctx.m_simpleColorRampsBuffer.map .heap
  | .gradSpan => ctx.m_gradSpanBuffer.map .vertex
  | .tessSpan => ctx.m_tessSpanBuffer.map .vertex
  | .triangle => ctx.m_triangleBuffer.map .vertex

/-- The `resize*Buffer` method of a logical buffer (the structure argument is used by the
four storage buffers only). -/
def resizeBuffer (k : GpuConstants) (b : LogicalBuffer) (ctx : RenderContextRHIImpl)
    (sizeInBytes : Nat) (structure_ : StorageBufferStructure) : RenderContextRHIImpl :=
  match b with
  | .flushUniform => resizeFlushUniformBuffer ctx sizeInBytes
  | .imageDrawUniform => resizeImageDrawUniformBuffer ctx sizeInBytes
  | .path => resizePathBuffer k ctx sizeInBytes structure_
  | .paint => resizePaintBuffer k ctx sizeInBytes structure_
  | .paintAux => resizePaintAuxBuffer k ctx sizeInBytes structure_
  | .contour => resizeContourBuffer k ctx sizeInBytes structure_
  | .simpleColorRamps => resizeSimpleColorRampsBuffer ctx sizeInBytes
  | .gradSpan => resizeGradSpanBuffer k ctx sizeInBytes
  | .tessSpan => resizeTessVertexSpanBuffer ctx sizeInBytes
  | .triangle => resizeTriangleVertexBuffer k ctx sizeInBytes

/-- The object that the `resize*Buffer` method of a logical buffer constructs for a
non-zero size. -/
def freshBuffer (k : GpuConstants) (b : LogicalBuffer) (sizeInBytes : Nat)
    (structure_ : StorageBufferStructure) : BufferObject :=
  match b with
  | .flushUniform => .uniform (UniformBufferRHIImpl.make .FFlushUniforms sizeInBytes)
  | .imageDrawUniform => .uniform (UniformBufferRHIImpl.make .FImageDrawUniforms sizeInBytes)
  | .path | .paint | .paintAux | .contour =>
    .structured (StructuredBufferRingRHIImpl.make .StructuredBufferShaderResource sizeInBytes
      (k.StorageBufferElementSizeInBytes structure_.ordinal))
  | .simpleColorRamps => .heap (HeapBufferRing.make sizeInBytes)
  | .gradSpan => .vertex (BufferRingRHIImpl.make .VertexBuffer sizeInBytes k.sizeofGradientSpan)
  | .tessSpan => .vertex (BufferRingRHIImpl.make .VertexBuffer sizeInBytes sizeofTessVertexSpan)
  | .triangle =>
    .vertex (BufferRingRHIImpl.make .VertexBuffer sizeInBytes k.sizeofTriangleVertex)

/-- The `map*Buffer` method of a logical buffer. -/
def mapBuffer (b : LogicalBuffer) (ctx : RenderContextRHIImpl) (mapSizeInBytes : Nat) :
    MapResult :=
  match b with
  | .flushUniform => mapFlushUniformBuffer ctx mapSizeInBytes
  | .imageDrawUniform => mapImageDrawUniformBuffer ctx mapSizeInBytes
  | .path => mapPathBuffer ctx mapSizeInBytes
  | .paint => mapPaintBuffer ctx mapSizeInBytes
  | .paintAux => mapPaintAuxBuffer ctx mapSizeInBytes
  | .contour => mapContourBuffer ctx mapSizeInBytes
  | .simpleColorRamps => mapSimpleColorRampsBuffer ctx mapSizeInBytes
  | .gradSpan => mapGradSpanBuffer ctx mapSizeInBytes
  | .tessSpan => mapTessVertexSpanBuffer ctx mapSizeInBytes
  | .triangle => mapTriangleVertexBuffer ctx mapSizeInBytes

/-- A sequence of `resize` calls on one logical buffer, oldest first. -/
def resizeSequence (k : GpuConstants) (b : LogicalBuffer) (ctx : RenderContextRHIImpl) :
    List (Nat × StorageBufferStructure) → RenderContextRHIImpl
  | [] => ctx
  | (n, s) :: rest => resizeSequence k b (resizeBuffer k b ctx n s) rest

/-! ## Contents of a vertex or index ring and `Sync` -/

/-- The bytes behind a `BufferRingRHIImpl`: the CPU shadow buffer that `map` exposes and
the GPU buffer `m_buffer`. -/
structure BufferRingContents where
  buffer : BufferRingRHIImpl
  shadow : List Nat
  gpu : List Nat
deriving DecidableEq, Repr

/-- The shadow buffer spans the capacity of the ring and the GPU buffer has the size it
was created with. -/
def BufferRingContents.wellFormed (m : BufferRingContents) : Prop :=
  m.shadow.length = m.buffer.ring.capacityInBytes ∧ m.gpu.length = m.buffer.bufferSizeInBytes

/-- Function `memcpy(dest, src, n)`: the first `n` bytes of `dest` become those of `src`. -/
def memcpy (dest src : List Nat) (n : Nat) : List Nat :=
  src.take n ++ dest.drop n

/-- Method `BufferRingRHIImpl::Sync`: locks bytes `[0, capacityInBytes())` of `m_buffer`
for writing, copies `capacityInBytes()` bytes of the shadow buffer into them and unlocks. -/
def BufferRingRHIImpl.Sync (m : BufferRingContents) : BufferRingContents :=
  let size := m.buffer.ring.capacityInBytes
  let locked := (m.gpu.drop 0).take size
  let written := memcpy locked m.shadow size
  { m with gpu := m.gpu.take 0 ++ written ++ m.gpu.drop (0 + size) }

/-- A store of `data` at `offset` through the pointer that `map` returned: it lands in the
shadow buffer. -/
def BufferRingContents.write (m : BufferRingContents) (offset : Nat) (data : List Nat) :
    BufferRingContents :=
  { m with shadow := m.shadow.take offset ++ data ++ m.shadow.drop (offset + data.length) }

/-- Reading back bytes `[0, capacityInBytes)` of the GPU buffer. -/
def BufferRingContents.readBack (m : BufferRingContents) : List Nat :=
  m.gpu.take m.buffer.ring.capacityInBytes

/-- Enumerators of `RenderBufferType`. -/
inductive RenderBufferType
  | index
  | vertex
deriving DecidableEq, Repr

/-- A `RenderBufferFlags` set, by the one flag that the source tests. -/
structure RenderBufferFlags where
  mappedOnceAtInitialization : Bool
deriving DecidableEq, Repr

/-- A `RenderBufferRHIImpl`: type, flags and size of the base class, the ring `m_buffer`
with its bytes, and `m_mappedBuffer` (`none` is the null pointer). -/
structure RenderBufferRHIImpl where
  type : RenderBufferType
  flags : RenderBufferFlags
  sizeInBytes : Nat
  m_buffer : BufferRingContents
  m_mappedBuffer : Option MappedRegion
deriving DecidableEq, Repr

/-- Constructor `RenderBufferRHIImpl::RenderBufferRHIImpl`; `shadow` and `gpu` are the
bytes that the fresh allocations happen to hold. -/
def RenderBufferRHIImpl.make (in_type : RenderBufferType) (in_flags : RenderBufferFlags)
    (in_sizeInBytes stride : Nat) (shadow gpu : List Nat) : RenderBufferRHIImpl :=
  let ring := BufferRingRHIImpl.make
    (if in_type = .vertex then .VertexBuffer else .IndexBuffer) in_sizeInBytes stride
  { type := in_type, flags := in_flags, sizeInBytes := in_sizeInBytes,
    m_buffer := { buffer := ring, shadow := shadow, gpu := gpu },
    m_mappedBuffer :=
      if in_flags.mappedOnceAtInitialization then some (ring.mapBuffer in_sizeInBytes).1
      else none }

/-- Method `RenderBufferRHIImpl::onMap`: the region to write to, `none` when the
`check(m_mappedBuffer)` fails. -/
def RenderBufferRHIImpl.onMap (b : RenderBufferRHIImpl) : Option MappedRegion :=
  if b.flags.mappedOnceAtInitialization then b.m_mappedBuffer
  else some (b.m_buffer.buffer.mapBuffer b.sizeInBytes).1

/-- A store through the pointer that `onMap` returned. -/
def RenderBufferRHIImpl.write (b : RenderBufferRHIImpl) (offset : Nat) (data : List Nat) :
    RenderBufferRHIImpl :=
  { b with m_buffer := b.m_buffer.write offset data }

/-- Method `RenderBufferRHIImpl::onUnmap`: `unmapAndSubmitBuffer` of the ring, whose
`onUnmapAndSubmitBuffer` has an empty body. -/
def RenderBufferRHIImpl.onUnmap (b : RenderBufferRHIImpl) : RenderBufferRHIImpl :=
  if b.flags.mappedOnceAtInitialization then b else b

/-- Method `RenderBufferRHIImpl::Sync`: `Sync` of `m_buffer`. -/
def RenderBufferRHIImpl.Sync (b : RenderBufferRHIImpl) : RenderBufferRHIImpl :=
  { b with m_buffer := BufferRingRHIImpl.Sync b.m_buffer }

/-! ## The flush (`RenderContextRHIImpl::flush`) -/

/-- A `ShaderFeatures` flag set; each field says whether `features & FLAG` is non-zero. -/
structure ShaderFeatures where
  ENABLE_CLIPPING : Bool
  ENABLE_CLIP_RECT : Bool
  ENABLE_ADVANCED_BLEND : Bool
  ENABLE_EVEN_ODD : Bool
  ENABLE_NESTED_CLIPPING : Bool
  ENABLE_HSL_BLEND_MODES : Bool
deriving DecidableEq, Repr

/-- Permutation vector `AtomicPixelPermutationDomain`. -/
structure AtomicPixelPermutationDomain where
  FEnableClip : Bool
  FEnableClipRect : Bool
  FEnableNestedClip : Bool
  FEnableAdvanceBlend : Bool
  FEnableFixedFunctionColorBlend : Bool
  FEnableEvenOdd : Bool
  FEnableHSLBlendMode : Bool
deriving DecidableEq, Repr

/-- Permutation vector `AtomicVertexPermutationDomain`. -/
structure AtomicVertexPermutationDomain where
  FEnableClip : Bool
  FEnableClipRect : Bool
  FEnableAdvanceBlend : Bool
deriving DecidableEq, Repr

/-- Function `GetPermutationForFeatures`: writes the two output domains. -/
def GetPermutationForFeatures (features : ShaderFeatures)
    (PixelPermutationDomain : AtomicPixelPermutationDomain)
    (VertexPermutationDomain : AtomicVertexPermutationDomain) :
    AtomicPixelPermutationDomain × AtomicVertexPermutationDomain :=
  let v := { VertexPermutationDomain with FEnableClip := features.ENABLE_CLIPPING }
  let v := { v with FEnableClipRect := features.ENABLE_CLIP_RECT }
  let v := { v with FEnableAdvanceBlend := features.ENABLE_ADVANCED_BLEND }
  let p := { PixelPermutationDomain with FEnableClip := features.ENABLE_CLIPPING }
  let p := { p with FEnableClipRect := features.ENABLE_CLIP_RECT }
  let p := { p with FEnableNestedClip := features.ENABLE_NESTED_CLIPPING }
  let p := { p with FEnableAdvanceBlend := features.ENABLE_ADVANCED_BLEND }
  let p := { p with FEnableFixedFunctionColorBlend := !features.ENABLE_ADVANCED_BLEND }
  let p := { p with FEnableEvenOdd := features.ENABLE_EVEN_ODD }
  let p := { p with FEnableHSLBlendMode := features.ENABLE_HSL_BLEND_MODES }
  (p, v)

/-- A default-constructed pixel permutation domain. -/
def AtomicPixelPermutationDomain.default : AtomicPixelPermutationDomain :=
  { FEnableClip := false, FEnableClipRect := false, FEnableNestedClip := false,
    FEnableAdvanceBlend := false, FEnableFixedFunctionColorBlend := false,
    FEnableEvenOdd := false, FEnableHSLBlendMode := false }

/-- A default-constructed vertex permutation domain. -/
def AtomicVertexPermutationDomain.default : AtomicVertexPermutationDomain :=
  { FEnableClip := false, FEnableClipRect := false, FEnableAdvanceBlend := false }

/-- Enumerators of `LoadAction`. -/
inductive LoadAction
  | clear
  | preserveRenderTarget
  | dontCare
deriving DecidableEq, Repr

/-- A `RenderBuffer` referenced by a draw batch.  `isRHIImpl` says whether
`lite_rtti_cast<const RenderBufferRHIImpl*>` succeeds on it. -/
structure RenderBuffer where
  id : Nat
  isRHIImpl : Bool
  sizeInBytes : Nat
deriving DecidableEq, Repr

/-- Cast `lite_rtti_cast<const RenderBufferRHIImpl*>(pointer)`: null for a null pointer
and for an object of another class. -/
def liteRttiCast (pointer : Option RenderBuffer) : Option RenderBuffer :=
  match pointer with
  | none => none
  | some b => if b.isRHIImpl then some b else none

/-- The fields of a `DrawBatch` that the flush reads.  `imageTexture` is `none` for a
null pointer, otherwise the identity of the texture. -/
structure DrawBatch where
  drawType : DrawType
  elementCount : Nat
  baseElement : Nat
  imageTexture : Option Nat
  vertexBuffer : Option RenderBuffer
  uvBuffer : Option RenderBuffer
  indexBuffer : Option RenderBuffer
  imageDrawDataOffset : Nat
deriving DecidableEq, Repr

/-- A `RenderTargetRHI`, by its extent. -/
structure RenderTargetRHI where
  width : Nat
  height : Nat
deriving DecidableEq, Repr

/-- The fields of a `FlushDescriptor` that the flush reads.  `renderTarget` is `none`
for a null pointer. -/
structure FlushDescriptor where
  renderTarget : Option RenderTargetRHI
  combinedShaderFeatures : ShaderFeatures
  colorLoadAction : LoadAction
  clearColor : Nat
  coverageClearValue : Nat
  flushUniformDataOffsetInBytes : Nat
  pathCount : Nat
  firstPath : Nat
  firstPaint : Nat
  firstPaintAux : Nat
  contourCount : Nat
  firstContour : Nat
  complexGradSpanCount : Nat
  firstComplexGradSpan : Nat
  tessVertexSpanCount : Nat
  firstTessVertexSpan : Nat
  simpleGradTexelsWidth : Nat
  simpleGradTexelsHeight : Nat
  simpleGradDataOffsetInBytes : Nat
  complexGradRowsTop : Nat
  complexGradRowsHeight : Nat
  tessDataHeight : Nat
  drawList : List DrawBatch
deriving DecidableEq, Repr

/-- Buffers on which the flush calls `Sync`. -/
inductive SyncTarget
  | logical (b : LogicalBuffer)
  | renderBuffer (id : Nat)
deriving DecidableEq, Repr

/-- Arguments of a `Sync` call after the command list. -/
inductive SyncRange
  | whole
  | fromOffset (offset : Nat)
  | elements (first count : Nat)
deriving DecidableEq, Repr

/-- Resources named by state transitions, clears and render passes. -/
inductive Resource
  | gradiantTexture
  | tesselationTexture
  | destTexture
  | coverageUAV
  | clipUAV
  | targetUAV
deriving DecidableEq, Repr

/-- Values of `ERHIAccess` used by the flush. -/
inductive ERHIAccess
  | Unknown
  | SRVGraphics
  | RTV
  | CopyDest
  | UAVGraphics
deriving DecidableEq, Repr

/-- Values of `ERenderTargetActions` used by the flush. -/
inductive ERenderTargetActions
  | Clear_Store
  | DontLoad_Store
  | Load_Store
deriving DecidableEq, Repr

/-- The three render passes of the flush, by their debug names. -/
inductive RenderPassName
  | Rive_Render_Gradient
  | RiveTessUpdate
  | Rive_Render_Flush
deriving DecidableEq, Repr

/-- Contents of the `FRHIRenderPassInfo` given to `BeginRenderPass`. -/
inductive RenderPassInfo
  | colorTarget (target : Resource) (action : ERenderTargetActions)
  | resolveRect (x1 y1 x2 y2 : Nat)
deriving DecidableEq, Repr

/-- Shader pairs bound by `BindShaders`. -/
inductive ShaderPair
  | gradient
  | tessellation
  | path
  | interiorTriangles
  | imageRect
  | imageMesh
  | atomicResolve
deriving DecidableEq, Repr

/-- Enumerators of `EVertexDeclarations`. -/
inductive EVertexDeclarations
  | Tessellation
  | Gradient
  | Paths
  | InteriorTriangles
  | ImageRect
  | ImageMesh
  | Resolve
deriving DecidableEq, Repr

/-- Primitive topologies. -/
inductive EPrimitiveType
  | PT_TriangleList
  | PT_TriangleStrip
deriving DecidableEq, Repr

/-- The blend states that the flush assigns: `TStaticBlendState<>`, the fixed-function
state `(CW_RGBA, BO_Add, BF_One, BF_InverseSourceAlpha, BO_Add, BF_One,
BF_InverseSourceAlpha)` and `TStaticBlendState<CW_NONE>`. -/
inductive BlendState
  | standard
  | fixedFunctionOneInverseSourceAlpha
  | colorWriteNone
deriving DecidableEq, Repr

/-- The rasterizer states that the flush assigns, by cull mode and depth clip mode;
`staticSolidCCW` is `GetStaticRasterizerState<false>(FM_Solid, CM_CCW)`. -/
inductive RasterizerState
  | solidNoneDepthClamp
  | solidCCWDepthClip
  | solidNoneDepthClip
  | staticSolidCCW
deriving DecidableEq, Repr

/-- The contents of `GraphicsPSOInit` when `BindShaders` hands it to
`SetGraphicsPipelineState`.  The permutation domains are present for the shaders of the
draw loop. -/
structure PipelineState where
  shaders : ShaderPair
  vertexPermutation : Option AtomicVertexPermutationDomain
  pixelPermutation : Option AtomicPixelPermutationDomain
  vertexDeclaration : EVertexDeclarations
  primitiveType : EPrimitiveType
  blendState : BlendState
  rasterizerState : RasterizerState
deriving DecidableEq, Repr

/-- Vertex stream sources. -/
inductive StreamSource
  | gradSpanBuffer
  | tessSpanBuffer
  | triangleBuffer
  | patchVertexBuffer
  | imageRectVertexBuffer
  | renderBuffer (id : Nat)
deriving DecidableEq, Repr

/-- Index buffers. -/
inductive IndexSource
  | tessSpanIndexBuffer
  | patchIndexBuffer
  | imageRectIndexBuffer
  | renderBuffer (id : Nat)
deriving DecidableEq, Repr

/-- Shader stages. -/
inductive ShaderStage
  | vertex
  | pixel
deriving DecidableEq, Repr

/-- Members of the shader parameter structures that the flush assigns. -/
inductive ShaderBinding
  | FlushUniforms
  | ImageDrawUniforms
  | gradSampler
  | imageSampler
  | gradTexture
  | imageTexture (id : Nat)
  | paintAuxBuffer
  | paintBuffer
  | coverageCountBuffer
  | clipBuffer
  | colorBuffer
  | tessVertexTexture
  | pathBuffer
  | contourBuffer
  | baseInstance (value : Nat)
deriving DecidableEq, Repr

/-- Calls on the command list (and `Sync` calls on buffers) in the order of issue.
Integer arguments are recorded as the source computes them, before any conversion to
the parameter type of the device call. -/
inductive Cmd
  | sync (target : SyncTarget) (range : SyncRange)
  | clearUAVUint (uav : Resource) (x y z w : Nat)
  /-- The colour is `UnpackColorToRGBA32F` of the packed value. -/
  | clearUAVFloat (uav : Resource) (packedColor : Nat)
  | transition (resource : Resource) (before after : ERHIAccess)
  | beginRenderPass (info : RenderPassInfo) (name : RenderPassName)
  | endRenderPass
  | setViewport (minX minY minZ maxX maxY maxZ : Nat)
  | applyCachedRenderTargets
  | setGraphicsPipelineState (pso : PipelineState)
  | setShaderParameters (stage : ShaderStage) (bindings : List ShaderBinding)
  | setStreamSource (streamIndex : Nat) (source : StreamSource) (offset : Nat)
  | drawPrimitive (baseVertexIndex numPrimitives numInstances : Nat)
  | drawIndexedPrimitive (indexBuffer : IndexSource)
      (baseVertexIndex firstInstance numVertices startIndex numPrimitives numInstances : Nat)
  | updateTexture2D (texture : Resource) (destX destY width height sourcePitch : Nat)
      (sourceOffset : Nat)
deriving DecidableEq, Repr

/-- Draw calls. -/
def Cmd.isDraw : Cmd → Bool
  | .drawPrimitive _ _ _ => true
  | .drawIndexedPrimitive _ _ _ _ _ _ _ => true
  | _ => false

/-- Ways in which the flush stops before its last statement. -/
inductive Fault
  | checkFailed
  | assertFailed
  | nullDereference
  | unreachable
deriving DecidableEq, Repr

/-- How a run of the flush ends: it reaches the end of the function, it leaves through
the `return` of `LITE_RTTI_CAST_OR_RETURN`, or it stops in a fatal condition. -/
inductive Exit
  | completed
  | returnedEarly
  | fatal (fault : Fault)
deriving DecidableEq, Repr

/-- One step of straight-line code: a call that is issued, or a condition that ends the
run with `otherwise` when it does not hold (a `check`, an `assert`, the dereference of a
pointer, a cast-or-return). -/
inductive Op
  | emit (c : Cmd)
  | require (ok : Bool) (otherwise : Exit)
deriving DecidableEq, Repr

/-- The part of `flush` that issues a command: the blocks of the function in source
order, a draw-loop iteration being named by the position of its batch in the draw list. -/
inductive Step
  | upload
  | auxClear
  | gradientPass
  | simpleGradientCopy
  | tessellationPass
  | clearDestination
  | beginDrawPass
  | batch (index : Nat)
  | endDrawPass
deriving DecidableEq, Repr

/-- An issued command with the part of `flush` that issued it. -/
structure Issued where
  step : Step
  cmd : Cmd
deriving DecidableEq, Repr

/-- Outcome of a run: the commands issued, oldest first, and how the run ended. -/
structure FlushRun where
  issued : List Issued
  exit : Exit
deriving DecidableEq, Repr

/-- Executes straight-line code: commands are issued in order until a condition fails. -/
def runOps : List (Step × Op) → FlushRun
  | [] => { issued := [], exit := .completed }
  | (s, .emit c) :: rest =>
    let r := runOps rest
    { issued := { step := s, cmd := c } :: r.issued, exit := r.exit }
  | (_, .require ok otherwise) :: rest =>
    if ok then runOps rest else { issued := [], exit := otherwise }

/-- Attributes the code of one block to its step. -/
def inStep (s : Step) (ops : List Op) : List (Step × Op) :=
  ops.map fun o => (s, o)

/-- Macros `SYNC_BUFFER` and `SYNC_BUFFER_WITH_OFFSET`: `Sync` when the pointer is set. -/
def syncIfPresent (present : Bool) (target : SyncTarget) (range : SyncRange) : List Op :=
  if present then [.emit (.sync target range)] else []

/-- Dereference of a member pointer: the run stops when the pointer is null. -/
def deref (present : Bool) : Op :=
  .require present (.fatal .nullDereference)

/-- Statement `check(pointer)`. -/
def check (present : Bool) : Op :=
  .require present (.fatal .checkFailed)

/-- Upload block of `flush`: from `SYNC_BUFFER_WITH_OFFSET(m_flushUniformBuffer, ...)` to
`SYNC_BUFFER(m_triangleBuffer, ...)`. -/
def uploadOps (ctx : RenderContextRHIImpl) (desc : FlushDescriptor) : List Op :=
  syncIfPresent ctx.m_flushUniformBuffer.isSome (.logical .flushUniform)
      (.fromOffset desc.flushUniformDataOffsetInBytes)
  ++ (if desc.pathCount > 0 then
        [check ctx.m_pathBuffer.isSome,
         check ctx.m_paintBuffer.isSome,
         check ctx.m_paintAuxBuffer.isSome,
         .emit (.sync (.logical .path) (.elements desc.firstPath desc.pathCount)),
         .emit (.sync (.logical .paint) (.elements desc.firstPaint desc.pathCount)),
         .emit (.sync (.logical .paintAux) (.elements desc.firstPaintAux desc.pathCount))]
      else [])
  ++ (if desc.contourCount > 0 then
        [check ctx.m_contourBuffer.isSome,
         .emit (.sync (.logical .contour) (.elements desc.firstContour desc.contourCount))]
      else [])
  ++ syncIfPresent ctx.m_gradSpanBuffer.isSome (.logical .gradSpan) .whole
  ++ syncIfPresent ctx.m_tessSpanBuffer.isSome (.logical .tessSpan) .whole
  ++ syncIfPresent ctx.m_triangleBuffer.isSome (.logical .triangle) .whole

/-- Clears of the coverage and clip views that precede the passes. -/
def auxClearOps (desc : FlushDescriptor) : List Op :=
  [.emit (.clearUAVUint .coverageUAV desc.coverageClearValue desc.coverageClearValue
      desc.coverageClearValue desc.coverageClearValue)]
  ++ (if desc.combinedShaderFeatures.ENABLE_CLIPPING then
        [.emit (.clearUAVUint .clipUAV 0 0 0 0)]
      else [])

/-- Block `if (desc.complexGradSpanCount > 0)`.  `GraphicsPSOInit` holds the default
blend state and the rasterizer state assigned at the top of `flush`. -/
def gradientPassOps (k : GpuConstants) (ctx : RenderContextRHIImpl) (desc : FlushDescriptor) :
    List Op :=
  if desc.complexGradSpanCount > 0 then
    [check ctx.m_gradiantTexture.isSome,
     .emit (.transition .gradiantTexture .SRVGraphics .RTV),
     .emit (.beginRenderPass (.colorTarget .gradiantTexture .Clear_Store) .Rive_Render_Gradient),
     .emit (.setViewport 0 desc.complexGradRowsTop 0 k.kGradTextureWidth
        ((desc.complexGradRowsTop + desc.complexGradRowsHeight) % 2 ^ 32) 1),
     .emit .applyCachedRenderTargets,
     .emit (.setGraphicsPipelineState
        { shaders := .gradient, vertexPermutation := none, pixelPermutation := none,
          vertexDeclaration := .Gradient, primitiveType := .PT_TriangleStrip,
          blendState := .standard, rasterizerState := .solidNoneDepthClamp }),
     deref ctx.m_flushUniformBuffer.isSome,
     .emit (.setShaderParameters .vertex [.FlushUniforms]),
     .emit (.setShaderParameters .pixel [.FlushUniforms]),
     deref ctx.m_gradSpanBuffer.isSome,
     .emit (.setStreamSource 0 .gradSpanBuffer
        ((desc.firstComplexGradSpan * k.sizeofGradientSpan) % 2 ^ 64)),
     .emit (.drawPrimitive 0 2 desc.complexGradSpanCount),
     .emit .endRenderPass,
     .emit (.transition .gradiantTexture .RTV .SRVGraphics)]
  else []

/-- Capacity of the simple colour ramps ring, zero when it is absent. -/
def simpleColorRampsCapacity (ctx : RenderContextRHIImpl) : Nat :=
  match ctx.m_simpleColorRampsBuffer with
  | none => 0
  | some b => b.ring.capacityInBytes

/-- Block `if (desc.simpleGradTexelsHeight > 0)`.  The `assert` is taken as active; its
left side is a product of 32-bit unsigned values. -/
def simpleGradientCopyOps (k : GpuConstants) (ctx : RenderContextRHIImpl)
    (desc : FlushDescriptor) : List Op :=
  if desc.simpleGradTexelsHeight > 0 then
    [deref ctx.m_simpleColorRampsBuffer.isSome,
     .require (decide ((desc.simpleGradTexelsHeight * desc.simpleGradTexelsWidth * 4) % 2 ^ 32
        ≤ simpleColorRampsCapacity ctx)) (.fatal .assertFailed),
     .emit (.transition .gradiantTexture .SRVGraphics .CopyDest),
     .emit (.updateTexture2D .gradiantTexture 0 0 desc.simpleGradTexelsWidth
        desc.simpleGradTexelsHeight (k.kGradTextureWidth * 4) desc.simpleGradDataOffsetInBytes),
     .emit (.transition .gradiantTexture .CopyDest .SRVGraphics)]
  else []

/-- Capacity of the tessellation span ring, zero when it is absent. -/
def tessSpanCapacity (ctx : RenderContextRHIImpl) : Nat :=
  match ctx.m_tessSpanBuffer with
  | none => 0
  | some b => b.ring.capacityInBytes

/-- Block `if (desc.tessVertexSpanCount > 0)`.  `numTessVerts` is a `size_t` difference. -/
def tessellationPassOps (k : GpuConstants) (ctx : RenderContextRHIImpl)
    (desc : FlushDescriptor) : List Op :=
  if desc.tessVertexSpanCount > 0 then
    [check ctx.m_tesselationTexture.isSome,
     .emit (.transition .tesselationTexture .SRVGraphics .RTV),
     .emit (.beginRenderPass (.colorTarget .tesselationTexture .DontLoad_Store) .RiveTessUpdate),
     .emit .applyCachedRenderTargets,
     .emit (.setGraphicsPipelineState
        { shaders := .tessellation, vertexPermutation := none, pixelPermutation := none,
          vertexDeclaration := .Tessellation, primitiveType := .PT_TriangleList,
          blendState := .standard, rasterizerState := .solidCCWDepthClip }),
     deref ctx.m_tessSpanBuffer.isSome,
     .emit (.setStreamSource 0 .tessSpanBuffer
        ((desc.firstTessVertexSpan * sizeofTessVertexSpan) % 2 ^ 64)),
     deref ctx.m_flushUniformBuffer.isSome,
     deref ctx.m_pathBuffer.isSome,
     deref ctx.m_contourBuffer.isSome,
     .emit (.setShaderParameters .vertex [.FlushUniforms, .pathBuffer, .contourBuffer]),
     .emit (.setShaderParameters .pixel [.FlushUniforms]),
     .emit (.setViewport 0 0 0 k.kTessTextureWidth desc.tessDataHeight 1),
     .emit (.drawIndexedPrimitive .tessSpanIndexBuffer 0 desc.firstTessVertexSpan
        ((tessSpanCapacity ctx / sizeofTessVertexSpan + 2 ^ 64
            - desc.firstTessVertexSpan % 2 ^ 64) % 2 ^ 64)
        0 (k.kTessSpanIndicesCount / 3) desc.tessVertexSpanCount),
     .emit .endRenderPass,
     .emit (.transition .tesselationTexture .RTV .SRVGraphics)]
  else []

/-- Statement `switch (desc.colorLoadAction)`: the commands it issues. -/
def clearDestinationOps (desc : FlushDescriptor) : List Op :=
  match desc.colorLoadAction with
  | .clear => [.emit (.clearUAVFloat .targetUAV desc.clearColor)]
  | .preserveRenderTarget => []
  | .dontCare => []

/-- Statement `switch (desc.colorLoadAction)`: the value it leaves in `loadAction`. -/
def loadActionFor : LoadAction → ERenderTargetActions
  | .clear => .Load_Store
  | .preserveRenderTarget => .Load_Store
  | .dontCare => .DontLoad_Store

/-- Blend state of the draw pass. -/
def drawPassBlendState (features : ShaderFeatures) : BlendState :=
  if !features.ENABLE_ADVANCED_BLEND then .fixedFunctionOneInverseSourceAlpha
  else .colorWriteNone

/-- From `FRHIRenderPassInfo Info;` to the `ApplyCachedRenderTargets` before the loop. -/
def beginDrawPassOps (desc : FlushDescriptor) (renderTarget : RenderTargetRHI) : List Op :=
  (if !desc.combinedShaderFeatures.ENABLE_ADVANCED_BLEND then
      [.emit (.transition .destTexture .UAVGraphics .RTV)]
    else [])
  ++ [.emit (.beginRenderPass
        (if !desc.combinedShaderFeatures.ENABLE_ADVANCED_BLEND then
            .colorTarget .destTexture (loadActionFor desc.colorLoadAction)
          else .resolveRect 0 0 renderTarget.width renderTarget.height)
        .Rive_Render_Flush),
      .emit (.setViewport 0 0 0 renderTarget.width renderTarget.height 1),
      .emit .applyCachedRenderTargets]

/-- Pixel parameters shared by the path, triangle and resolve shaders after
`FlushUniforms`. -/
def sharedPixelBindings : List ShaderBinding :=
  [.paintAuxBuffer, .paintBuffer, .coverageCountBuffer, .clipBuffer, .colorBuffer]

/-- Pipeline state that a case of the draw loop hands to `BindShaders`. -/
def batchPipelineState (desc : FlushDescriptor) (shaders : ShaderPair)
    (decl : EVertexDeclarations) (prim : EPrimitiveType) (raster : RasterizerState) :
    PipelineState :=
  let perms := GetPermutationForFeatures desc.combinedShaderFeatures
    AtomicPixelPermutationDomain.default AtomicVertexPermutationDomain.default
  { shaders := shaders, vertexPermutation := some perms.2, pixelPermutation := some perms.1,
    vertexDeclaration := decl, primitiveType := prim,
    blendState := drawPassBlendState desc.combinedShaderFeatures, rasterizerState := raster }

/-- The `switch (batch.drawType)` of the draw loop. -/
def drawTypeOps (k : GpuConstants) (ctx : RenderContextRHIImpl) (desc : FlushDescriptor)
    (batch : DrawBatch) : List Op :=
  match batch.drawType with
  | .midpointFanPatches | .outerCurvePatches =>
    [.emit (.setGraphicsPipelineState
        (batchPipelineState desc .path .Paths .PT_TriangleList .staticSolidCCW)),
     deref ctx.m_flushUniformBuffer.isSome,
     deref ctx.m_paintAuxBuffer.isSome,
     deref ctx.m_paintBuffer.isSome,
     deref ctx.m_pathBuffer.isSome,
     deref ctx.m_contourBuffer.isSome,
     .emit (.setShaderParameters .vertex
        [.FlushUniforms, .tessVertexTexture, .pathBuffer, .contourBuffer,
         .baseInstance batch.baseElement]),
     .emit (.setShaderParameters .pixel
        ([.FlushUniforms, .gradSampler, .gradTexture] ++ sharedPixelBindings)),
     .emit (.setStreamSource 0 .patchVertexBuffer 0),
     .emit (.drawIndexedPrimitive .patchIndexBuffer 0 0 k.kPatchVertexBufferCount
        (k.PatchBaseIndex batch.drawType) (k.PatchIndexCount batch.drawType / 3)
        batch.elementCount)]
  | .interiorTriangulation =>
    [.emit (.setGraphicsPipelineState
        (batchPipelineState desc .interiorTriangles .InteriorTriangles .PT_TriangleList
          .staticSolidCCW)),
     deref ctx.m_flushUniformBuffer.isSome,
     deref ctx.m_paintAuxBuffer.isSome,
     deref ctx.m_paintBuffer.isSome,
     deref ctx.m_pathBuffer.isSome,
     .emit (.setShaderParameters .vertex [.FlushUniforms, .pathBuffer]),
     .emit (.setShaderParameters .pixel
        ([.FlushUniforms, .gradSampler, .gradTexture] ++ sharedPixelBindings)),
     deref ctx.m_triangleBuffer.isSome,
     .emit (.setStreamSource 0 .triangleBuffer 0),
     .emit (.drawPrimitive batch.baseElement (batch.elementCount / 3) 1)]
  | .imageRect =>
    syncIfPresent ctx.m_imageDrawUniformBuffer.isSome (.logical .imageDrawUniform)
        (.fromOffset batch.imageDrawDataOffset)
    ++ [.emit (.setGraphicsPipelineState
          (batchPipelineState desc .imageRect .ImageRect .PT_TriangleList .solidNoneDepthClip)),
        deref ctx.m_flushUniformBuffer.isSome,
        deref ctx.m_imageDrawUniformBuffer.isSome,
        deref batch.imageTexture.isSome,
        deref ctx.m_paintAuxBuffer.isSome,
        deref ctx.m_paintBuffer.isSome,
        .emit (.setShaderParameters .vertex [.FlushUniforms, .ImageDrawUniforms]),
        .emit (.setShaderParameters .pixel
          ([.FlushUniforms, .ImageDrawUniforms, .gradTexture,
            .imageTexture (batch.imageTexture.getD 0), .gradSampler, .imageSampler]
            ++ sharedPixelBindings)),
        .emit (.setStreamSource 0 .imageRectVertexBuffer 0),
        .emit (.drawIndexedPrimitive .imageRectIndexBuffer 0 0 k.kImageRectVerticesCount 0
          (k.kImageRectIndicesCount / 3) 1)]
  | .imageMesh =>
    syncIfPresent ctx.m_imageDrawUniformBuffer.isSome (.logical .imageDrawUniform)
        (.fromOffset batch.imageDrawDataOffset)
    ++ (match liteRttiCast batch.indexBuffer, liteRttiCast batch.vertexBuffer,
            liteRttiCast batch.uvBuffer with
        | some IndexBuffer, some VertexBuffer, some UVBuffer =>
          [.emit (.sync (.renderBuffer IndexBuffer.id) .whole),
           .emit (.sync (.renderBuffer VertexBuffer.id) .whole),
           .emit (.sync (.renderBuffer UVBuffer.id) .whole),
           .emit (.setGraphicsPipelineState
              (batchPipelineState desc .imageMesh .ImageMesh .PT_TriangleList
                .solidNoneDepthClip)),
           .emit (.setStreamSource 0 (.renderBuffer VertexBuffer.id) 0),
           .emit (.setStreamSource 1 (.renderBuffer UVBuffer.id) 0),
           deref ctx.m_flushUniformBuffer.isSome,
           deref ctx.m_imageDrawUniformBuffer.isSome,
           deref batch.imageTexture.isSome,
           deref ctx.m_paintAuxBuffer.isSome,
           deref ctx.m_paintBuffer.isSome,
           .emit (.setShaderParameters .vertex [.FlushUniforms, .ImageDrawUniforms]),
           .emit (.setShaderParameters .pixel
              ([.FlushUniforms, .ImageDrawUniforms, .gradTexture,
                .imageTexture (batch.imageTexture.getD 0), .gradSampler, .imageSampler]
                ++ sharedPixelBindings)),
           .emit (.drawIndexedPrimitive (.renderBuffer IndexBuffer.id) 0 0
              (VertexBuffer.sizeInBytes / k.sizeofVec2D) 0 (batch.elementCount / 3) 1)]
        | _, _, _ => [.require false .returnedEarly])
  | .gpuAtomicResolve =>
    [.emit (.setGraphicsPipelineState
        (batchPipelineState desc .atomicResolve .Resolve .PT_TriangleStrip
          .solidNoneDepthClip)),
     deref ctx.m_paintAuxBuffer.isSome,
     deref ctx.m_paintBuffer.isSome,
     deref ctx.m_flushUniformBuffer.isSome,
     .emit (.setShaderParameters .vertex [.FlushUniforms]),
     .emit (.setShaderParameters .pixel ([.gradTexture, .gradSampler] ++ sharedPixelBindings)),
     .emit (.drawPrimitive 0 2 1)]
  | .gpuAtomicInitialize | .stencilClipReset =>
    [.require false (.fatal .unreachable)]

/-- Body of the draw loop for one batch. -/
def batchOps (k : GpuConstants) (ctx : RenderContextRHIImpl) (desc : FlushDescriptor)
    (batch : DrawBatch) : List Op :=
  if batch.elementCount == 0 then []
  else
    [.emit (.transition .coverageUAV .UAVGraphics .UAVGraphics)]
    ++ (if desc.combinedShaderFeatures.ENABLE_CLIPPING then
          [.emit (.transition .clipUAV .UAVGraphics .UAVGraphics)]
        else [])
    ++ (if desc.combinedShaderFeatures.ENABLE_ADVANCED_BLEND then
          [.emit (.transition .targetUAV .UAVGraphics .UAVGraphics)]
        else [])
    ++ drawTypeOps k ctx desc batch

/-- Statement `for (const DrawBatch& batch : *desc.drawList)`; `index` is the position of
the head of the remaining list in the draw list. -/
def drawLoopOps (k : GpuConstants) (ctx : RenderContextRHIImpl) (desc : FlushDescriptor) :
    Nat → List DrawBatch → List (Step × Op)
  | _, [] => []
  | index, batch :: rest =>
    inStep (.batch index) (batchOps k ctx desc batch) ++ drawLoopOps k ctx desc (index + 1) rest

/-- From `CommandList.EndRenderPass()` to the end of `flush`. -/
def endDrawPassOps (desc : FlushDescriptor) : List Op :=
  [.emit .endRenderPass]
  ++ (if desc.combinedShaderFeatures.ENABLE_ADVANCED_BLEND then
        [.emit (.transition .destTexture .UAVGraphics .UAVGraphics)]
      else
        [.emit (.transition .destTexture .RTV .UAVGraphics)])

/-- The code of `flush` after the render target has been read from the descriptor. -/
def flushOps (k : GpuConstants) (ctx : RenderContextRHIImpl) (desc : FlushDescriptor)
    (renderTarget : RenderTargetRHI) : List (Step × Op) :=
  inStep .upload (uploadOps ctx desc)
  ++ inStep .auxClear (auxClearOps desc)
  ++ inStep .gradientPass (gradientPassOps k ctx desc)
  ++ inStep .simpleGradientCopy (simpleGradientCopyOps k ctx desc)
  ++ inStep .tessellationPass (tessellationPassOps k ctx desc)
  ++ inStep .clearDestination (clearDestinationOps desc)
  ++ inStep .beginDrawPass (beginDrawPassOps desc renderTarget)
  ++ drawLoopOps k ctx desc 0 desc.drawList
  ++ inStep .endDrawPass (endDrawPassOps desc)

/-- Model of `RenderContextRHIImpl::flush`. -/
def flush (k : GpuConstants) (ctx : RenderContextRHIImpl) (desc : FlushDescriptor) : FlushRun :=
  match desc.renderTarget with
  | none => { issued := [], exit := .fatal .nullDereference }
  | some renderTarget => runOps (flushOps k ctx desc renderTarget)

/-- Commands that `flush` issues, without their origin. -/
def flushCmds (k : GpuConstants) (ctx : RenderContextRHIImpl) (desc : FlushDescriptor) :
    List Cmd :=
  (flush k ctx desc).issued.map Issued.cmd

/-! ## Gradient and tessellation textures -/

/-- Conversion `static_cast<int32_t>` of an unsigned 32-bit value. -/
def toInt32 (v : Nat) : Int :=
  if v % 2 ^ 32 < 2 ^ 31 then ((v % 2 ^ 32 : Nat) : Int) else ((v % 2 ^ 32 : Nat) : Int) - 2 ^ 32

/-- Calls on the immediate command list made by the texture resize methods. -/
inductive TextureCall
  | createTexture (texture : Texture2D)
  | transition (resource : Resource) (before after : ERHIAccess)
  | createShaderResourceView (resource : Resource)
deriving DecidableEq, Repr

/-- Method `RenderContextRHIImpl::resizeGradientTexture`: the context after the call and
the device calls it makes. -/
def resizeGradientTexture (ctx : RenderContextRHIImpl) (width height : Nat) :
    RenderContextRHIImpl × List TextureCall :=
  if width == 0 && height == 0 then
    ({ ctx with m_gradiantTexture := none }, [])
  else
    let width := max width 1
    let height := max height 1
    let texture : Texture2D :=
      { width := toInt32 width, height := toInt32 height, format := .PF_R8G8B8A8 }
    ({ ctx with m_gradiantTexture := some texture },
      [.createTexture texture, .transition .gradiantTexture .Unknown .SRVGraphics])

/-- Method `RenderContextRHIImpl::resizeTessellationTexture`: the context after the call
and the device calls it makes.  `m_tessSRV` is assigned only when a texture is created. -/
def resizeTessellationTexture (ctx : RenderContextRHIImpl) (width height : Nat) :
    RenderContextRHIImpl × List TextureCall :=
  if width == 0 && height == 0 then
    ({ ctx with m_tesselationTexture := none }, [])
  else
    let width := max width 1
    let height := max height 1
    let texture : Texture2D :=
      { width := toInt32 width, height := toInt32 height, format := .PF_R32G32B32A32_UINT }
    ({ ctx with m_tesselationTexture := some texture, m_tessSRV := true },
      [.createTexture texture, .transition .tesselationTexture .Unknown .SRVGraphics,
       .createShaderResourceView .tesselationTexture])

/-! ## The actor component (`URiveActorComponent`) -/

/-- A `URiveFile` object as `AddArtboard` sees it. -/
structure URiveFile where
  object : Nat
  /-- Result of `IsValid` on the object. -/
  isValid : Bool
  /-- Result of `IsInitialized()`. -/
  isInitialized : Bool
deriving DecidableEq, Repr

/-- An `IRiveRenderer`, by the result of `IsInitialized()`. -/
structure IRiveRenderer where
  isInitialized : Bool
deriving DecidableEq, Repr

/-- The renderer module as `AddArtboard` finds it: the result of `IsAvailable()` and the
pointer that `Get().GetRenderer()` returns (`none` for a null pointer). -/
structure IRiveRendererModule where
  isAvailable : Bool
  renderer : Option IRiveRenderer
deriving DecidableEq, Repr

/-- Arguments of `URiveArtboard::Initialize`. -/
structure ArtboardSetup where
  file : Nat
  renderTarget : Option Nat
  artboardName : String
  stateMachineName : String
deriving DecidableEq, Repr

/-- A `URiveArtboard` object: its identity, the arguments with which it was set up and
the audio engine given to it. -/
structure URiveArtboard where
  object : Nat
  setup : Option ArtboardSetup
  audioEngine : Option Nat
deriving DecidableEq, Repr

/-- The members of `URiveActorComponent` that `AddArtboard` and the artboard getters
read or write.  `Artboards` is a `TArray`, kept as the list of its elements. -/
structure URiveActorComponent where
  Artboards : List URiveArtboard
  RiveRenderTarget : Option Nat
  RiveAudioEngine : Option Nat
deriving DecidableEq, Repr

/-- Method `URiveActorComponent::GetArtboardCount`: `Artboards.Num()`. -/
def URiveActorComponent.GetArtboardCount (comp : URiveActorComponent) : Int :=
  comp.Artboards.length

/-- Method `URiveActorComponent::AddArtboard`.  `InRiveFile` is `none` for a null
pointer, `newObject` is the identity of the object that `NewObject<URiveArtboard>()`
creates.  The result is the returned pointer (`none` for `nullptr`) and the component
after the call. -/
def URiveActorComponent.AddArtboard (rendererModule : IRiveRendererModule) (newObject : Nat)
    (comp : URiveActorComponent) (InRiveFile : Option URiveFile)
    (InArtboardName InStateMachineName : String) :
    Option URiveArtboard × URiveActorComponent :=
  match InRiveFile with
  | none => (none, comp)
  | some file =>
    if !file.isValid then (none, comp)
    else if !file.isInitialized then (none, comp)
    else if !rendererModule.isAvailable then (none, comp)
    else
      match rendererModule.renderer with
      | none => (none, comp)
      | some RiveRenderer =>
        if !RiveRenderer.isInitialized then (none, comp)
        else
          let Artboard : URiveArtboard :=
            { object := newObject,
              setup := some { file := file.object, renderTarget := comp.RiveRenderTarget,
                              artboardName := InArtboardName,
                              stateMachineName := InStateMachineName },
              audioEngine := none }
          let Artboard :=
            match comp.RiveAudioEngine with
            | some engine => { Artboard with audioEngine := some engine }
            | none => Artboard
          (some Artboard, { comp with Artboards := comp.Artboards ++ [Artboard] })

/-- Outcome of `GetArtboardAtIndex`: the pointer it returns, or an access to the array
at a position that the array does not have. -/
inductive ArtboardLookup
  | returned (artboard : Option URiveArtboard)
  | indexedOutOfBounds (index : Int)
deriving DecidableEq, Repr

/-- Expression `Artboards[InIndex]` on a `TArray`: the element when
`0 <= InIndex < Num()`, otherwise an access outside the array. -/
def TArrayAt (array : List URiveArtboard) (index : Int) : ArtboardLookup :=
  if 0 ≤ index then
    match array[index.toNat]? with
    | some a => .returned (some a)
    | none => .indexedOutOfBounds index
  else .indexedOutOfBounds index

/-- Method `URiveActorComponent::GetArtboardAtIndex`; `InIndex` is an `int32`. -/
def URiveActorComponent.GetArtboardAtIndex (comp : URiveActorComponent) (InIndex : Int) :
    ArtboardLookup :=
  if comp.Artboards.isEmpty then .returned none
  else if InIndex ≥ comp.GetArtboardCount then .returned none
  else TArrayAt comp.Artboards InIndex

/-- Method `URiveActorComponent::GetDefaultArtboard`. -/
def URiveActorComponent.GetDefaultArtboard (comp : URiveActorComponent) : ArtboardLookup :=
  comp.GetArtboardAtIndex 0

/-! ## Construction of a render target (`RenderTargetRHI::RenderTargetRHI`) -/

/-- The resource members of `RenderTargetRHI`. -/
inductive RenderTargetMember
  | m_textureTarget
  | m_atomicCoverageTexture
  | m_scratchColorTexture
  | m_clipTexture
  | m_coverageUAV
  | m_clipUAV
  | m_scratchColorUAV
  | m_targetUAV
deriving DecidableEq, Repr

/-- Values of `ETextureCreateFlags` that the constructor adds. -/
inductive ETextureCreateFlags
  | UAV
  | Memoryless
deriving DecidableEq, Repr

/-- An `FRHITextureCreateDesc` as the constructor fills it. -/
structure FRHITextureCreateDesc where
  debugName : String
  sizeX : Int
  sizeY : Int
  format : EPixelFormat
  numMips : Nat
  flags : List ETextureCreateFlags
deriving DecidableEq, Repr

/-- The statements of the constructor body, members named as the source names them. -/
inductive RenderTargetStatement
  | createTexture (member : RenderTargetMember) (desc : FRHITextureCreateDesc)
  | transition (member : RenderTargetMember) (before after : ERHIAccess)
  | createUnorderedAccessView (member texture : RenderTargetMember)
deriving DecidableEq, Repr

/-- A call on the command list made by the constructor.  For a call that names a
member, `isSet` says whether the member holds a resource when the call is made. -/
inductive RenderTargetCall
  | createTexture (desc : FRHITextureCreateDesc)
  | transition (member : RenderTargetMember) (isSet : Bool) (before after : ERHIAccess)
  | createUnorderedAccessView (texture : RenderTargetMember) (isSet : Bool)
deriving DecidableEq, Repr

/-- Conversion of a signed 32-bit value to `uint32`. -/
def toUInt32 (v : Int) : Nat :=
  (v % 2 ^ 32).toNat

/-- Method `GetSizeX()` of the destination texture: the extent as `uint32`. -/
def Texture2D.GetSizeX (t : Texture2D) : Nat :=
  toUInt32 t.width

/-- Method `GetSizeY()` of the destination texture: the extent as `uint32`. -/
def Texture2D.GetSizeY (t : Texture2D) : Nat :=
  toUInt32 t.height

/-- The descriptor `FRHITextureCreateDesc::Create2D(name, width(), height(), format)`
with one mip and the given flags; `Create2D` takes the extent as `int32`. -/
def auxiliaryTextureDesc (name : String) (width height : Nat) (format : EPixelFormat)
    (flags : List ETextureCreateFlags) : FRHITextureCreateDesc :=
  { debugName := name, sizeX := toInt32 width, sizeY := toInt32 height, format := format,
    numMips := 1, flags := flags }

/-- Body of the constructor `RenderTargetRHI::RenderTargetRHI`, for a target of the
given `width()` and `height()`. -/
def RenderTargetRHI.constructorBody (width height : Nat) : List RenderTargetStatement :=
  [.createTexture .m_atomicCoverageTexture
      (auxiliaryTextureDesc "RiveAtomicCoverage" width height .PF_R32_UINT
        [.UAV, .Memoryless]),
   .createTexture .m_scratchColorTexture
      (auxiliaryTextureDesc "RiveScratchColor" width height .PF_R8G8B8A8 [.UAV]),
   .createTexture .m_clipTexture
      (auxiliaryTextureDesc "RiveClip" width height .PF_R32_UINT [.UAV]),
   .transition .m_coverageUAV .Unknown .UAVGraphics,
   .transition .m_scratchColorTexture .Unknown .UAVGraphics,
   .transition .m_clipTexture .Unknown .UAVGraphics,
   .transition .m_textureTarget .Unknown .UAVGraphics,
   .createUnorderedAccessView .m_coverageUAV .m_atomicCoverageTexture,
   .createUnorderedAccessView .m_clipUAV .m_clipTexture,
   .createUnorderedAccessView .m_scratchColorUAV .m_scratchColorTexture,
   .createUnorderedAccessView .m_targetUAV .m_textureTarget]

/-- Runs statements of the constructor: `assigned` are the members that hold a resource
so far; the result is the calls made, in order. -/
def runConstructor (assigned : List RenderTargetMember) :
    List RenderTargetStatement → List RenderTargetCall
  | [] => []
  | .createTexture member desc :: rest =>
    .createTexture desc :: runConstructor (member :: assigned) rest
  | .transition member before after :: rest =>
    .transition member (decide (member ∈ assigned)) before after :: runConstructor assigned rest
  | .createUnorderedAccessView member texture :: rest =>
    .createUnorderedAccessView texture (decide (texture ∈ assigned))
      :: runConstructor (member :: assigned) rest

/-- What the construction of a `RenderTargetRHI` over a destination texture yields: the
extent of the target and the calls made on the command list. -/
structure RenderTargetConstruction where
  target : RenderTargetRHI
  calls : List RenderTargetCall
deriving DecidableEq, Repr

/-- Constructor `RenderTargetRHI::RenderTargetRHI(RHICmdList, InTextureTarget)`: the
member initialisers take the extent from the destination texture and store its
reference in `m_textureTarget`, then the body runs. -/
def RenderTargetRHI.construct (InTextureTarget : Texture2D) : RenderTargetConstruction :=
  let width := InTextureTarget.GetSizeX
  let height := InTextureTarget.GetSizeY
  { target := { width := width, height := height },
    calls := runConstructor [.m_textureTarget] (RenderTargetRHI.constructorBody width height) }

/-- The descriptors of the textures that a sequence of constructor calls creates. -/
def createdTextureDescs : List RenderTargetCall → List FRHITextureCreateDesc
  | [] => []
  | .createTexture desc :: rest => desc :: createdTextureDescs rest
  | _ :: rest => createdTextureDescs rest

/-- A call that names a member which holds no resource yet. -/
def RenderTargetCall.namesUnsetMember : RenderTargetCall → Bool
  | .createTexture _ => false
  | .transition _ isSet _ _ => !isSet
  | .createUnorderedAccessView _ isSet => !isSet

/-! ## Vocabulary of the properties -/

/-- Commands that straight-line code issues when no condition fails. -/
def emitted : List (Step × Op) → List Issued
  | [] => []
  | (s, .emit c) :: rest => { step := s, cmd := c } :: emitted rest
  | (_, .require _ _) :: rest => emitted rest

/-- Draw call issued by a draw-loop iteration. -/
def Issued.isBatchDraw (x : Issued) : Bool :=
  match x.step with
  | .batch _ => x.cmd.isDraw
  | _ => false

/-- Draw call issued by the draw-loop iteration of the batch at position `index`. -/
def Issued.isDrawOfBatch (x : Issued) (index : Nat) : Prop :=
  x.step = .batch index ∧ x.cmd.isDraw = true

/-- Order of two issued commands that are draw calls of batches: the batch of the first
comes earlier in the draw list. -/
def batchDrawsAscend (x y : Issued) : Prop :=
  ∀ a b, x.isDrawOfBatch a → y.isDrawOfBatch b → a < b

/-- `Sync` on the path, paint or paint-aux buffer. -/
def Cmd.isPathPaintSync : Cmd → Bool
  | .sync (.logical .path) _ => true
  | .sync (.logical .paint) _ => true
  | .sync (.logical .paintAux) _ => true
  | _ => false

/-- Indexed draw over the shared patch index buffer. -/
def Cmd.isPatchDraw : Cmd → Bool
  | .drawIndexedPrimitive .patchIndexBuffer _ _ _ _ _ _ => true
  | _ => false

/-- The shader pair of a `SetGraphicsPipelineState` call. -/
def Cmd.boundShaders : Cmd → Option ShaderPair
  | .setGraphicsPipelineState pso => some pso.shaders
  | _ => none

/-- Every buffer and texture that a flush may read is allocated. -/
def RenderContextRHIImpl.allAllocated (ctx : RenderContextRHIImpl) : Prop :=
  ctx.m_flushUniformBuffer.isSome = true ∧ ctx.m_imageDrawUniformBuffer.isSome = true ∧
  ctx.m_pathBuffer.isSome = true ∧ ctx.m_paintBuffer.isSome = true ∧
  ctx.m_paintAuxBuffer.isSome = true ∧ ctx.m_contourBuffer.isSome = true ∧
  ctx.m_simpleColorRampsBuffer.isSome = true ∧ ctx.m_gradSpanBuffer.isSome = true ∧
  ctx.m_tessSpanBuffer.isSome = true ∧ ctx.m_triangleBuffer.isSome = true ∧
  ctx.m_gradiantTexture.isSome = true ∧ ctx.m_tesselationTexture.isSome = true

/-- The capacity assertion of the simple gradient copy holds (it is evaluated only when
`simpleGradTexelsHeight > 0`). -/
def simpleGradientFits (ctx : RenderContextRHIImpl) (desc : FlushDescriptor) : Prop :=
  desc.simpleGradTexelsHeight > 0 →
    (desc.simpleGradTexelsHeight * desc.simpleGradTexelsWidth * 4) % 2 ^ 32
      ≤ simpleColorRampsCapacity ctx

/-- Code steps that issue a draw call. -/
def Op.isDraw : Op → Bool
  | .emit c => c.isDraw
  | .require _ _ => false

/-- No command of the list is the draw call of a batch. -/
def noBatchDraws (l : List Issued) : Prop :=
  ∀ x ∈ l, ∀ a, ¬ x.isDrawOfBatch a

/-- Fatal stops. -/
def Exit.isFatal : Exit → Bool
  | .fatal _ => true
  | _ => false

/-- Position of a block of `flush` in the source: the number of the state of the flush
state machine it belongs to (all loop iterations share one number). -/
def Step.phase : Step → Nat
  | .upload => 0
  | .auxClear => 1
  | .gradientPass => 2
  | .simpleGradientCopy => 3
  | .tessellationPass => 4
  | .clearDestination => 5
  | .beginDrawPass => 6
  | .batch _ => 7
  | .endDrawPass => 8

/-- Position in the draw list of the batch of a loop iteration (zero for other blocks). -/
def Step.batchIndex : Step → Nat
  | .batch i => i
  | _ => 0

/-- Source order of two blocks: an earlier state, or the same state and a batch that is
not later in the draw list. -/
def Step.le (s t : Step) : Prop :=
  s.phase < t.phase ∨ (s.phase = t.phase ∧ s.batchIndex ≤ t.batchIndex)

/-- Order of two issued commands: the block of the first is not after the block of the
second, and the first is not the draw call of the loop iteration that issues the second
(the draw call ends its iteration). -/
def flushOrder (x y : Issued) : Prop :=
  x.step.le y.step ∧ ¬ (x.cmd.isDraw = true ∧ ∃ i, x.step = .batch i ∧ y.step = .batch i)

/-- Code steps that issue a command. -/
def Op.isEmit : Op → Bool
  | .emit _ => true
  | .require _ _ => false

/-- Commands of a piece of code, conditions left out. -/
def cmdsOf : List Op → List Cmd
  | [] => []
  | .emit c :: rest => c :: cmdsOf rest
  | .require _ _ :: rest => cmdsOf rest

/-- Commands of an issued sequence that come from one block of `flush`. -/
def issuedIn (s : Step) (l : List Issued) : List Cmd :=
  (l.filter fun x => decide (x.step = s)).map Issued.cmd

/-- `Sync` calls. -/
def Cmd.isSync : Cmd → Bool
  | .sync _ _ => true
  | _ => false

/-- The range of a `Sync` call on the given buffer. -/
def Cmd.syncRangeOn (target : SyncTarget) : Cmd → Option SyncRange
  | .sync t r => if t = target then some r else none
  | _ => none

/-- Ranges of the `Sync` calls on one buffer, in the order of issue. -/
def syncRangesOn (target : SyncTarget) (l : List Issued) : List SyncRange :=
  l.filterMap fun x => x.cmd.syncRangeOn target

/-- The four components of a `ClearUAVUint` call on the given view. -/
def Cmd.uintClearOf (uav : Resource) : Cmd → Option (Nat × Nat × Nat × Nat)
  | .clearUAVUint u a b c d => if u = uav then some (a, b, c, d) else none
  | _ => none

/-- Values of the `ClearUAVUint` calls on one view, in the order of issue. -/
def uintClearsOf (uav : Resource) (l : List Issued) : List (Nat × Nat × Nat × Nat) :=
  l.filterMap fun x => x.cmd.uintClearOf uav

/-- View and packed colour of a `ClearUAVFloat` call. -/
def Cmd.floatClear : Cmd → Option (Resource × Nat)
  | .clearUAVFloat u c => some (u, c)
  | _ => none

/-- The `ClearUAVFloat` calls, by view and packed colour, in the order of issue. -/
def floatClearsOf (l : List Issued) : List (Resource × Nat) :=
  l.filterMap fun x => x.cmd.floatClear

/-- The render pass info of a `BeginRenderPass` call with the given name. -/
def Cmd.renderPassInfoOf (name : RenderPassName) : Cmd → Option RenderPassInfo
  | .beginRenderPass info n => if n = name then some info else none
  | _ => none

/-- The render pass infos of the `BeginRenderPass` calls with the given name. -/
def renderPassInfosOf (name : RenderPassName) (l : List Issued) : List RenderPassInfo :=
  l.filterMap fun x => x.cmd.renderPassInfoOf name

/-- Texture copies (`UpdateTexture2D`). -/
def Cmd.isTextureUpdate : Cmd → Bool
  | .updateTexture2D _ _ _ _ _ _ _ => true
  | _ => false

/-- The code of `flush` before the draw loop. -/
def preLoopOps (k : GpuConstants) (ctx : RenderContextRHIImpl) (desc : FlushDescriptor)
    (renderTarget : RenderTargetRHI) : List (Step × Op) :=
  inStep .upload (uploadOps ctx desc)
  ++ inStep .auxClear (auxClearOps desc)
  ++ inStep .gradientPass (gradientPassOps k ctx desc)
  ++ inStep .simpleGradientCopy (simpleGradientCopyOps k ctx desc)
  ++ inStep .tessellationPass (tessellationPassOps k ctx desc)
  ++ inStep .clearDestination (clearDestinationOps desc)
  ++ inStep .beginDrawPass (beginDrawPassOps desc renderTarget)

/-- The code of `flush` from the draw loop on. -/
def loopAndEndOps (k : GpuConstants) (ctx : RenderContextRHIImpl) (desc : FlushDescriptor) :
    List (Step × Op) :=
  drawLoopOps k ctx desc 0 desc.drawList ++ inStep .endDrawPass (endDrawPassOps desc)

/-- The same descriptor with every batch of `elementCount == 0` removed from its draw
list. -/
def withoutZeroElementBatches (desc : FlushDescriptor) : FlushDescriptor :=
  { desc with drawList := desc.drawList.filter fun b => b.elementCount != 0 }

/-- The pipeline state of a `SetGraphicsPipelineState` call. -/
def Cmd.pipelineOf : Cmd → Option PipelineState
  | .setGraphicsPipelineState pso => some pso
  | _ => none

/-- Effect of one command on the render pass: `isOpen` says whether a render pass is in
progress before the command; the result is `none` when the command begins a pass inside
a pass or ends a pass that was not begun. -/
def Cmd.renderPassStep (isOpen : Bool) : Cmd → Option Bool
  | .beginRenderPass _ _ => if isOpen then none else some true
  | .endRenderPass => if isOpen then some false else none
  | _ => some isOpen

/-- Whether a render pass is in progress after a sequence of commands. -/
def renderPassOpenAfter (isOpen : Bool) : List Cmd → Option Bool
  | [] => some isOpen
  | c :: rest => (c.renderPassStep isOpen).bind fun s => renderPassOpenAfter s rest

/-- The code of `flush` that runs before the loop iteration of the batch at position
`index` of the draw list. -/
def beforeBatchOps (k : GpuConstants) (ctx : RenderContextRHIImpl) (desc : FlushDescriptor)
    (renderTarget : RenderTargetRHI) (index : Nat) : List (Step × Op) :=
  preLoopOps k ctx desc renderTarget ++ drawLoopOps k ctx desc 0 (desc.drawList.take index)

/-- The code of `flush` that runs after the loop iteration of the batch at position
`index` of the draw list. -/
def afterBatchOps (k : GpuConstants) (ctx : RenderContextRHIImpl) (desc : FlushDescriptor)
    (index : Nat) : List (Step × Op) :=
  drawLoopOps k ctx desc (index + 1) (desc.drawList.drop (index + 1))
    ++ inStep .endDrawPass (endDrawPassOps desc)

/-- The transitions at the top of a loop iteration. -/
def batchTransitionOps (desc : FlushDescriptor) : List Op :=
  [.emit (.transition .coverageUAV .UAVGraphics .UAVGraphics)]
  ++ (if desc.combinedShaderFeatures.ENABLE_CLIPPING then
        [.emit (.transition .clipUAV .UAVGraphics .UAVGraphics)]
      else [])
  ++ (if desc.combinedShaderFeatures.ENABLE_ADVANCED_BLEND then
        [.emit (.transition .targetUAV .UAVGraphics .UAVGraphics)]
      else [])

/-! ## Concrete values used to exercise the model -/

/-- Sample constants. -/
def sampleConstants : GpuConstants :=
  { sizeofGradientSpan := 16, sizeofTriangleVertex := 12, sizeofVec2D := 8,
    kGradTextureWidth := 512, kTessTextureWidth := 2048, kTessSpanIndicesCount := 18,
    kImageRectVerticesCount := 12, kImageRectIndicesCount := 30,
    kPatchVertexBufferCount := 100,
    StorageBufferElementSizeInBytes := fun _ => 16,
    PatchBaseIndex := fun t => if t = .outerCurvePatches then 60 else 0,
    PatchIndexCount := fun t => if t = .outerCurvePatches then 90 else 60 }

/-- A context whose ten buffers were sized by `resize` calls and whose two textures
exist. -/
def sampleContext : RenderContextRHIImpl :=
  let s : StorageBufferStructure := { ordinal := 0 }
  let ctx := RenderContextRHIImpl.initial
  let ctx := resizeFlushUniformBuffer ctx 256
  let ctx := resizeImageDrawUniformBuffer ctx 256
  let ctx := resizePathBuffer sampleConstants ctx 1024 s
  let ctx := resizePaintBuffer sampleConstants ctx 1024 s
  let ctx := resizePaintAuxBuffer sampleConstants ctx 1024 s
  let ctx := resizeContourBuffer sampleConstants ctx 1024 s
  let ctx := resizeSimpleColorRampsBuffer ctx 4096
  let ctx := resizeGradSpanBuffer sampleConstants ctx 1024
  let ctx := resizeTessVertexSpanBuffer ctx 1024
  let ctx := resizeTriangleVertexBuffer sampleConstants ctx 4096
  { ctx with
    m_gradiantTexture := some { width := 512, height := 8, format := .PF_R8G8B8A8 },
    m_tesselationTexture := some { width := 2048, height := 8, format := .PF_R32G32B32A32_UINT },
    m_tessSRV := true }

/-- A descriptor with nothing to do: all counts zero, empty draw list. -/
def emptyDescriptor : FlushDescriptor :=
  { renderTarget := some { width := 64, height := 64 },
    combinedShaderFeatures :=
      { ENABLE_CLIPPING := false, ENABLE_CLIP_RECT := false, ENABLE_ADVANCED_BLEND := false,
        ENABLE_EVEN_ODD := false, ENABLE_NESTED_CLIPPING := false,
        ENABLE_HSL_BLEND_MODES := false },
    colorLoadAction := .clear, clearColor := 0, coverageClearValue := 0,
    flushUniformDataOffsetInBytes := 0, pathCount := 0, firstPath := 0, firstPaint := 0,
    firstPaintAux := 0, contourCount := 0, firstContour := 0, complexGradSpanCount := 0,
    firstComplexGradSpan := 0, tessVertexSpanCount := 0, firstTessVertexSpan := 0,
    simpleGradTexelsWidth := 0, simpleGradTexelsHeight := 0, simpleGradDataOffsetInBytes := 0,
    complexGradRowsTop := 0, complexGradRowsHeight := 0, tessDataHeight := 0, drawList := [] }

/-- A batch of the given type and element count with no image resources. -/
def plainBatch (drawType : DrawType) (elementCount baseElement : Nat) : DrawBatch :=
  { drawType := drawType, elementCount := elementCount, baseElement := baseElement,
    imageTexture := none, vertexBuffer := none, uvBuffer := none, indexBuffer := none,
    imageDrawDataOffset := 0 }

/-- Descriptor with `pathCount = 0` and one midpoint-fan patch batch of one element. -/
def patchWithoutPathsDescriptor : FlushDescriptor :=
  { emptyDescriptor with drawList := [plainBatch .midpointFanPatches 1 0] }

/-- Descriptor with a triangulation batch followed by a resolve batch. -/
def twoBatchDescriptor : FlushDescriptor :=
  { emptyDescriptor with
    drawList := [plainBatch .interiorTriangulation 6 0, plainBatch .gpuAtomicResolve 1 0] }

/-- Descriptor of the end-to-end scenario: four complex gradient spans, no tessellation
spans, one interior triangulation batch of 300 elements. -/
def scenarioDescriptor : FlushDescriptor :=
  { emptyDescriptor with
    complexGradSpanCount := 4, complexGradRowsHeight := 4,
    drawList := [plainBatch .interiorTriangulation 300 0] }

/-- An image codec that creates a wrapper for every format and rejects every payload. -/
def rejectingImageWrapper : ImageWrapperModule :=
  { createIsValid := fun _ => true, setCompressed := fun _ _ => false,
    getRaw := fun _ _ => none, getWidth := fun _ _ => 0, getHeight := fun _ _ => 0 }

/-- A WEBP library whose `WebPGetInfo` probe reports failure while the demuxer and the
decoder accept the data and deliver a 1 x 1 image. -/
def probeFailingWebP : WebPLibrary :=
  { initDecoderConfig := true, getInfo := fun _ => false, demux := fun _ => true,
    demuxGetFrame := fun data => some data, canvasWidth := fun _ => 1,
    canvasHeight := fun _ => 1, decode := fun _ _ _ => some [0, 0, 0, 255] }

/-- An empty span located at the first byte of a PNG signature. -/
def emptySpanBeforePng : ByteSpan :=
  { bytes := [], beyond := fun i => PNG.getD i 0 }

/-- A span that holds the three letters R, I, F and one more byte. -/
def riffSpan : ByteSpan :=
  { bytes := [0x52, 0x49, 0x46, 0x46], beyond := fun _ => 0 }

/-- A context in which the gradient span buffer was resized to 100, then 10, then 50
bytes. -/
def resizedThrice : RenderContextRHIImpl :=
  resizeSequence sampleConstants .gradSpan RenderContextRHIImpl.initial
    ([(100, { ordinal := 0 }), (10, { ordinal := 0 })] ++ [(50, { ordinal := 0 })])

/-- A batch that draws an image rectangle with texture 7. -/
def imageRectBatch : DrawBatch :=
  { drawType := .imageRect, elementCount := 1, baseElement := 0, imageTexture := some 7,
    vertexBuffer := none, uvBuffer := none, indexBuffer := none, imageDrawDataOffset := 64 }

/-- Descriptor in which every step of the flush has work: paths, contours, complex and
simple gradients, tessellation spans, clipping, a destination clear and two batches. -/
def allPassesDescriptor : FlushDescriptor :=
  { emptyDescriptor with
    combinedShaderFeatures :=
      { ENABLE_CLIPPING := true, ENABLE_CLIP_RECT := false, ENABLE_ADVANCED_BLEND := false,
        ENABLE_EVEN_ODD := false, ENABLE_NESTED_CLIPPING := false,
        ENABLE_HSL_BLEND_MODES := false },
    colorLoadAction := .clear, clearColor := 255, coverageClearValue := 9,
    pathCount := 5, firstPath := 1, firstPaint := 2, firstPaintAux := 3,
    contourCount := 2, firstContour := 4,
    complexGradSpanCount := 2, firstComplexGradSpan := 3,
    complexGradRowsTop := 1, complexGradRowsHeight := 2,
    simpleGradTexelsWidth := 4, simpleGradTexelsHeight := 1, simpleGradDataOffsetInBytes := 32,
    tessVertexSpanCount := 3, firstTessVertexSpan := 2, tessDataHeight := 5,
    drawList := [plainBatch .interiorTriangulation 6 0, imageRectBatch] }

/-- Descriptor with advanced blend whose load action preserves the render target. -/
def advancedBlendPreserveDescriptor : FlushDescriptor :=
  { emptyDescriptor with
    combinedShaderFeatures :=
      { ENABLE_CLIPPING := false, ENABLE_CLIP_RECT := false, ENABLE_ADVANCED_BLEND := true,
        ENABLE_EVEN_ODD := false, ENABLE_NESTED_CLIPPING := false,
        ENABLE_HSL_BLEND_MODES := false },
    colorLoadAction := .preserveRenderTarget }

/-- A vertex ring of eight bytes with arbitrary initial bytes. -/
def sampleRingContents : BufferRingContents :=
  { buffer := BufferRingRHIImpl.make .VertexBuffer 8 2,
    shadow := [1, 2, 3, 4, 5, 6, 7, 8], gpu := [0, 0, 0, 0, 0, 0, 0, 0] }

/-- An index render buffer of eight bytes with arbitrary initial bytes. -/
def sampleRenderBuffer : RenderBufferRHIImpl :=
  RenderBufferRHIImpl.make .index { mappedOnceAtInitialization := false } 8 2
    [1, 2, 3, 4, 5, 6, 7, 8] [0, 0, 0, 0, 0, 0, 0, 0]

/-- Descriptor whose draw list holds one batch of each invalid draw type, both without
elements. -/
def zeroElementInvalidDescriptor : FlushDescriptor :=
  { emptyDescriptor with
    drawList := [plainBatch .gpuAtomicInitialize 0 0, plainBatch .stencilClipReset 0 0] }

/-- Descriptor with a triangulation batch followed by a `stencilClipReset` batch of one
element and a resolve batch. -/
def invalidBatchDescriptor : FlushDescriptor :=
  { emptyDescriptor with
    drawList := [plainBatch .interiorTriangulation 6 0, plainBatch .stencilClipReset 1 0,
      plainBatch .gpuAtomicResolve 1 0] }

/-- Descriptor with advanced blend, a triangulation batch and a final resolve batch. -/
def advancedBlendResolveDescriptor : FlushDescriptor :=
  { advancedBlendPreserveDescriptor with
    drawList := [plainBatch .interiorTriangulation 6 0, plainBatch .gpuAtomicResolve 1 0] }

/-- Descriptor with one outer-curve patch batch of four elements from element 7. -/
def outerCurveDescriptor : FlushDescriptor :=
  { emptyDescriptor with drawList := [plainBatch .outerCurvePatches 4 7] }

/-- An image-mesh batch whose index buffer pointer is null. -/
def meshBatchWithoutIndexBuffer : DrawBatch :=
  { drawType := .imageMesh, elementCount := 3, baseElement := 0, imageTexture := some 7,
    vertexBuffer := some { id := 1, isRHIImpl := true, sizeInBytes := 64 },
    uvBuffer := some { id := 2, isRHIImpl := true, sizeInBytes := 64 },
    indexBuffer := none, imageDrawDataOffset := 0 }

/-- Descriptor whose draw list is the image-mesh batch without index buffer. -/
def meshWithoutIndexBufferDescriptor : FlushDescriptor :=
  { emptyDescriptor with drawList := [meshBatchWithoutIndexBuffer] }

/-- Descriptor with a batch without elements between two batches with elements. -/
def zeroElementBetweenDescriptor : FlushDescriptor :=
  { emptyDescriptor with
    drawList := [plainBatch .interiorTriangulation 6 0, plainBatch .midpointFanPatches 0 3,
      plainBatch .gpuAtomicResolve 1 0] }

/-- A component that holds two artboards. -/
def sampleComponent : URiveActorComponent :=
  { Artboards := [{ object := 10, setup := none, audioEngine := none },
                  { object := 11, setup := none, audioEngine := none }],
    RiveRenderTarget := some 1, RiveAudioEngine := some 5 }

/-- A renderer module that is available and whose renderer is set up. -/
def readyRendererModule : IRiveRendererModule :=
  { isAvailable := true, renderer := some { isInitialized := true } }

/-- A Rive file that is valid and set up. -/
def readyRiveFile : URiveFile :=
  { object := 3, isValid := true, isInitialized := true }

/-- A destination texture of 64 by 32 pixels. -/
def sampleDestinationTexture : Texture2D :=
  { width := 64, height := 32, format := .PF_R8G8B8A8 }

theorem emitted_append (a b : List (Step × Op)) : emitted (a ++ b) = emitted a ++ emitted b := by
  induction a with
  | nil => rfl
  | cons o rest ih =>
    obtain ⟨s, o⟩ := o
    cases o <;> simp [emitted, ih]

theorem mem_emitted {x : Issued} {ops : List (Step × Op)} :
    x ∈ emitted ops ↔ (x.step, Op.emit x.cmd) ∈ ops := by
  induction ops with
  | nil => simp [emitted]
  | cons o rest ih =>
    obtain ⟨s, o⟩ := o
    cases o with
    | emit c =>
      obtain ⟨xs, xc⟩ := x
      simp only [emitted, List.mem_cons, ih, Prod.mk.injEq, Op.emit.injEq, Issued.mk.injEq]
    | require ok e => simp [emitted, ih]

theorem runOps_issued_sublist (ops : List (Step × Op)) :
    (runOps ops).issued.Sublist (emitted ops) := by
  induction ops with
  | nil => simp [runOps, emitted]
  | cons o rest ih =>
    obtain ⟨s, o⟩ := o
    cases o with
    | emit c => simpa [runOps, emitted] using ih
    | require ok e =>
      cases ok <;> simp [runOps, emitted, ih]

theorem mem_issued_runOps {x : Issued} {ops : List (Step × Op)}
    (h : x ∈ (runOps ops).issued) : (x.step, Op.emit x.cmd) ∈ ops :=
  mem_emitted.mp ((runOps_issued_sublist ops).subset h)

/-- When every condition holds the run issues every command and reaches the end. -/
theorem runOps_of_requires_ok (ops : List (Step × Op))
    (h : ∀ s ok e, (s, Op.require ok e) ∈ ops → ok = true) :
    runOps ops = { issued := emitted ops, exit := .completed } := by
  induction ops with
  | nil => rfl
  | cons o rest ih =>
    obtain ⟨s, o⟩ := o
    have ih := ih (fun s ok e hm => h s ok e (List.mem_cons_of_mem _ hm))
    cases o with
    | emit c => simp [runOps, emitted, ih]
    | require ok e =>
      have hok : ok = true := h s ok e (List.mem_cons_self _ _)
      simp [runOps, emitted, ih, hok]

/-- A run that reaches the end passed every condition and issued every command, when no
condition of the code has `completed` as its failure exit. -/
theorem runOps_completed (ops : List (Step × Op))
    (hne : ∀ s ok e, (s, Op.require ok e) ∈ ops → e ≠ .completed)
    (h : (runOps ops).exit = .completed) :
    (∀ s ok e, (s, Op.require ok e) ∈ ops → ok = true) ∧ (runOps ops).issued = emitted ops := by
  induction ops with
  | nil => simp [runOps, emitted]
  | cons o rest ih =>
    obtain ⟨s, o⟩ := o
    have hne' : ∀ s ok e, (s, Op.require ok e) ∈ rest → e ≠ .completed :=
      fun s ok e hm => hne s ok e (List.mem_cons_of_mem _ hm)
    cases o with
    | emit c =>
      have h' : (runOps rest).exit = .completed := by simpa [runOps] using h
      obtain ⟨h1, h2⟩ := ih hne' h'
      refine ⟨?_, by simp [runOps, emitted, h2]⟩
      intro s1 ok e hm
      rcases List.mem_cons.mp hm with heq | hm
      · cases heq
      · exact h1 s1 ok e hm
    | require ok e =>
      cases ok with
      | false =>
        have : e = .completed := by simpa [runOps] using h
        exact absurd this (hne s false e (List.mem_cons_self _ _))
      | true =>
        have h' : (runOps rest).exit = .completed := by simpa [runOps] using h
        obtain ⟨h1, h2⟩ := ih hne' h'
        refine ⟨?_, by simp [runOps, emitted, h2]⟩
        intro s1 ok e1 hm
        rcases List.mem_cons.mp hm with heq | hm
        · cases heq; rfl
        · exact h1 s1 ok e1 hm

theorem mem_inStep {s t : Step} {o : Op} {ops : List Op} :
    (s, o) ∈ inStep t ops ↔ s = t ∧ o ∈ ops := by
  simp only [inStep, List.mem_map, Prod.mk.injEq]
  constructor
  · rintro ⟨a, ha, rfl, rfl⟩; exact ⟨rfl, ha⟩
  · rintro ⟨rfl, ho⟩; exact ⟨o, ho, rfl, rfl⟩

theorem mem_drawLoopOps {k : GpuConstants} {ctx : RenderContextRHIImpl} {desc : FlushDescriptor}
    {s : Step} {o : Op} (l : List DrawBatch) (i : Nat) :
    (s, o) ∈ drawLoopOps k ctx desc i l ↔
      ∃ j b, l[j]? = some b ∧ s = .batch (i + j) ∧ o ∈ batchOps k ctx desc b := by
  induction l generalizing i with
  | nil => simp [drawLoopOps]
  | cons b rest ih =>
    simp only [drawLoopOps, List.mem_append, mem_inStep, ih]
    constructor
    · rintro (⟨rfl, ho⟩ | ⟨j, b', hj, rfl, ho⟩)
      · exact ⟨0, b, by simp, by simp, ho⟩
      · exact ⟨j + 1, b', by simpa using hj, by congr 1; omega, ho⟩
    · rintro ⟨j, b', hj, rfl, ho⟩
      cases j with
      | zero =>
        simp at hj
        subst hj
        exact Or.inl ⟨by simp, ho⟩
      | succ j =>
        exact Or.inr ⟨j, b', by simpa using hj, by congr 1; omega, ho⟩

/-- Where a piece of the code of `flush` comes from. -/
theorem mem_flushOps {k : GpuConstants} {ctx : RenderContextRHIImpl} {desc : FlushDescriptor}
    {rt : RenderTargetRHI} {s : Step} {o : Op} :
    (s, o) ∈ flushOps k ctx desc rt ↔
      (s = .upload ∧ o ∈ uploadOps ctx desc) ∨
      (s = .auxClear ∧ o ∈ auxClearOps desc) ∨
      (s = .gradientPass ∧ o ∈ gradientPassOps k ctx desc) ∨
      (s = .simpleGradientCopy ∧ o ∈ simpleGradientCopyOps k ctx desc) ∨
      (s = .tessellationPass ∧ o ∈ tessellationPassOps k ctx desc) ∨
      (s = .clearDestination ∧ o ∈ clearDestinationOps desc) ∨
      (s = .beginDrawPass ∧ o ∈ beginDrawPassOps desc rt) ∨
      (∃ j b, desc.drawList[j]? = some b ∧ s = .batch j ∧ o ∈ batchOps k ctx desc b) ∨
      (s = .endDrawPass ∧ o ∈ endDrawPassOps desc) := by
  simp only [flushOps, List.mem_append, mem_inStep, mem_drawLoopOps, Nat.zero_add, or_assoc]

/-- Where an issued command of `flush` comes from. -/
theorem mem_flush_issued {k : GpuConstants} {ctx : RenderContextRHIImpl}
    {desc : FlushDescriptor} {x : Issued} (h : x ∈ (flush k ctx desc).issued) :
    ∃ rt, desc.renderTarget = some rt ∧ (x.step, Op.emit x.cmd) ∈ flushOps k ctx desc rt := by
  unfold flush at h
  cases hrt : desc.renderTarget with
  | none => simp [hrt] at h
  | some rt =>
    simp only [hrt] at h
    exact ⟨rt, rfl, mem_issued_runOps h⟩

/-! ## Uploads and patch draws when the descriptor has no paths -/

/-- C2: when `pathCount == 0`, `flush` issues no `Sync` on the path buffer, the paint
buffer or the paint-aux buffer, whatever the context and the other fields of the
descriptor are. -/
theorem flush_no_path_paint_sync_of_pathCount_zero (k : GpuConstants)
    (ctx : RenderContextRHIImpl) (desc : FlushDescriptor) (h : desc.pathCount = 0) :
    ∀ x ∈ (flush k ctx desc).issued, x.cmd.isPathPaintSync = false := by
  intro x hx
  obtain ⟨rt, -, hmem⟩ := mem_flush_issued hx
  generalize x.cmd = c at hmem ⊢
  generalize x.step = s at hmem
  rw [mem_flushOps] at hmem
  rcases hmem with ⟨-, hm⟩ | ⟨-, hm⟩ | ⟨-, hm⟩ | ⟨-, hm⟩ | ⟨-, hm⟩ | ⟨-, hm⟩ | ⟨-, hm⟩ |
    ⟨j, b, -, -, hm⟩ | ⟨-, hm⟩
  · unfold uploadOps at hm
    simp only [check, syncIfPresent, Cmd.isPathPaintSync] at *
    aesop
  · unfold auxClearOps at hm
    simp only [Cmd.isPathPaintSync] at *
    aesop
  · unfold gradientPassOps at hm
    simp only [check, deref, Cmd.isPathPaintSync] at *
    aesop
  · unfold simpleGradientCopyOps at hm
    simp only [check, deref, Cmd.isPathPaintSync] at *
    aesop
  · unfold tessellationPassOps at hm
    simp only [check, deref, Cmd.isPathPaintSync] at *
    aesop
  · unfold clearDestinationOps at hm
    simp only [Cmd.isPathPaintSync] at *
    aesop
  · unfold beginDrawPassOps at hm
    simp only [Cmd.isPathPaintSync] at *
    aesop
  · unfold batchOps drawTypeOps at hm
    simp only [deref, syncIfPresent, sharedPixelBindings, Cmd.isPathPaintSync] at *
    aesop
  · unfold endDrawPassOps at hm
    simp only [Cmd.isPathPaintSync] at *
    aesop

/-- C2 at a concrete flush: a descriptor without paths whose draw list holds a patch
batch, on a context with every buffer allocated. -/
theorem flush_no_path_paint_sync_of_pathCount_zero_witness :
    patchWithoutPathsDescriptor.pathCount = 0 ∧
    ∀ x ∈ (flush sampleConstants sampleContext patchWithoutPathsDescriptor).issued,
      x.cmd.isPathPaintSync = false :=
  ⟨rfl, flush_no_path_paint_sync_of_pathCount_zero sampleConstants sampleContext
    patchWithoutPathsDescriptor rfl⟩

/-- C3, as stated, fails: with `pathCount == 0` and every buffer allocated, a draw list
holding one midpoint-fan patch batch of one element makes `flush` issue the patch draw
for that batch. -/
theorem flush_patch_draw_despite_pathCount_zero :
    patchWithoutPathsDescriptor.pathCount = 0 ∧
    patchWithoutPathsDescriptor.drawList[0]? = some (plainBatch .midpointFanPatches 1 0) ∧
    ({ step := .batch 0, cmd := .drawIndexedPrimitive .patchIndexBuffer 0 0 100 0 20 1 } : Issued)
      ∈ (flush sampleConstants sampleContext patchWithoutPathsDescriptor).issued := by
  refine ⟨rfl, rfl, ?_⟩
  decide

/-- C3, amended: when `pathCount == 0` and every patch batch of the draw list has
`elementCount == 0`, `flush` issues no draw over the patch index buffer and no draw call
in the loop iteration of a patch batch. -/
theorem flush_no_patch_draw_of_no_patch_elements (k : GpuConstants)
    (ctx : RenderContextRHIImpl) (desc : FlushDescriptor) (_h : desc.pathCount = 0)
    (hb : ∀ b ∈ desc.drawList, b.drawType.isPatches = true → b.elementCount = 0) :
    ∀ x ∈ (flush k ctx desc).issued,
      x.cmd.isPatchDraw = false ∧
      ∀ j b, desc.drawList[j]? = some b → b.drawType.isPatches = true →
        x.step = .batch j → x.cmd.isDraw = false := by
  intro x hx
  obtain ⟨rt, -, hmem⟩ := mem_flush_issued hx
  generalize x.cmd = c at hmem ⊢
  generalize x.step = s at hmem ⊢
  have hempty : ∀ (j : Nat) (b : DrawBatch), desc.drawList[j]? = some b →
      b.drawType.isPatches = true →
      batchOps k ctx desc b = [] := by
    intro j b hj hp
    have := hb b (List.getElem?_mem hj) hp
    simp [batchOps, this]
  rw [mem_flushOps] at hmem
  rcases hmem with ⟨rfl, hm⟩ | ⟨rfl, hm⟩ | ⟨rfl, hm⟩ | ⟨rfl, hm⟩ | ⟨rfl, hm⟩ | ⟨rfl, hm⟩ |
    ⟨rfl, hm⟩ | ⟨j, b, hj, rfl, hm⟩ | ⟨rfl, hm⟩
  · unfold uploadOps at hm
    simp only [check, syncIfPresent, Cmd.isPatchDraw] at *
    aesop
  · unfold auxClearOps at hm
    simp only [Cmd.isPatchDraw] at *
    aesop
  · unfold gradientPassOps at hm
    simp only [check, deref, Cmd.isPatchDraw] at *
    aesop
  · unfold simpleGradientCopyOps at hm
    simp only [check, deref, Cmd.isPatchDraw] at *
    aesop
  · unfold tessellationPassOps at hm
    simp only [check, deref, Cmd.isPatchDraw] at *
    aesop
  · unfold clearDestinationOps at hm
    simp only [Cmd.isPatchDraw] at *
    aesop
  · unfold beginDrawPassOps at hm
    simp only [Cmd.isPatchDraw] at *
    aesop
  · constructor
    · by_cases hp : b.drawType.isPatches = true
      · rw [hempty j b hj hp] at hm
        simp at hm
      · clear hempty hb hx
        unfold batchOps drawTypeOps at hm
        simp only [deref, syncIfPresent, sharedPixelBindings, Cmd.isPatchDraw,
          DrawType.isPatches] at *
        aesop
    · intro j' b' hj' hp' hstep
      have hjj : j = j' := by simpa using hstep
      subst hjj
      rw [hj] at hj'
      cases hj'
      rw [hempty j b hj hp'] at hm
      simp at hm
  · unfold endDrawPassOps at hm
    simp only [Cmd.isPatchDraw] at *
    aesop

/-- C3 amended, at a concrete flush: the descriptor of the end-to-end scenario has no
paths and no patch batch. -/
theorem flush_no_patch_draw_of_no_patch_elements_witness :
    scenarioDescriptor.pathCount = 0 ∧
    (∀ b ∈ scenarioDescriptor.drawList, b.drawType.isPatches = true → b.elementCount = 0) ∧
    ∀ x ∈ (flush sampleConstants sampleContext scenarioDescriptor).issued,
      x.cmd.isPatchDraw = false ∧
      ∀ j b, scenarioDescriptor.drawList[j]? = some b → b.drawType.isPatches = true →
        x.step = .batch j → x.cmd.isDraw = false :=
  ⟨rfl, by decide,
    flush_no_patch_draw_of_no_patch_elements sampleConstants sampleContext scenarioDescriptor
      rfl (by decide)⟩

/-! ## Order of the draw calls of the batches -/

/-- One iteration of the draw loop issues at most one draw call. -/
theorem batchOps_draws_le_one (k : GpuConstants) (ctx : RenderContextRHIImpl)
    (desc : FlushDescriptor) (b : DrawBatch) :
    ((batchOps k ctx desc b).filter Op.isDraw).length ≤ 1 := by
  unfold batchOps
  by_cases h0 : (b.elementCount == 0) = true
  · simp [h0]
  · simp only [h0, if_false, Bool.false_eq_true, List.filter_append]
    have h1 : ((drawTypeOps k ctx desc b).filter Op.isDraw).length ≤ 1 := by
      unfold drawTypeOps
      simp only [deref, syncIfPresent, sharedPixelBindings]
      split <;> (try split_ifs) <;> (try split) <;> simp [List.filter, Op.isDraw, Cmd.isDraw]
    split_ifs <;> simpa [List.filter, Op.isDraw, Cmd.isDraw] using h1

theorem drawTypeOps_subset_batchOps {k : GpuConstants} {ctx : RenderContextRHIImpl}
    {desc : FlushDescriptor} {b : DrawBatch} {o : Op} (h0 : b.elementCount ≠ 0)
    (h : o ∈ drawTypeOps k ctx desc b) : o ∈ batchOps k ctx desc b := by
  unfold batchOps
  have h1 : (b.elementCount == 0) = false := by simpa using h0
  simp only [h1, Bool.false_eq_true, if_false, List.mem_append]
  exact Or.inr h

/-- An iteration for a batch with elements whose conditions all hold issues a draw. -/
theorem drawTypeOps_has_draw {k : GpuConstants} {ctx : RenderContextRHIImpl}
    {desc : FlushDescriptor} {b : DrawBatch}
    (hok : ∀ ok e, Op.require ok e ∈ drawTypeOps k ctx desc b → ok = true) :
    ∃ c, c.isDraw = true ∧ Op.emit c ∈ drawTypeOps k ctx desc b := by
  cases hdt : b.drawType
  case midpointFanPatches =>
    simp only [drawTypeOps, hdt]
    refine ⟨.drawIndexedPrimitive .patchIndexBuffer 0 0 k.kPatchVertexBufferCount
      (k.PatchBaseIndex .midpointFanPatches) (k.PatchIndexCount .midpointFanPatches / 3)
      b.elementCount, rfl, ?_⟩
    simp [deref]
  case outerCurvePatches =>
    simp only [drawTypeOps, hdt]
    refine ⟨.drawIndexedPrimitive .patchIndexBuffer 0 0 k.kPatchVertexBufferCount
      (k.PatchBaseIndex .outerCurvePatches) (k.PatchIndexCount .outerCurvePatches / 3)
      b.elementCount, rfl, ?_⟩
    simp [deref]
  case interiorTriangulation =>
    simp only [drawTypeOps, hdt]
    refine ⟨.drawPrimitive b.baseElement (b.elementCount / 3) 1, rfl, ?_⟩
    simp [deref]
  case imageRect =>
    simp only [drawTypeOps, hdt]
    refine ⟨.drawIndexedPrimitive .imageRectIndexBuffer 0 0 k.kImageRectVerticesCount 0
      (k.kImageRectIndicesCount / 3) 1, rfl, ?_⟩
    simp [deref]
  case imageMesh =>
    simp only [drawTypeOps, hdt] at hok ⊢
    cases hi : liteRttiCast b.indexBuffer with
    | none => exact absurd (hok false .returnedEarly (by simp [hi])) (by simp)
    | some ib =>
      cases hv : liteRttiCast b.vertexBuffer with
      | none => exact absurd (hok false .returnedEarly (by simp [hi, hv])) (by simp)
      | some vb =>
        cases hu : liteRttiCast b.uvBuffer with
        | none => exact absurd (hok false .returnedEarly (by simp [hi, hv, hu])) (by simp)
        | some ub =>
          refine ⟨.drawIndexedPrimitive (.renderBuffer ib.id) 0 0 (vb.sizeInBytes / k.sizeofVec2D) 0
            (b.elementCount / 3) 1, rfl, ?_⟩
          simp [deref]
  case gpuAtomicInitialize =>
    simp only [drawTypeOps, hdt] at hok
    exact absurd (hok false (.fatal .unreachable) (by simp)) (by simp)
  case gpuAtomicResolve =>
    simp only [drawTypeOps, hdt]
    refine ⟨.drawPrimitive 0 2 1, rfl, ?_⟩
    simp [deref]
  case stencilClipReset =>
    simp only [drawTypeOps, hdt] at hok
    exact absurd (hok false (.fatal .unreachable) (by simp)) (by simp)

theorem noBatchDraws_emitted_inStep (s : Step) (hs : ∀ i, s ≠ .batch i) (ops : List Op) :
    noBatchDraws (emitted (inStep s ops)) := by
  intro x hx a hd
  have hm := mem_emitted.mp hx
  rw [mem_inStep] at hm
  exact hs a (hm.1.symm.trans hd.1)

theorem noBatchDraws_append {l₁ l₂ : List Issued} (h₁ : noBatchDraws l₁)
    (h₂ : noBatchDraws l₂) : noBatchDraws (l₁ ++ l₂) := by
  intro x hx
  rcases List.mem_append.mp hx with h | h
  · exact h₁ x h
  · exact h₂ x h

theorem pairwise_of_noBatchDraws {l : List Issued} (h : noBatchDraws l) :
    l.Pairwise batchDrawsAscend :=
  List.pairwise_of_forall_mem_list fun x hx _ _ a _ hxa _ => absurd hxa (h x hx a)

theorem pairwise_append_of_noBatchDraws_left {l₁ l₂ : List Issued} (h₁ : noBatchDraws l₁)
    (h₂ : l₂.Pairwise batchDrawsAscend) : (l₁ ++ l₂).Pairwise batchDrawsAscend :=
  List.pairwise_append.mpr
    ⟨pairwise_of_noBatchDraws h₁, h₂, fun x hx _ _ a _ hxa _ => absurd hxa (h₁ x hx a)⟩

theorem pairwise_append_of_noBatchDraws_right {l₁ l₂ : List Issued}
    (h₁ : l₁.Pairwise batchDrawsAscend) (h₂ : noBatchDraws l₂) :
    (l₁ ++ l₂).Pairwise batchDrawsAscend :=
  List.pairwise_append.mpr
    ⟨h₁, pairwise_of_noBatchDraws h₂, fun _ _ y hy _ b _ hyb => absurd hyb (h₂ y hy b)⟩

/-- The commands of one loop iteration are in order, because at most one is a draw. -/
theorem pairwise_emitted_batch (i : Nat) (ops : List Op)
    (h : (ops.filter Op.isDraw).length ≤ 1) :
    (emitted (inStep (.batch i) ops)).Pairwise batchDrawsAscend := by
  induction ops with
  | nil => simp [inStep, emitted]
  | cons o rest ih =>
    cases o with
    | require ok e =>
      have h' : (rest.filter Op.isDraw).length ≤ 1 := by
        simpa [List.filter, Op.isDraw] using h
      simpa [inStep, emitted] using ih h'
    | emit c =>
      have hrest : (rest.filter Op.isDraw).length ≤ 1 := by
        by_cases hc : c.isDraw = true
        · have : (rest.filter Op.isDraw).length + 1 ≤ 1 := by
            simpa [List.filter, Op.isDraw, hc] using h
          omega
        · simpa [List.filter, Op.isDraw, hc] using h
      have hcons : emitted (inStep (.batch i) (Op.emit c :: rest)) =
          { step := .batch i, cmd := c } :: emitted (inStep (.batch i) rest) := by
        simp [inStep, emitted]
      rw [hcons, List.pairwise_cons]
      refine ⟨?_, ih hrest⟩
      intro y hy a b hxa hyb
      exfalso
      have hc : c.isDraw = true := hxa.2
      have hnil : rest.filter Op.isDraw = [] := by
        have : (rest.filter Op.isDraw).length + 1 ≤ 1 := by
          simpa [List.filter, Op.isDraw, hc] using h
        exact List.length_eq_zero.mp (by omega)
      have hm := mem_emitted.mp hy
      rw [mem_inStep] at hm
      have hmem : Op.emit y.cmd ∈ rest.filter Op.isDraw :=
        List.mem_filter.mpr ⟨hm.2, by simpa [Op.isDraw] using hyb.2⟩
      rw [hnil] at hmem
      simp at hmem

/-- The draw loop issues the draw calls of its batches in the order of the list. -/
theorem pairwise_emitted_drawLoop (k : GpuConstants) (ctx : RenderContextRHIImpl)
    (desc : FlushDescriptor) (l : List DrawBatch) (i : Nat) :
    (emitted (drawLoopOps k ctx desc i l)).Pairwise batchDrawsAscend := by
  induction l generalizing i with
  | nil => simp [drawLoopOps, emitted]
  | cons b rest ih =>
    simp only [drawLoopOps, emitted_append]
    refine List.pairwise_append.mpr
      ⟨pairwise_emitted_batch i _ (batchOps_draws_le_one k ctx desc b), ih (i + 1), ?_⟩
    intro x hx y hy a c hxa hyc
    have hxm := mem_emitted.mp hx
    rw [mem_inStep] at hxm
    have hym := mem_emitted.mp hy
    rw [mem_drawLoopOps] at hym
    obtain ⟨j, _, _, hstep, _⟩ := hym
    have ha : Step.batch i = Step.batch a := hxm.1.symm.trans hxa.1
    have hc : Step.batch (i + 1 + j) = Step.batch c := hstep.symm.trans hyc.1
    simp only [Step.batch.injEq] at ha hc
    omega

theorem pairwise_emitted_flushOps (k : GpuConstants) (ctx : RenderContextRHIImpl)
    (desc : FlushDescriptor) (rt : RenderTargetRHI) :
    (emitted (flushOps k ctx desc rt)).Pairwise batchDrawsAscend := by
  simp only [flushOps, emitted_append]
  refine pairwise_append_of_noBatchDraws_right ?_
    (noBatchDraws_emitted_inStep .endDrawPass (by intro i; simp) _)
  refine pairwise_append_of_noBatchDraws_left ?_ (pairwise_emitted_drawLoop k ctx desc _ 0)
  have h1 := noBatchDraws_emitted_inStep .upload (by intro i; simp) (uploadOps ctx desc)
  have h2 := noBatchDraws_emitted_inStep .auxClear (by intro i; simp) (auxClearOps desc)
  have h3 := noBatchDraws_emitted_inStep .gradientPass (by intro i; simp)
    (gradientPassOps k ctx desc)
  have h4 := noBatchDraws_emitted_inStep .simpleGradientCopy (by intro i; simp)
    (simpleGradientCopyOps k ctx desc)
  have h5 := noBatchDraws_emitted_inStep .tessellationPass (by intro i; simp)
    (tessellationPassOps k ctx desc)
  have h6 := noBatchDraws_emitted_inStep .clearDestination (by intro i; simp)
    (clearDestinationOps desc)
  have h7 := noBatchDraws_emitted_inStep .beginDrawPass (by intro i; simp)
    (beginDrawPassOps desc rt)
  exact noBatchDraws_append (noBatchDraws_append (noBatchDraws_append (noBatchDraws_append
    (noBatchDraws_append (noBatchDraws_append h1 h2) h3) h4) h5) h6) h7

/-- Draw calls of batches appear in `flush` in the order of the draw list. -/
theorem pairwise_flush_issued (k : GpuConstants) (ctx : RenderContextRHIImpl)
    (desc : FlushDescriptor) : (flush k ctx desc).issued.Pairwise batchDrawsAscend := by
  unfold flush
  cases desc.renderTarget with
  | none => simp
  | some rt =>
    exact (pairwise_emitted_flushOps k ctx desc rt).sublist (runOps_issued_sublist _)

/-- Every condition in the code of `flush` fails into a fatal stop or an early return. -/
theorem flushOps_require_ne_completed {k : GpuConstants} {ctx : RenderContextRHIImpl}
    {desc : FlushDescriptor} {rt : RenderTargetRHI} {s : Step} {ok : Bool} {e : Exit}
    (h : (s, Op.require ok e) ∈ flushOps k ctx desc rt) : e ≠ .completed := by
  rw [mem_flushOps] at h
  rcases h with ⟨-, hm⟩ | ⟨-, hm⟩ | ⟨-, hm⟩ | ⟨-, hm⟩ | ⟨-, hm⟩ | ⟨-, hm⟩ | ⟨-, hm⟩ |
    ⟨j, b, -, -, hm⟩ | ⟨-, hm⟩
  · unfold uploadOps at hm
    simp only [check, syncIfPresent] at hm
    aesop
  · unfold auxClearOps at hm
    aesop
  · unfold gradientPassOps at hm
    simp only [check, deref] at hm
    aesop
  · unfold simpleGradientCopyOps at hm
    simp only [check, deref] at hm
    aesop
  · unfold tessellationPassOps at hm
    simp only [check, deref] at hm
    aesop
  · unfold clearDestinationOps at hm
    aesop
  · unfold beginDrawPassOps at hm
    aesop
  · unfold batchOps drawTypeOps at hm
    simp only [deref, syncIfPresent, sharedPixelBindings] at hm
    aesop
  · unfold endDrawPassOps at hm
    aesop

/-- A flush that runs to its end issues a draw call for every batch with elements. -/
theorem flush_completed_has_draw {k : GpuConstants} {ctx : RenderContextRHIImpl}
    {desc : FlushDescriptor} {a : Nat} {A : DrawBatch} (hA : desc.drawList[a]? = some A)
    (hc : (flush k ctx desc).exit = .completed) (h0 : A.elementCount ≠ 0) :
    ∃ (p : Nat) (x : Issued), (flush k ctx desc).issued[p]? = some x ∧ x.isDrawOfBatch a := by
  cases hrt : desc.renderTarget with
  | none => simp [flush, hrt] at hc
  | some rt =>
    have hflush : flush k ctx desc = runOps (flushOps k ctx desc rt) := by simp [flush, hrt]
    rw [hflush] at hc ⊢
    obtain ⟨hok, hiss⟩ :=
      runOps_completed _ (fun _ _ _ h => flushOps_require_ne_completed h) hc
    have hokb : ∀ ok e, Op.require ok e ∈ drawTypeOps k ctx desc A → ok = true := by
      intro ok e h
      refine hok (.batch a) ok e (mem_flushOps.mpr ?_)
      exact Or.inr (Or.inr (Or.inr (Or.inr (Or.inr (Or.inr (Or.inr (Or.inl
        ⟨a, A, hA, rfl, drawTypeOps_subset_batchOps h0 h⟩)))))))
    obtain ⟨c, hdraw, hmem⟩ := drawTypeOps_has_draw hokb
    have hin : ({ step := .batch a, cmd := c } : Issued) ∈ (runOps (flushOps k ctx desc rt)).issued := by
      rw [hiss]
      refine mem_emitted.mpr (mem_flushOps.mpr ?_)
      exact Or.inr (Or.inr (Or.inr (Or.inr (Or.inr (Or.inr (Or.inr (Or.inl
        ⟨a, A, hA, rfl, drawTypeOps_subset_batchOps h0 hmem⟩)))))))
    obtain ⟨p, hp⟩ := List.getElem?_of_mem hin
    exact ⟨p, _, hp, rfl, hdraw⟩

/-- In a list whose batch draws ascend, the draw of an earlier batch sits at an earlier
position than the draw of a later batch. -/
theorem position_lt_of_pairwise {l : List Issued} (hl : l.Pairwise batchDrawsAscend)
    {a b p q : Nat} {x y : Issued} (hab : a < b) (hp : l[p]? = some x)
    (hx : x.isDrawOfBatch a) (hq : l[q]? = some y) (hy : y.isDrawOfBatch b) : p < q := by
  obtain ⟨hpl, hpx⟩ := List.getElem?_eq_some.mp hp
  obtain ⟨hql, hqy⟩ := List.getElem?_eq_some.mp hq
  by_contra hlt
  rcases Nat.lt_or_eq_of_le (Nat.le_of_not_lt hlt) with hqp | hqp
  · have := List.pairwise_iff_getElem.mp hl q p hql hpl hqp
    rw [hpx, hqy] at this
    have := this b a hy hx
    omega
  · subst hqp
    rw [hpx] at hqy
    subst hqy
    have : Step.batch a = Step.batch b := hx.1.symm.trans hy.1
    simp only [Step.batch.injEq] at this
    omega

/-- C1: for two batches A before B of the draw list (positions `a < b`), every draw call
that `flush` issues for A stands in the issued command sequence strictly before every draw
call it issues for B; and when the flush runs to its end and both batches have elements,
both draw calls are issued, whatever the draw types are. -/
theorem flush_preserves_draw_batch_order (k : GpuConstants) (ctx : RenderContextRHIImpl)
    (desc : FlushDescriptor) (a b : Nat) (A B : DrawBatch)
    (hA : desc.drawList[a]? = some A) (hB : desc.drawList[b]? = some B) (hab : a < b) :
    (∀ (p q : Nat) (x y : Issued), (flush k ctx desc).issued[p]? = some x →
        x.isDrawOfBatch a → (flush k ctx desc).issued[q]? = some y → y.isDrawOfBatch b →
        p < q) ∧
    ((flush k ctx desc).exit = .completed → A.elementCount ≠ 0 → B.elementCount ≠ 0 →
      ∃ (p q : Nat) (x y : Issued), (flush k ctx desc).issued[p]? = some x ∧
        x.isDrawOfBatch a ∧ (flush k ctx desc).issued[q]? = some y ∧ y.isDrawOfBatch b ∧
        p < q) := by
  have horder : ∀ (p q : Nat) (x y : Issued), (flush k ctx desc).issued[p]? = some x →
      x.isDrawOfBatch a → (flush k ctx desc).issued[q]? = some y → y.isDrawOfBatch b →
      p < q :=
    fun p q x y hp hx hq hy =>
      position_lt_of_pairwise (pairwise_flush_issued k ctx desc) hab hp hx hq hy
  refine ⟨horder, ?_⟩
  intro hc hA0 hB0
  obtain ⟨p, x, hp, hx⟩ := flush_completed_has_draw hA hc hA0
  obtain ⟨q, y, hq, hy⟩ := flush_completed_has_draw hB hc hB0
  exact ⟨p, q, x, y, hp, hx, hq, hy, horder p q x y hp hx hq hy⟩

/-- C1 at a concrete flush: a triangulation batch followed by a resolve batch; the flush
completes and the draw of the first batch precedes the draw of the second. -/
theorem flush_preserves_draw_batch_order_witness :
    twoBatchDescriptor.drawList[0]? = some (plainBatch .interiorTriangulation 6 0) ∧
    twoBatchDescriptor.drawList[1]? = some (plainBatch .gpuAtomicResolve 1 0) ∧
    (flush sampleConstants sampleContext twoBatchDescriptor).exit = .completed ∧
    ∃ (p q : Nat) (x y : Issued),
      (flush sampleConstants sampleContext twoBatchDescriptor).issued[p]? = some x ∧
      x.isDrawOfBatch 0 ∧
      (flush sampleConstants sampleContext twoBatchDescriptor).issued[q]? = some y ∧
      y.isDrawOfBatch 1 ∧ p < q :=
  ⟨rfl, rfl, by decide,
    (flush_preserves_draw_batch_order sampleConstants sampleContext twoBatchDescriptor 0 1
      (plainBatch .interiorTriangulation 6 0) (plainBatch .gpuAtomicResolve 1 0) rfl rfl
      (by decide)).2 (by decide) (by decide) (by decide)⟩

/-! ## The end-to-end scenario -/

theorem filter_isDraw_emitted_eq_nil (s : Step) (ops : List Op)
    (h : ∀ c, Op.emit c ∈ ops → c.isDraw = false) :
    (emitted (inStep s ops)).filter (fun x => x.cmd.isDraw) = [] := by
  rw [List.filter_eq_nil_iff]
  intro x hx
  have hm := mem_emitted.mp hx
  rw [mem_inStep] at hm
  simp [h x.cmd hm.2]

theorem filterMap_boundShaders_emitted_eq_nil (s : Step) (ops : List Op)
    (h : ∀ c, Op.emit c ∈ ops → c.boundShaders = none) :
    (emitted (inStep s ops)).filterMap (fun x => x.cmd.boundShaders) = [] := by
  rw [List.filterMap_eq_nil_iff]
  intro x hx
  have hm := mem_emitted.mp hx
  rw [mem_inStep] at hm
  exact h x.cmd hm.2

/-- With every buffer allocated the checks of the upload block hold. -/
theorem uploadOps_requires_ok {ctx : RenderContextRHIImpl} {desc : FlushDescriptor}
    (halloc : ctx.allAllocated) {ok : Bool} {e : Exit}
    (hm : Op.require ok e ∈ uploadOps ctx desc) : ok = true := by
  obtain ⟨-, -, a3, a4, a5, a6, -, -, -, -, -, -⟩ := halloc
  unfold uploadOps at hm
  simp only [check, syncIfPresent, a3, a4, a5, a6] at hm
  aesop

theorem auxClearOps_no_require {desc : FlushDescriptor} {ok : Bool} {e : Exit}
    (hm : Op.require ok e ∈ auxClearOps desc) : False := by
  unfold auxClearOps at hm
  aesop

/-- With every buffer and texture allocated the gradient pass runs through. -/
theorem gradientPassOps_requires_ok {k : GpuConstants} {ctx : RenderContextRHIImpl}
    {desc : FlushDescriptor} (halloc : ctx.allAllocated) {ok : Bool} {e : Exit}
    (hm : Op.require ok e ∈ gradientPassOps k ctx desc) : ok = true := by
  obtain ⟨a1, -, -, -, -, -, -, a8, -, -, a11, -⟩ := halloc
  unfold gradientPassOps at hm
  simp only [check, deref, a1, a8, a11] at hm
  aesop

/-- With the ramps buffer allocated and large enough the simple copy runs through. -/
theorem simpleGradientCopyOps_requires_ok {k : GpuConstants} {ctx : RenderContextRHIImpl}
    {desc : FlushDescriptor} (halloc : ctx.allAllocated) (hfits : simpleGradientFits ctx desc)
    {ok : Bool} {e : Exit}
    (hm : Op.require ok e ∈ simpleGradientCopyOps k ctx desc) : ok = true := by
  obtain ⟨-, -, -, -, -, -, a7, -, -, -, -, -⟩ := halloc
  unfold simpleGradientCopyOps at hm
  unfold simpleGradientFits at hfits
  simp only [check, deref, a7] at hm
  aesop

/-- With every buffer and texture allocated the tessellation pass runs through. -/
theorem tessellationPassOps_requires_ok {k : GpuConstants} {ctx : RenderContextRHIImpl}
    {desc : FlushDescriptor} (halloc : ctx.allAllocated) {ok : Bool} {e : Exit}
    (hm : Op.require ok e ∈ tessellationPassOps k ctx desc) : ok = true := by
  obtain ⟨a1, -, a3, -, -, a6, -, -, a9, -, -, a12⟩ := halloc
  unfold tessellationPassOps at hm
  simp only [check, deref, a1, a3, a6, a9, a12] at hm
  aesop

theorem clearDestinationOps_no_require {desc : FlushDescriptor} {ok : Bool} {e : Exit}
    (hm : Op.require ok e ∈ clearDestinationOps desc) : False := by
  unfold clearDestinationOps at hm
  aesop

theorem beginDrawPassOps_no_require {desc : FlushDescriptor} {rt : RenderTargetRHI}
    {ok : Bool} {e : Exit} (hm : Op.require ok e ∈ beginDrawPassOps desc rt) : False := by
  unfold beginDrawPassOps at hm
  aesop

theorem endDrawPassOps_no_require {desc : FlushDescriptor} {ok : Bool} {e : Exit}
    (hm : Op.require ok e ∈ endDrawPassOps desc) : False := by
  unfold endDrawPassOps at hm
  aesop

/-- With every buffer allocated the iteration of a triangulation batch runs through. -/
theorem batchOps_interiorTriangulation_requires_ok {k : GpuConstants}
    {ctx : RenderContextRHIImpl} {desc : FlushDescriptor} {batch : DrawBatch}
    (halloc : ctx.allAllocated) (htype : batch.drawType = .interiorTriangulation)
    {ok : Bool} {e : Exit} (hm : Op.require ok e ∈ batchOps k ctx desc batch) : ok = true := by
  obtain ⟨a1, -, a3, a4, a5, -, -, -, -, a10, -, -⟩ := halloc
  unfold batchOps drawTypeOps at hm
  simp only [deref, syncIfPresent, sharedPixelBindings, htype, a1, a3, a4, a5, a10] at hm
  aesop

theorem uploadOps_emit_not_draw {ctx : RenderContextRHIImpl} {desc : FlushDescriptor}
    {c : Cmd} (hm : Op.emit c ∈ uploadOps ctx desc) :
    c.isDraw = false ∧ c.boundShaders = none := by
  unfold uploadOps at hm
  simp only [check, syncIfPresent, Cmd.isDraw, Cmd.boundShaders] at *
  aesop

theorem auxClearOps_emit_not_draw {desc : FlushDescriptor} {c : Cmd}
    (hm : Op.emit c ∈ auxClearOps desc) : c.isDraw = false ∧ c.boundShaders = none := by
  unfold auxClearOps at hm
  simp only [Cmd.isDraw, Cmd.boundShaders] at *
  aesop

theorem simpleGradientCopyOps_emit_not_draw {k : GpuConstants} {ctx : RenderContextRHIImpl}
    {desc : FlushDescriptor} {c : Cmd} (hm : Op.emit c ∈ simpleGradientCopyOps k ctx desc) :
    c.isDraw = false ∧ c.boundShaders = none := by
  unfold simpleGradientCopyOps at hm
  simp only [deref, Cmd.isDraw, Cmd.boundShaders] at *
  aesop

theorem clearDestinationOps_emit_not_draw {desc : FlushDescriptor} {c : Cmd}
    (hm : Op.emit c ∈ clearDestinationOps desc) :
    c.isDraw = false ∧ c.boundShaders = none := by
  unfold clearDestinationOps at hm
  simp only [Cmd.isDraw, Cmd.boundShaders] at *
  aesop

theorem beginDrawPassOps_emit_not_draw {desc : FlushDescriptor} {rt : RenderTargetRHI}
    {c : Cmd} (hm : Op.emit c ∈ beginDrawPassOps desc rt) :
    c.isDraw = false ∧ c.boundShaders = none := by
  unfold beginDrawPassOps at hm
  simp only [Cmd.isDraw, Cmd.boundShaders] at *
  aesop

theorem endDrawPassOps_emit_not_draw {desc : FlushDescriptor} {c : Cmd}
    (hm : Op.emit c ∈ endDrawPassOps desc) : c.isDraw = false ∧ c.boundShaders = none := by
  unfold endDrawPassOps at hm
  simp only [Cmd.isDraw, Cmd.boundShaders] at *
  aesop

/-- Commands of the gradient pass for four complex gradient spans: its draw call and
its pipeline. -/
theorem gradientPass_four_spans {k : GpuConstants} {ctx : RenderContextRHIImpl}
    {desc : FlushDescriptor} (hgrad : desc.complexGradSpanCount = 4) :
    (emitted (inStep .gradientPass (gradientPassOps k ctx desc))).filter
        (fun x => x.cmd.isDraw) = [{ step := .gradientPass, cmd := .drawPrimitive 0 2 4 }] ∧
    (emitted (inStep .gradientPass (gradientPassOps k ctx desc))).filterMap
        (fun x => x.cmd.boundShaders) = [.gradient] := by
  simp [gradientPassOps, hgrad, check, deref, inStep, emitted, Cmd.isDraw, Cmd.boundShaders]

/-- Commands of the loop iteration of a triangulation batch of 300 elements without
advanced blend: its draw call and its pipeline. -/
theorem batch_interiorTriangulation_300 {k : GpuConstants} {ctx : RenderContextRHIImpl}
    {desc : FlushDescriptor} {batch : DrawBatch} (i : Nat)
    (hblend : desc.combinedShaderFeatures.ENABLE_ADVANCED_BLEND = false)
    (htype : batch.drawType = .interiorTriangulation) (hcount : batch.elementCount = 300) :
    (emitted (inStep (.batch i) (batchOps k ctx desc batch))).filter
        (fun x => x.cmd.isDraw) =
      [{ step := .batch i, cmd := .drawPrimitive batch.baseElement 100 1 }] ∧
    (emitted (inStep (.batch i) (batchOps k ctx desc batch))).filterMap
        (fun x => x.cmd.boundShaders) = [.interiorTriangles] := by
  have h300 : ((300 : Nat) == 0) = false := by decide
  unfold batchOps drawTypeOps
  simp only [htype, hcount, hblend, h300, Bool.false_eq_true, if_false]
  split_ifs <;>
    first
    | contradiction
    | simp [deref, inStep, emitted, Cmd.isDraw, Cmd.boundShaders, batchPipelineState]

/-- C4: for a descriptor with `complexGradSpanCount = 4`, `tessVertexSpanCount = 0`, no
`ENABLE_ADVANCED_BLEND` and a draw list of exactly one interior-triangulation batch of 300
elements, on a context with every buffer and texture allocated (and the simple-ramp data
within the ramps buffer), `flush` runs to its end and issues exactly two draw calls: the
gradient-pass draw with 4 instances and the interior-triangulation draw of 100 triangles.
The pipelines it binds are the gradient one and the interior-triangulation one, so there
is no tessellation draw and no resolve draw. -/
theorem flush_scenario_draws (k : GpuConstants) (ctx : RenderContextRHIImpl)
    (desc : FlushDescriptor) (rt : RenderTargetRHI) (batch : DrawBatch)
    (halloc : ctx.allAllocated) (hrt : desc.renderTarget = some rt)
    (hfits : simpleGradientFits ctx desc)
    (hgrad : desc.complexGradSpanCount = 4) (htess : desc.tessVertexSpanCount = 0)
    (hblend : desc.combinedShaderFeatures.ENABLE_ADVANCED_BLEND = false)
    (hlist : desc.drawList = [batch]) (htype : batch.drawType = .interiorTriangulation)
    (hcount : batch.elementCount = 300) :
    (flush k ctx desc).exit = .completed ∧
    (flush k ctx desc).issued.filter (fun x => x.cmd.isDraw) =
      [{ step := .gradientPass, cmd := .drawPrimitive 0 2 4 },
       { step := .batch 0, cmd := .drawPrimitive batch.baseElement 100 1 }] ∧
    (flush k ctx desc).issued.filterMap (fun x => x.cmd.boundShaders) =
      [.gradient, .interiorTriangles] := by
  have hflush : flush k ctx desc = runOps (flushOps k ctx desc rt) := by simp [flush, hrt]
  have hok : ∀ s ok e, (s, Op.require ok e) ∈ flushOps k ctx desc rt → ok = true := by
    intro s ok e h
    rw [mem_flushOps] at h
    rcases h with ⟨-, hm⟩ | ⟨-, hm⟩ | ⟨-, hm⟩ | ⟨-, hm⟩ | ⟨-, hm⟩ | ⟨-, hm⟩ | ⟨-, hm⟩ |
      ⟨j, b, hj, -, hm⟩ | ⟨-, hm⟩
    · exact uploadOps_requires_ok halloc hm
    · exact (auxClearOps_no_require hm).elim
    · exact gradientPassOps_requires_ok halloc hm
    · exact simpleGradientCopyOps_requires_ok halloc hfits hm
    · exact tessellationPassOps_requires_ok halloc hm
    · exact (clearDestinationOps_no_require hm).elim
    · exact (beginDrawPassOps_no_require hm).elim
    · have hb : b = batch := by
        rw [hlist] at hj
        cases j with
        | zero => simpa using hj.symm
        | succ j => simp at hj
      subst hb
      exact batchOps_interiorTriangulation_requires_ok halloc htype hm
    · exact (endDrawPassOps_no_require hm).elim
  have htessOps : tessellationPassOps k ctx desc = [] := by
    simp [tessellationPassOps, htess]
  have hloop : drawLoopOps k ctx desc 0 desc.drawList =
      inStep (.batch 0) (batchOps k ctx desc batch) := by
    simp [hlist, drawLoopOps]
  rw [hflush, runOps_of_requires_ok _ hok]
  refine ⟨rfl, ?_, ?_⟩
  · simp only [flushOps, emitted_append, List.filter_append, htessOps, hloop,
      filter_isDraw_emitted_eq_nil .upload _ (fun c h => (uploadOps_emit_not_draw h).1),
      filter_isDraw_emitted_eq_nil .auxClear _ (fun c h => (auxClearOps_emit_not_draw h).1),
      filter_isDraw_emitted_eq_nil .simpleGradientCopy _
        (fun c h => (simpleGradientCopyOps_emit_not_draw h).1),
      filter_isDraw_emitted_eq_nil .clearDestination _
        (fun c h => (clearDestinationOps_emit_not_draw h).1),
      filter_isDraw_emitted_eq_nil .beginDrawPass _
        (fun c h => (beginDrawPassOps_emit_not_draw h).1),
      filter_isDraw_emitted_eq_nil .endDrawPass _
        (fun c h => (endDrawPassOps_emit_not_draw h).1),
      (gradientPass_four_spans hgrad).1,
      (batch_interiorTriangulation_300 0 hblend htype hcount).1]
    simp [inStep, emitted]
  · simp only [flushOps, emitted_append, List.filterMap_append, htessOps, hloop,
      filterMap_boundShaders_emitted_eq_nil .upload _
        (fun c h => (uploadOps_emit_not_draw h).2),
      filterMap_boundShaders_emitted_eq_nil .auxClear _
        (fun c h => (auxClearOps_emit_not_draw h).2),
      filterMap_boundShaders_emitted_eq_nil .simpleGradientCopy _
        (fun c h => (simpleGradientCopyOps_emit_not_draw h).2),
      filterMap_boundShaders_emitted_eq_nil .clearDestination _
        (fun c h => (clearDestinationOps_emit_not_draw h).2),
      filterMap_boundShaders_emitted_eq_nil .beginDrawPass _
        (fun c h => (beginDrawPassOps_emit_not_draw h).2),
      filterMap_boundShaders_emitted_eq_nil .endDrawPass _
        (fun c h => (endDrawPassOps_emit_not_draw h).2),
      (gradientPass_four_spans hgrad).2,
      (batch_interiorTriangulation_300 0 hblend htype hcount).2]
    simp [inStep, emitted]

/-- C4 at a concrete flush: the scenario descriptor on the sample context. -/
theorem flush_scenario_draws_witness :
    sampleContext.allAllocated ∧ simpleGradientFits sampleContext scenarioDescriptor ∧
    (flush sampleConstants sampleContext scenarioDescriptor).exit = .completed ∧
    (flush sampleConstants sampleContext scenarioDescriptor).issued.filter
        (fun x => x.cmd.isDraw) =
      [{ step := .gradientPass, cmd := .drawPrimitive 0 2 4 },
       { step := .batch 0, cmd := .drawPrimitive 0 100 1 }] ∧
    (flush sampleConstants sampleContext scenarioDescriptor).issued.filterMap
        (fun x => x.cmd.boundShaders) = [.gradient, .interiorTriangles] :=
  have halloc : sampleContext.allAllocated :=
    ⟨rfl, rfl, rfl, rfl, rfl, rfl, rfl, rfl, rfl, rfl, rfl, rfl⟩
  have hfits : simpleGradientFits sampleContext scenarioDescriptor := by
    intro h; exact absurd h (by decide)
  ⟨halloc, hfits,
    flush_scenario_draws sampleConstants sampleContext scenarioDescriptor
      { width := 64, height := 64 } (plainBatch .interiorTriangulation 300 0)
      halloc rfl hfits rfl rfl rfl rfl rfl rfl⟩

/-! ## Image decoding -/

/-- In-bounds part of the header rejection: a span of at least four bytes whose first
bytes are none of the three signatures is rejected without any call. -/
theorem decodeImageTexture_rejects_other_header (iw : ImageWrapperModule) (wp : WebPLibrary)
    (b0 b1 b2 b3 : Nat) (rest : List Nat) (beyond : Nat → Nat)
    (hpng : [b0, b1, b2, b3] ≠ PNG) (hjpeg : [b0, b1, b2] ≠ JPEG)
    (hwebp : [b0, b1, b2] ≠ WEBP) :
    decodeImageTexture iw wp { bytes := b0 :: b1 :: b2 :: b3 :: rest, beyond := beyond } =
      { calls := [], texture := none } := by
  have h1 : memcmpEq PNG { bytes := b0 :: b1 :: b2 :: b3 :: rest, beyond := beyond } = false := by
    simpa [memcmpEq, PNG, ByteSpan.read, ByteSpan.byteAt] using hpng
  have h2 : memcmpEq JPEG { bytes := b0 :: b1 :: b2 :: b3 :: rest, beyond := beyond } = false := by
    simpa [memcmpEq, JPEG, ByteSpan.read, ByteSpan.byteAt] using hjpeg
  have h3 : memcmpEq WEBP { bytes := b0 :: b1 :: b2 :: b3 :: rest, beyond := beyond } = false := by
    simpa [memcmpEq, WEBP, ByteSpan.read, ByteSpan.byteAt] using hwebp
  simp [decodeImageTexture, h1, h2, h3]

/-- C6, failing input: for the empty span located at the first byte of a PNG signature
the comparison reads past the end of the span, finds the signature, and the generic image
codec is invoked (wrapper creation and `SetCompressed` with size 0). -/
theorem decodeImageTexture_empty_span_invokes_codec :
    emptySpanBeforePng.bytes = [] ∧
    (decodeImageTexture rejectingImageWrapper probeFailingWebP emptySpanBeforePng).calls =
      [.loadImageWrapperModule, .createImageWrapper .PNG, .setCompressed .PNG 0] := by
  decide

/-- C7, failing input: the data begins with R, I, F, the `WebPGetInfo` probe reports
failure, and `decodeImageTexture` still creates and returns a texture. -/
theorem decodeImageTexture_ignores_failed_probe :
    probeFailingWebP.getInfo riffSpan.bytes = false ∧
    (decodeImageTexture rejectingImageWrapper probeFailingWebP riffSpan).texture =
      some { width := 1, height := 1, mipLevelCount := 1, imageData := [0, 0, 0, 255],
             pixelFormat := .PF_R8G8B8A8 } ∧
    DecodeCall.createTexture 1 1 1 .PF_R8G8B8A8 ∈
      (decodeImageTexture rejectingImageWrapper probeFailingWebP riffSpan).calls := by
  decide

/-- Every failure that `decodeImageTexture` acts on yields a null texture and no texture
construction: wrapper creation, `SetCompressed`, `GetRaw`, decoder-config init, demuxer
creation, first-frame fetch and `WebPDecode`. -/
theorem decode_failure_returns_null (iw : ImageWrapperModule) (wp : WebPLibrary)
    (format : EImageFormat) (data : List Nat) :
    ((iw.createIsValid format = false ∨ iw.setCompressed format data = false ∨
        iw.getRaw format data = none) →
      (decodeWithImageWrapper iw format data).texture = none ∧
      ∀ c ∈ (decodeWithImageWrapper iw format data).calls, c.isCreateTexture = false) ∧
    ((wp.initDecoderConfig = false ∨ wp.demux data = false ∨ wp.demuxGetFrame data = none ∨
        (∀ fragment, wp.demuxGetFrame data = some fragment →
          wp.decode fragment ((wp.canvasWidth data * 4) % 2 ^ 32)
            ((wp.canvasWidth data * wp.canvasHeight data * 4) % 2 ^ 64) = none)) →
      (decodeWithWebP wp data).texture = none ∧
      ∀ c ∈ (decodeWithWebP wp data).calls, c.isCreateTexture = false) := by
  constructor
  · intro h
    unfold decodeWithImageWrapper
    split_ifs with h1 h2
    · simp [DecodeCall.isCreateTexture]
    · simp [DecodeCall.isCreateTexture]
    · split
      · simp [DecodeCall.isCreateTexture]
      · rename_i raw hraw
        simp only [Bool.not_eq_true, Bool.not_eq_eq_eq_not, Bool.not_true,
          Bool.not_eq_false] at h1 h2
        rcases h with h | h | h
        · simp [h] at h1
        · simp [h] at h2
        · simp [h] at hraw
  · intro h
    unfold decodeWithWebP
    split_ifs with h1 h2
    · simp [DecodeCall.isCreateTexture]
    · simp [DecodeCall.isCreateTexture]
    · split
      · simp [DecodeCall.isCreateTexture]
      · rename_i fragment hfrag
        simp only []
        split
        · simp [DecodeCall.isCreateTexture]
        · rename_i pixels hpix
          simp only [Bool.not_eq_true, Bool.not_eq_eq_eq_not, Bool.not_true,
            Bool.not_eq_false] at h1 h2
          rcases h with h | h | h | h
          · simp [h] at h1
          · simp [h] at h2
          · simp [h] at hfrag
          · rw [h fragment hfrag] at hpix
            simp at hpix

/-! ## Resizing and mapping the logical buffers -/

theorem slot_resizeBuffer_zero (k : GpuConstants) (b : LogicalBuffer)
    (ctx : RenderContextRHIImpl) (s : StorageBufferStructure) :
    (resizeBuffer k b ctx 0 s).slot b = none := by
  cases b <;> rfl

theorem slot_resizeBuffer_pos (k : GpuConstants) (b : LogicalBuffer)
    (ctx : RenderContextRHIImpl) (n : Nat) (s : StorageBufferStructure) (hn : 0 < n) :
    (resizeBuffer k b ctx n s).slot b = some (freshBuffer k b n s) := by
  have h : (n != 0) = true := by simpa [bne_iff_ne] using Nat.pos_iff_ne_zero.mp hn
  cases b <;>
    simp [resizeBuffer, resizeFlushUniformBuffer, resizeImageDrawUniformBuffer,
      resizePathBuffer, resizePaintBuffer, resizePaintAuxBuffer, resizeContourBuffer,
      resizeSimpleColorRampsBuffer, resizeGradSpanBuffer, resizeTessVertexSpanBuffer,
      resizeTriangleVertexBuffer, RenderContextRHIImpl.slot, freshBuffer, h]

theorem capacityInBytes_freshBuffer (k : GpuConstants) (b : LogicalBuffer) (n : Nat)
    (s : StorageBufferStructure) : (freshBuffer k b n s).capacityInBytes = n := by
  cases b <;> rfl

theorem slot_resizeBuffer_other (k : GpuConstants) (b b' : LogicalBuffer)
    (ctx : RenderContextRHIImpl) (n : Nat) (s : StorageBufferStructure) (hne : b' ≠ b) :
    (resizeBuffer k b ctx n s).slot b' = ctx.slot b' := by
  cases b <;> cases b' <;> first
    | exact absurd rfl hne
    | (simp only [resizeBuffer, resizeFlushUniformBuffer, resizeImageDrawUniformBuffer,
        resizePathBuffer, resizePaintBuffer, resizePaintAuxBuffer, resizeContourBuffer,
        resizeSimpleColorRampsBuffer, resizeGradSpanBuffer, resizeTessVertexSpanBuffer,
        resizeTriangleVertexBuffer, RenderContextRHIImpl.slot]
       split_ifs <;> rfl)

theorem textures_resizeBuffer (k : GpuConstants) (b : LogicalBuffer)
    (ctx : RenderContextRHIImpl) (n : Nat) (s : StorageBufferStructure) :
    (resizeBuffer k b ctx n s).m_gradiantTexture = ctx.m_gradiantTexture ∧
    (resizeBuffer k b ctx n s).m_tesselationTexture = ctx.m_tesselationTexture ∧
    (resizeBuffer k b ctx n s).m_tessSRV = ctx.m_tessSRV := by
  cases b <;>
    (simp only [resizeBuffer, resizeFlushUniformBuffer, resizeImageDrawUniformBuffer,
        resizePathBuffer, resizePaintBuffer, resizePaintAuxBuffer, resizeContourBuffer,
        resizeSimpleColorRampsBuffer, resizeGradSpanBuffer, resizeTessVertexSpanBuffer,
        resizeTriangleVertexBuffer]
     split_ifs <;> exact ⟨rfl, rfl, rfl⟩)

/-- Mapping a logical buffer whose member is null fails. -/
theorem mapBuffer_of_slot_none (b : LogicalBuffer) (ctx : RenderContextRHIImpl) (m : Nat)
    (h : ctx.slot b = none) : mapBuffer b ctx m = none := by
  cases b <;>
    simp only [RenderContextRHIImpl.slot, Option.map_eq_none'] at h <;>
    simp [mapBuffer, mapFlushUniformBuffer, mapImageDrawUniformBuffer, mapPathBuffer,
      mapPaintBuffer, mapPaintAuxBuffer, mapContourBuffer, mapSimpleColorRampsBuffer,
      mapGradSpanBuffer, mapTessVertexSpanBuffer, mapTriangleVertexBuffer, h]

/-- Mapping a logical buffer that is present returns its shadow region, whose size is the
capacity of the buffer. -/
theorem mapBuffer_of_slot_some (b : LogicalBuffer) (ctx : RenderContextRHIImpl) (m : Nat)
    (o : BufferObject) (h : ctx.slot b = some o) :
    ∃ ctx', mapBuffer b ctx m = some ({ sizeInBytes := o.capacityInBytes }, ctx') := by
  cases b <;>
    simp only [RenderContextRHIImpl.slot, Option.map_eq_some'] at h <;>
    obtain ⟨x, hx, rfl⟩ := h <;>
    simp [mapBuffer, mapFlushUniformBuffer, mapImageDrawUniformBuffer, mapPathBuffer,
      mapPaintBuffer, mapPaintAuxBuffer, mapContourBuffer, mapSimpleColorRampsBuffer,
      mapGradSpanBuffer, mapTessVertexSpanBuffer, mapTriangleVertexBuffer, hx,
      UniformBufferRHIImpl.mapBuffer, UniformBufferRHIImpl.onMapBuffer,
      StructuredBufferRingRHIImpl.mapBuffer, StructuredBufferRingRHIImpl.onMapBuffer,
      HeapBufferRing.mapBuffer, HeapBufferRing.onMapBuffer, BufferRingRHIImpl.mapBuffer,
      BufferRingRHIImpl.onMapBuffer, BufferRing.shadowBuffer, BufferObject.capacityInBytes]

/-- After `resize(N)` with `N > 0`, `map` returns a region of exactly `N` bytes. -/
theorem mapBuffer_resizeBuffer_pos (k : GpuConstants) (b : LogicalBuffer)
    (ctx : RenderContextRHIImpl) (n m : Nat) (s : StorageBufferStructure) (hn : 0 < n) :
    ∃ ctx', mapBuffer b (resizeBuffer k b ctx n s) m = some ({ sizeInBytes := n }, ctx') := by
  obtain ⟨ctx', h⟩ :=
    mapBuffer_of_slot_some b (resizeBuffer k b ctx n s) m _ (slot_resizeBuffer_pos k b ctx n s hn)
  rw [capacityInBytes_freshBuffer] at h
  exact ⟨ctx', h⟩

theorem resizeSequence_append (k : GpuConstants) (b : LogicalBuffer)
    (ctx : RenderContextRHIImpl) (l₁ l₂ : List (Nat × StorageBufferStructure)) :
    resizeSequence k b ctx (l₁ ++ l₂) = resizeSequence k b (resizeSequence k b ctx l₁) l₂ := by
  induction l₁ generalizing ctx with
  | nil => rfl
  | cons x rest ih =>
    obtain ⟨n, s⟩ := x
    simp [resizeSequence, ih]

/-- C8: for each of the ten logical buffers and every prior state, `resize(0)` leaves the
buffer released, `resize(N)` with `N > 0` leaves the buffer that the constructor builds
for `N` (it does not depend on the prior state) whose capacity is exactly `N` bytes, and
no other logical buffer (nor a texture) is changed by the call. -/
theorem resizeBuffer_contract (k : GpuConstants) (b : LogicalBuffer)
    (ctx : RenderContextRHIImpl) (n : Nat) (s : StorageBufferStructure) :
    (n = 0 → (resizeBuffer k b ctx n s).slot b = none) ∧
    (0 < n → (resizeBuffer k b ctx n s).slot b = some (freshBuffer k b n s) ∧
      (freshBuffer k b n s).capacityInBytes = n) ∧
    (∀ b', b' ≠ b → (resizeBuffer k b ctx n s).slot b' = ctx.slot b') ∧
    (resizeBuffer k b ctx n s).m_gradiantTexture = ctx.m_gradiantTexture ∧
    (resizeBuffer k b ctx n s).m_tesselationTexture = ctx.m_tesselationTexture := by
  refine ⟨?_, ?_, ?_, (textures_resizeBuffer k b ctx n s).1, (textures_resizeBuffer k b ctx n s).2.1⟩
  · rintro rfl
    exact slot_resizeBuffer_zero k b ctx s
  · intro hn
    exact ⟨slot_resizeBuffer_pos k b ctx n s hn, capacityInBytes_freshBuffer k b n s⟩
  · intro b' hne
    exact slot_resizeBuffer_other k b b' ctx n s hne

/-- C8 at concrete calls: releasing and re-allocating the path buffer of the sample
context. -/
theorem resizeBuffer_contract_witness :
    (resizeBuffer sampleConstants .path sampleContext 0 { ordinal := 0 }).slot .path = none ∧
    ((resizeBuffer sampleConstants .path sampleContext 48 { ordinal := 0 }).slot .path =
        some (freshBuffer sampleConstants .path 48 { ordinal := 0 }) ∧
      (freshBuffer sampleConstants .path 48 { ordinal := 0 }).capacityInBytes = 48) ∧
    (resizeBuffer sampleConstants .path sampleContext 48 { ordinal := 0 }).slot .paint =
      sampleContext.slot .paint :=
  ⟨(resizeBuffer_contract sampleConstants .path sampleContext 0 { ordinal := 0 }).1 rfl,
    (resizeBuffer_contract sampleConstants .path sampleContext 48 { ordinal := 0 }).2.1
      (by decide),
    (resizeBuffer_contract sampleConstants .path sampleContext 48 { ordinal := 0 }).2.2.1
      .paint (by decide)⟩

/-- C9: for every logical ring buffer, `map` right after `resize(0)` fails (the call
dereferences the null member and returns no region), and `map(N)` right after `resize(N)`
with `N > 0` succeeds with a region of at least `N` bytes. -/
theorem map_after_resize (k : GpuConstants) (b : LogicalBuffer)
    (ctx : RenderContextRHIImpl) (s : StorageBufferStructure) :
    (∀ m, mapBuffer b (resizeBuffer k b ctx 0 s) m = none) ∧
    (∀ N, 0 < N → ∃ region ctx',
      mapBuffer b (resizeBuffer k b ctx N s) N = some (region, ctx') ∧
      N ≤ region.sizeInBytes) := by
  constructor
  · intro m
    exact mapBuffer_of_slot_none b _ m (slot_resizeBuffer_zero k b ctx s)
  · intro N hN
    obtain ⟨ctx', h⟩ := mapBuffer_resizeBuffer_pos k b ctx N N s hN
    exact ⟨_, ctx', h, Nat.le_refl N⟩

/-- C9 at concrete calls on the triangle buffer of the sample context. -/
theorem map_after_resize_witness :
    mapBuffer .triangle
      (resizeBuffer sampleConstants .triangle sampleContext 0 { ordinal := 0 }) 16 = none ∧
    ∃ region ctx',
      mapBuffer .triangle
        (resizeBuffer sampleConstants .triangle sampleContext 96 { ordinal := 0 }) 96 =
        some (region, ctx') ∧
      96 ≤ region.sizeInBytes :=
  ⟨(map_after_resize sampleConstants .triangle sampleContext { ordinal := 0 }).1 16,
    (map_after_resize sampleConstants .triangle sampleContext { ordinal := 0 }).2 96
      (by decide)⟩

/-- C10: after any finite sequence of `resize` calls on a ring buffer whose last call
requests `N > 0` bytes, `map(N)` succeeds and the region it returns has exactly `N` bytes:
it is never smaller than the most recently requested size and does not depend on any
earlier size of the sequence. -/
theorem map_after_resize_sequence (k : GpuConstants) (b : LogicalBuffer)
    (ctx : RenderContextRHIImpl) (earlier : List (Nat × StorageBufferStructure)) (N : Nat)
    (s : StorageBufferStructure) (hN : 0 < N) :
    ∃ region ctx',
      mapBuffer b (resizeSequence k b ctx (earlier ++ [(N, s)])) N = some (region, ctx') ∧
      N ≤ region.sizeInBytes ∧ region.sizeInBytes = N := by
  rw [resizeSequence_append]
  obtain ⟨ctx', h⟩ := mapBuffer_resizeBuffer_pos k b (resizeSequence k b ctx earlier) N N s hN
  exact ⟨_, ctx', h, Nat.le_refl N, rfl⟩

/-- C10 at a concrete sequence: the gradient span buffer resized to 100, shrunk to 10 and
grown to 50 bytes, then mapped for 50 bytes. -/
theorem map_after_resize_sequence_witness :
    ∃ region ctx', mapBuffer .gradSpan resizedThrice 50 = some (region, ctx') ∧
      50 ≤ region.sizeInBytes ∧ region.sizeInBytes = 50 :=
  map_after_resize_sequence sampleConstants .gradSpan RenderContextRHIImpl.initial
    [(100, { ordinal := 0 }), (10, { ordinal := 0 })] 50 { ordinal := 0 } (by decide)

/-! ## Resizing the gradient and tessellation textures -/

theorem toInt32_of_lt {v : Nat} (h : v < 2 ^ 31) : toInt32 v = (v : Int) := by
  have h1 : v % 2 ^ 32 = v := Nat.mod_eq_of_lt (by omega)
  unfold toInt32
  rw [h1, if_pos h]

theorem resizeGradientTexture_none_iff (ctx : RenderContextRHIImpl) (w h : Nat) :
    (resizeGradientTexture ctx w h).1.m_gradiantTexture = none ↔ (w = 0 ∧ h = 0) := by
  unfold resizeGradientTexture
  by_cases hz : w = 0 ∧ h = 0
  · simp [hz.1, hz.2]
  · have : (w == 0 && h == 0) = false := by
      simpa [Bool.and_eq_false_iff] using hz
    simp [this, hz]

theorem resizeTessellationTexture_none_iff (ctx : RenderContextRHIImpl) (w h : Nat) :
    (resizeTessellationTexture ctx w h).1.m_tesselationTexture = none ↔ (w = 0 ∧ h = 0) := by
  unfold resizeTessellationTexture
  by_cases hz : w = 0 ∧ h = 0
  · simp [hz.1, hz.2]
  · have : (w == 0 && h == 0) = false := by
      simpa [Bool.and_eq_false_iff] using hz
    simp [this, hz]

/-- C12, amended: for `resizeGradientTexture` and `resizeTessellationTexture` and every
`(width, height)`, the texture is released exactly when `width = 0` and `height = 0`; in
every other case a texture is allocated, and when both values are below `2 ^ 31` its
dimensions are `max(width, 1)` by `max(height, 1)`. -/
theorem resizeTexture_contract (ctx : RenderContextRHIImpl) (w h : Nat) :
    ((resizeGradientTexture ctx w h).1.m_gradiantTexture = none ↔ (w = 0 ∧ h = 0)) ∧
    ((resizeTessellationTexture ctx w h).1.m_tesselationTexture = none ↔ (w = 0 ∧ h = 0)) ∧
    (¬(w = 0 ∧ h = 0) → w < 2 ^ 31 → h < 2 ^ 31 →
      (resizeGradientTexture ctx w h).1.m_gradiantTexture =
        some { width := ((max w 1 : Nat) : Int), height := ((max h 1 : Nat) : Int),
               format := .PF_R8G8B8A8 } ∧
      (resizeTessellationTexture ctx w h).1.m_tesselationTexture =
        some { width := ((max w 1 : Nat) : Int), height := ((max h 1 : Nat) : Int),
               format := .PF_R32G32B32A32_UINT }) := by
  refine ⟨resizeGradientTexture_none_iff ctx w h, resizeTessellationTexture_none_iff ctx w h, ?_⟩
  intro hz hw hh
  have hb : (w == 0 && h == 0) = false := by
    simpa [Bool.and_eq_false_iff] using hz
  have hw' : max w 1 < 2 ^ 31 := by
    rcases Nat.le_total w 1 with h1 | h1
    · rw [Nat.max_eq_right h1]; decide
    · rw [Nat.max_eq_left h1]; exact hw
  have hh' : max h 1 < 2 ^ 31 := by
    rcases Nat.le_total h 1 with h1 | h1
    · rw [Nat.max_eq_right h1]; decide
    · rw [Nat.max_eq_left h1]; exact hh
  simp [resizeGradientTexture, resizeTessellationTexture, hb, toInt32_of_lt hw',
    toInt32_of_lt hh']

/-- C12, as stated, fails: for `width = 2 ^ 31` the `static_cast<int32_t>` of the source
makes the requested width negative, so the texture does not have width `max(width, 1)`. -/
theorem resizeGradientTexture_wraps_large_width :
    (resizeGradientTexture RenderContextRHIImpl.initial 2147483648 1).1.m_gradiantTexture =
      some { width := -2147483648, height := 1, format := .PF_R8G8B8A8 } ∧
    (-2147483648 : Int) ≠ ((max 2147483648 1 : Nat) : Int) := by
  decide

/-- C12 amended, at concrete calls: a request with exactly one zero dimension allocates a
texture of height one, and a zero by zero request releases it. -/
theorem resizeTexture_contract_witness :
    ((resizeGradientTexture sampleContext 0 0).1.m_gradiantTexture = none) ∧
    (resizeGradientTexture sampleContext 512 0).1.m_gradiantTexture =
      some { width := 512, height := 1, format := .PF_R8G8B8A8 } ∧
    (resizeTessellationTexture sampleContext 512 0).1.m_tesselationTexture =
      some { width := 512, height := 1, format := .PF_R32G32B32A32_UINT } :=
  ⟨(resizeTexture_contract sampleContext 0 0).1.mpr ⟨rfl, rfl⟩,
    (resizeTexture_contract sampleContext 512 0).2.2 (by decide) (by decide) (by decide)⟩

/-! ## Round trip through `Sync` -/

theorem length_shadow_write (m : BufferRingContents) (offset : Nat) (data : List Nat)
    (h : offset + data.length ≤ m.shadow.length) :
    (m.write offset data).shadow.length = m.shadow.length := by
  simp only [BufferRingContents.write, List.length_append, List.length_take, List.length_drop]
  omega

/-- After `Sync` the GPU buffer holds the bytes of the shadow buffer, when both have the
size of the ring. -/
theorem gpu_Sync_eq_shadow (m : BufferRingContents) (hwf : m.wellFormed)
    (hsize : m.buffer.bufferSizeInBytes = m.buffer.ring.capacityInBytes) :
    (BufferRingRHIImpl.Sync m).gpu = m.shadow := by
  obtain ⟨hs, hg⟩ := hwf
  have h1 : List.take m.buffer.ring.capacityInBytes m.shadow = m.shadow :=
    List.take_of_length_le (by omega)
  have h2 : List.drop m.buffer.ring.capacityInBytes m.gpu = [] :=
    List.drop_of_length_le (by omega)
  have h3 : List.take m.buffer.ring.capacityInBytes m.gpu = m.gpu :=
    List.take_of_length_le (by omega)
  simp [BufferRingRHIImpl.Sync, memcpy, h1, h2, h3, hg, hsize]

theorem readBack_Sync_eq_shadow (m : BufferRingContents) (hwf : m.wellFormed)
    (hsize : m.buffer.bufferSizeInBytes = m.buffer.ring.capacityInBytes) :
    (BufferRingRHIImpl.Sync m).readBack = m.shadow := by
  unfold BufferRingContents.readBack
  rw [gpu_Sync_eq_shadow m hwf hsize]
  exact List.take_of_length_le (by
    have := hwf.1
    simp only [BufferRingRHIImpl.Sync] at *
    omega)

theorem take_drop_stored (shadow : List Nat) (offset : Nat) (data : List Nat)
    (h : offset + data.length ≤ shadow.length) :
    ((shadow.take offset ++ data ++ shadow.drop (offset + data.length)).drop offset).take
      data.length = data := by
  have hl : (shadow.take offset).length = offset := by
    rw [List.length_take]; omega
  rw [List.append_assoc, List.drop_append_of_le_length (by omega)]
  have hd : List.drop offset (List.take offset shadow) = [] :=
    List.drop_of_length_le (by omega)
  rw [hd, List.nil_append, List.take_append_of_le_length (by omega), List.take_length]

/-- C11: for every `BufferRingRHIImpl` built by its constructor (any size, any initial
bytes) and every data written into its shadow through the mapped region, after `Sync` the
bytes `[0, capacityInBytes)` read back from the GPU buffer equal the shadow, the written
data included; the same holds for a `RenderBufferRHIImpl`, whose `onMap` hands out the
shadow region of its ring and whose `Sync` is the `Sync` of that ring. -/
theorem sync_round_trip (flags : EBufferUsageFlags) (type : RenderBufferType)
    (rbFlags : RenderBufferFlags) (size stride offset : Nat) (shadow gpu data : List Nat)
    (hs : shadow.length = size) (hg : gpu.length = size)
    (hdata : offset + data.length ≤ size) :
    (BufferRingRHIImpl.Sync
        (BufferRingContents.write
          { buffer := BufferRingRHIImpl.make flags size stride, shadow := shadow, gpu := gpu }
          offset data)).readBack =
      shadow.take offset ++ data ++ shadow.drop (offset + data.length) ∧
    (((BufferRingRHIImpl.Sync
        (BufferRingContents.write
          { buffer := BufferRingRHIImpl.make flags size stride, shadow := shadow, gpu := gpu }
          offset data)).readBack).drop offset).take data.length = data ∧
    (RenderBufferRHIImpl.make type rbFlags size stride shadow gpu).onMap =
      some { sizeInBytes := size } ∧
    (RenderBufferRHIImpl.Sync
        (((RenderBufferRHIImpl.make type rbFlags size stride shadow gpu).write offset
          data).onUnmap)).m_buffer.readBack =
      shadow.take offset ++ data ++ shadow.drop (offset + data.length) := by
  have key : ∀ f : EBufferUsageFlags,
      (BufferRingRHIImpl.Sync
        (BufferRingContents.write
          { buffer := BufferRingRHIImpl.make f size stride, shadow := shadow, gpu := gpu }
          offset data)).readBack =
      shadow.take offset ++ data ++ shadow.drop (offset + data.length) := by
    intro f
    have hwf : (BufferRingContents.write
        { buffer := BufferRingRHIImpl.make f size stride, shadow := shadow, gpu := gpu }
        offset data).wellFormed := by
      refine ⟨?_, hg⟩
      rw [length_shadow_write _ offset data (by simpa [hs] using hdata)]
      exact hs
    exact readBack_Sync_eq_shadow _ hwf rfl
  refine ⟨key flags, ?_, ?_, ?_⟩
  · rw [key flags]
    exact take_drop_stored shadow offset data (by omega)
  · unfold RenderBufferRHIImpl.onMap RenderBufferRHIImpl.make
    cases rbFlags.mappedOnceAtInitialization <;> rfl
  · have h : (RenderBufferRHIImpl.Sync
        (((RenderBufferRHIImpl.make type rbFlags size stride shadow gpu).write offset
          data).onUnmap)).m_buffer =
        BufferRingRHIImpl.Sync
          (BufferRingContents.write
            { buffer := BufferRingRHIImpl.make
                (if type = .vertex then .VertexBuffer else .IndexBuffer) size stride,
              shadow := shadow, gpu := gpu }
            offset data) := by
      simp [RenderBufferRHIImpl.Sync, RenderBufferRHIImpl.onUnmap, RenderBufferRHIImpl.write,
        RenderBufferRHIImpl.make]
    rw [h]
    exact key _

/-- C11 at concrete buffers: three bytes stored at offset 2 of an eight-byte ring and of
an eight-byte render buffer arrive in the GPU buffer. -/
theorem sync_round_trip_witness :
    (BufferRingRHIImpl.Sync (sampleRingContents.write 2 [9, 9, 9])).readBack =
      [1, 2, 9, 9, 9, 6, 7, 8] ∧
    (((BufferRingRHIImpl.Sync (sampleRingContents.write 2 [9, 9, 9])).readBack).drop 2).take 3
      = [9, 9, 9] ∧
    sampleRenderBuffer.onMap = some { sizeInBytes := 8 } ∧
    (RenderBufferRHIImpl.Sync ((sampleRenderBuffer.write 2 [9, 9, 9]).onUnmap)).m_buffer.readBack
      = [1, 2, 9, 9, 9, 6, 7, 8] :=
  sync_round_trip .VertexBuffer .index { mappedOnceAtInitialization := false } 8 2 2
    [1, 2, 3, 4, 5, 6, 7, 8] [0, 0, 0, 0, 0, 0, 0, 0] [9, 9, 9] rfl rfl (by decide)

/-! ## Runs that do not stop fatally -/

theorem runOps_append_of_requires_ok (a b : List (Step × Op))
    (h : ∀ s ok e, (s, Op.require ok e) ∈ a → ok = true) :
    runOps (a ++ b) =
      { issued := emitted a ++ (runOps b).issued, exit := (runOps b).exit } := by
  induction a with
  | nil => simp [emitted]
  | cons o rest ih =>
    obtain ⟨s, o⟩ := o
    have ih := ih (fun s ok e hm => h s ok e (List.mem_cons_of_mem _ hm))
    cases o with
    | emit c => simp [runOps, emitted, ih]
    | require ok e =>
      have hok : ok = true := h s ok e (List.mem_cons_self _ _)
      simp [runOps, emitted, ih, hok]

/-- When the conditions of the first part of the code all fail fatally and the run does
not stop fatally, the first part passed all its conditions. -/
theorem requires_ok_of_not_fatal (a b : List (Step × Op))
    (hf : ∀ s ok e, (s, Op.require ok e) ∈ a → e.isFatal = true)
    (h : (runOps (a ++ b)).exit.isFatal = false) :
    ∀ s ok e, (s, Op.require ok e) ∈ a → ok = true := by
  induction a with
  | nil => intro s ok e hm; simp at hm
  | cons o rest ih =>
    obtain ⟨s, o⟩ := o
    have hf' : ∀ s ok e, (s, Op.require ok e) ∈ rest → e.isFatal = true :=
      fun s ok e hm => hf s ok e (List.mem_cons_of_mem _ hm)
    cases o with
    | emit c =>
      have h' : (runOps (rest ++ b)).exit.isFatal = false := by simpa [runOps] using h
      intro s1 ok e hm
      rcases List.mem_cons.mp hm with heq | hm
      · cases heq
      · exact ih hf' h' s1 ok e hm
    | require ok e =>
      cases ok with
      | false =>
        have h1 : e.isFatal = false := by simpa [runOps] using h
        have h2 := hf s false e (List.mem_cons_self _ _)
        rw [h1] at h2
        cases h2
      | true =>
        have h' : (runOps (rest ++ b)).exit.isFatal = false := by simpa [runOps] using h
        intro s1 ok e1 hm
        rcases List.mem_cons.mp hm with heq | hm
        · cases heq; rfl
        · exact ih hf' h' s1 ok e1 hm

theorem flushOps_eq_preLoop_append (k : GpuConstants) (ctx : RenderContextRHIImpl)
    (desc : FlushDescriptor) (rt : RenderTargetRHI) :
    flushOps k ctx desc rt = preLoopOps k ctx desc rt ++ loopAndEndOps k ctx desc := by
  simp only [flushOps, preLoopOps, loopAndEndOps, List.append_assoc]

theorem mem_preLoopOps {k : GpuConstants} {ctx : RenderContextRHIImpl} {desc : FlushDescriptor}
    {rt : RenderTargetRHI} {s : Step} {o : Op} :
    (s, o) ∈ preLoopOps k ctx desc rt ↔
      (s = .upload ∧ o ∈ uploadOps ctx desc) ∨
      (s = .auxClear ∧ o ∈ auxClearOps desc) ∨
      (s = .gradientPass ∧ o ∈ gradientPassOps k ctx desc) ∨
      (s = .simpleGradientCopy ∧ o ∈ simpleGradientCopyOps k ctx desc) ∨
      (s = .tessellationPass ∧ o ∈ tessellationPassOps k ctx desc) ∨
      (s = .clearDestination ∧ o ∈ clearDestinationOps desc) ∨
      (s = .beginDrawPass ∧ o ∈ beginDrawPassOps desc rt) := by
  simp only [preLoopOps, List.mem_append, mem_inStep, or_assoc]

theorem mem_loopAndEndOps {k : GpuConstants} {ctx : RenderContextRHIImpl}
    {desc : FlushDescriptor} {s : Step} {o : Op} :
    (s, o) ∈ loopAndEndOps k ctx desc ↔
      (∃ j b, desc.drawList[j]? = some b ∧ s = .batch j ∧ o ∈ batchOps k ctx desc b) ∨
      (s = .endDrawPass ∧ o ∈ endDrawPassOps desc) := by
  simp only [loopAndEndOps, List.mem_append, mem_inStep, mem_drawLoopOps, Nat.zero_add]

theorem uploadOps_require_fatal {ctx : RenderContextRHIImpl} {desc : FlushDescriptor}
    {ok : Bool} {e : Exit} (hm : Op.require ok e ∈ uploadOps ctx desc) : e.isFatal = true := by
  unfold uploadOps at hm
  simp only [check, syncIfPresent] at hm
  aesop

theorem gradientPassOps_require_fatal {k : GpuConstants} {ctx : RenderContextRHIImpl}
    {desc : FlushDescriptor} {ok : Bool} {e : Exit}
    (hm : Op.require ok e ∈ gradientPassOps k ctx desc) : e.isFatal = true := by
  unfold gradientPassOps at hm
  simp only [check, deref] at hm
  aesop

theorem simpleGradientCopyOps_require_fatal {k : GpuConstants} {ctx : RenderContextRHIImpl}
    {desc : FlushDescriptor} {ok : Bool} {e : Exit}
    (hm : Op.require ok e ∈ simpleGradientCopyOps k ctx desc) : e.isFatal = true := by
  unfold simpleGradientCopyOps at hm
  simp only [check, deref] at hm
  aesop

theorem tessellationPassOps_require_fatal {k : GpuConstants} {ctx : RenderContextRHIImpl}
    {desc : FlushDescriptor} {ok : Bool} {e : Exit}
    (hm : Op.require ok e ∈ tessellationPassOps k ctx desc) : e.isFatal = true := by
  unfold tessellationPassOps at hm
  simp only [check, deref] at hm
  aesop

/-- Every condition before the draw loop fails fatally. -/
theorem preLoopOps_require_fatal {k : GpuConstants} {ctx : RenderContextRHIImpl}
    {desc : FlushDescriptor} {rt : RenderTargetRHI} {s : Step} {ok : Bool} {e : Exit}
    (h : (s, Op.require ok e) ∈ preLoopOps k ctx desc rt) : e.isFatal = true := by
  rw [mem_preLoopOps] at h
  rcases h with ⟨-, hm⟩ | ⟨-, hm⟩ | ⟨-, hm⟩ | ⟨-, hm⟩ | ⟨-, hm⟩ | ⟨-, hm⟩ | ⟨-, hm⟩
  · exact uploadOps_require_fatal hm
  · exact (auxClearOps_no_require hm).elim
  · exact gradientPassOps_require_fatal hm
  · exact simpleGradientCopyOps_require_fatal hm
  · exact tessellationPassOps_require_fatal hm
  · exact (clearDestinationOps_no_require hm).elim
  · exact (beginDrawPassOps_no_require hm).elim

/-- A flush that does not stop fatally has a render target, passes every condition before
the draw loop and issues every command of the code before the loop, followed by what the
loop and the end of the pass issue. -/
theorem flush_of_not_fatal {k : GpuConstants} {ctx : RenderContextRHIImpl}
    {desc : FlushDescriptor} (h : (flush k ctx desc).exit.isFatal = false) :
    ∃ rt, desc.renderTarget = some rt ∧
      (∀ s ok e, (s, Op.require ok e) ∈ preLoopOps k ctx desc rt → ok = true) ∧
      (flush k ctx desc).issued =
        emitted (preLoopOps k ctx desc rt) ++ (runOps (loopAndEndOps k ctx desc)).issued ∧
      (flush k ctx desc).exit = (runOps (loopAndEndOps k ctx desc)).exit := by
  cases hrt : desc.renderTarget with
  | none => simp [flush, hrt, Exit.isFatal] at h
  | some rt =>
    have hflush : flush k ctx desc =
        runOps (preLoopOps k ctx desc rt ++ loopAndEndOps k ctx desc) := by
      simp [flush, hrt, flushOps_eq_preLoop_append]
    rw [hflush] at h ⊢
    have hok := requires_ok_of_not_fatal _ _ (fun _ _ _ hm => preLoopOps_require_fatal hm) h
    refine ⟨rt, rfl, hok, ?_, ?_⟩ <;> rw [runOps_append_of_requires_ok _ _ hok]

theorem issuedIn_append (s : Step) (l₁ l₂ : List Issued) :
    issuedIn s (l₁ ++ l₂) = issuedIn s l₁ ++ issuedIn s l₂ := by
  simp [issuedIn]

theorem issuedIn_emitted_inStep_self (s : Step) (ops : List Op) :
    issuedIn s (emitted (inStep s ops)) = cmdsOf ops := by
  induction ops with
  | nil => rfl
  | cons o rest ih =>
    cases o with
    | emit c =>
      have : issuedIn s (emitted (inStep s (Op.emit c :: rest))) =
          c :: issuedIn s (emitted (inStep s rest)) := by
        simp [issuedIn, inStep, emitted]
      rw [this, ih]; rfl
    | require ok e =>
      have : issuedIn s (emitted (inStep s (Op.require ok e :: rest))) =
          issuedIn s (emitted (inStep s rest)) := by
        simp [issuedIn, inStep, emitted]
      rw [this, ih]; rfl

theorem issuedIn_eq_nil_of_step_ne (s : Step) (l : List Issued)
    (h : ∀ x ∈ l, x.step ≠ s) : issuedIn s l = [] := by
  unfold issuedIn
  rw [List.map_eq_nil_iff, List.filter_eq_nil_iff]
  intro x hx
  simp [h x hx]

theorem issuedIn_emitted_inStep_ne (s t : Step) (ops : List Op) (hne : t ≠ s) :
    issuedIn s (emitted (inStep t ops)) = [] := by
  apply issuedIn_eq_nil_of_step_ne
  intro x hx
  have hm := mem_emitted.mp hx
  rw [mem_inStep] at hm
  rw [hm.1]; exact hne

/-- What the loop and the end of the pass issue comes from a loop iteration or from the
end block. -/
theorem step_of_mem_runOps_loopAndEnd {k : GpuConstants} {ctx : RenderContextRHIImpl}
    {desc : FlushDescriptor} {x : Issued}
    (hx : x ∈ (runOps (loopAndEndOps k ctx desc)).issued) : 7 ≤ x.step.phase := by
  have hm := mem_issued_runOps hx
  rw [mem_loopAndEndOps] at hm
  rcases hm with ⟨j, b, -, hs, -⟩ | ⟨hs, -⟩ <;> rw [hs] <;> simp [Step.phase]

/-- The commands that a flush without fatal stop issues from each block before the draw
loop are exactly the commands of that block. -/
theorem issuedIn_preLoop_of_not_fatal {k : GpuConstants} {ctx : RenderContextRHIImpl}
    {desc : FlushDescriptor} (h : (flush k ctx desc).exit.isFatal = false) :
    ∃ rt, desc.renderTarget = some rt ∧
      issuedIn .upload (flush k ctx desc).issued = cmdsOf (uploadOps ctx desc) ∧
      issuedIn .auxClear (flush k ctx desc).issued = cmdsOf (auxClearOps desc) ∧
      issuedIn .gradientPass (flush k ctx desc).issued = cmdsOf (gradientPassOps k ctx desc) ∧
      issuedIn .simpleGradientCopy (flush k ctx desc).issued =
        cmdsOf (simpleGradientCopyOps k ctx desc) ∧
      issuedIn .tessellationPass (flush k ctx desc).issued =
        cmdsOf (tessellationPassOps k ctx desc) ∧
      issuedIn .clearDestination (flush k ctx desc).issued = cmdsOf (clearDestinationOps desc) ∧
      issuedIn .beginDrawPass (flush k ctx desc).issued = cmdsOf (beginDrawPassOps desc rt) := by
  obtain ⟨rt, hrt, -, hiss, -⟩ := flush_of_not_fatal h
  have hpost : ∀ s : Step, s.phase < 7 →
      issuedIn s (runOps (loopAndEndOps k ctx desc)).issued = [] := by
    intro s hs
    apply issuedIn_eq_nil_of_step_ne
    intro x hx hxs
    have := step_of_mem_runOps_loopAndEnd hx
    rw [hxs] at this
    omega
  refine ⟨rt, hrt, ?_, ?_, ?_, ?_, ?_, ?_, ?_⟩ <;>
    rw [hiss, issuedIn_append, hpost _ (by simp [Step.phase])] <;>
    simp [preLoopOps, emitted_append, issuedIn_append, issuedIn_emitted_inStep_self,
      issuedIn_emitted_inStep_ne]

/-! ## The gradient pass, the simple gradient copy and the tessellation pass -/

/-- An issued command comes from the code of the block named by its step. -/
theorem block_of_issued {k : GpuConstants} {ctx : RenderContextRHIImpl}
    {desc : FlushDescriptor} {x : Issued} (hx : x ∈ (flush k ctx desc).issued) :
    (x.step = .upload → Op.emit x.cmd ∈ uploadOps ctx desc) ∧
    (x.step = .auxClear → Op.emit x.cmd ∈ auxClearOps desc) ∧
    (x.step = .gradientPass → Op.emit x.cmd ∈ gradientPassOps k ctx desc) ∧
    (x.step = .simpleGradientCopy → Op.emit x.cmd ∈ simpleGradientCopyOps k ctx desc) ∧
    (x.step = .tessellationPass → Op.emit x.cmd ∈ tessellationPassOps k ctx desc) ∧
    (x.step = .clearDestination → Op.emit x.cmd ∈ clearDestinationOps desc) ∧
    (x.step = .beginDrawPass →
      ∃ rt, desc.renderTarget = some rt ∧ Op.emit x.cmd ∈ beginDrawPassOps desc rt) ∧
    (∀ j, x.step = .batch j →
      ∃ b, desc.drawList[j]? = some b ∧ Op.emit x.cmd ∈ batchOps k ctx desc b) ∧
    (x.step = .endDrawPass → Op.emit x.cmd ∈ endDrawPassOps desc) := by
  obtain ⟨rt, hrt, hmem⟩ := mem_flush_issued hx
  rw [mem_flushOps] at hmem
  rcases hmem with ⟨hs, hm⟩ | ⟨hs, hm⟩ | ⟨hs, hm⟩ | ⟨hs, hm⟩ | ⟨hs, hm⟩ | ⟨hs, hm⟩ |
    ⟨hs, hm⟩ | ⟨j, b, hj, hs, hm⟩ | ⟨hs, hm⟩
  all_goals
    rw [hs]
    simp only [reduceCtorEq, false_implies, true_implies, forall_const, true_and, and_true,
      implies_true, Step.batch.injEq, forall_eq', IsEmpty.forall_iff]
  · exact hm
  · exact hm
  · exact hm
  · exact hm
  · exact hm
  · exact hm
  · exact ⟨rt, hrt, hm⟩
  · exact ⟨b, hj, hm⟩
  · exact hm

theorem cmdsOf_gradientPassOps (k : GpuConstants) (ctx : RenderContextRHIImpl)
    (desc : FlushDescriptor) :
    cmdsOf (gradientPassOps k ctx desc) =
      if desc.complexGradSpanCount > 0 then
        [.transition .gradiantTexture .SRVGraphics .RTV,
         .beginRenderPass (.colorTarget .gradiantTexture .Clear_Store) .Rive_Render_Gradient,
         .setViewport 0 desc.complexGradRowsTop 0 k.kGradTextureWidth
            ((desc.complexGradRowsTop + desc.complexGradRowsHeight) % 2 ^ 32) 1,
         .applyCachedRenderTargets,
         .setGraphicsPipelineState
            { shaders := .gradient, vertexPermutation := none, pixelPermutation := none,
              vertexDeclaration := .Gradient, primitiveType := .PT_TriangleStrip,
              blendState := .standard, rasterizerState := .solidNoneDepthClamp },
         .setShaderParameters .vertex [.FlushUniforms],
         .setShaderParameters .pixel [.FlushUniforms],
         .setStreamSource 0 .gradSpanBuffer
            ((desc.firstComplexGradSpan * k.sizeofGradientSpan) % 2 ^ 64),
         .drawPrimitive 0 2 desc.complexGradSpanCount,
         .endRenderPass,
         .transition .gradiantTexture .RTV .SRVGraphics]
      else [] := by
  unfold gradientPassOps
  split_ifs <;> simp [cmdsOf, check, deref]

theorem cmdsOf_simpleGradientCopyOps (k : GpuConstants) (ctx : RenderContextRHIImpl)
    (desc : FlushDescriptor) :
    cmdsOf (simpleGradientCopyOps k ctx desc) =
      if desc.simpleGradTexelsHeight > 0 then
        [.transition .gradiantTexture .SRVGraphics .CopyDest,
         .updateTexture2D .gradiantTexture 0 0 desc.simpleGradTexelsWidth
            desc.simpleGradTexelsHeight (k.kGradTextureWidth * 4)
            desc.simpleGradDataOffsetInBytes,
         .transition .gradiantTexture .CopyDest .SRVGraphics]
      else [] := by
  unfold simpleGradientCopyOps
  split_ifs <;> simp [cmdsOf, check, deref]

theorem cmdsOf_tessellationPassOps (k : GpuConstants) (ctx : RenderContextRHIImpl)
    (desc : FlushDescriptor) :
    cmdsOf (tessellationPassOps k ctx desc) =
      if desc.tessVertexSpanCount > 0 then
        [.transition .tesselationTexture .SRVGraphics .RTV,
         .beginRenderPass (.colorTarget .tesselationTexture .DontLoad_Store) .RiveTessUpdate,
         .applyCachedRenderTargets,
         .setGraphicsPipelineState
            { shaders := .tessellation, vertexPermutation := none, pixelPermutation := none,
              vertexDeclaration := .Tessellation, primitiveType := .PT_TriangleList,
              blendState := .standard, rasterizerState := .solidCCWDepthClip },
         .setStreamSource 0 .tessSpanBuffer
            ((desc.firstTessVertexSpan * sizeofTessVertexSpan) % 2 ^ 64),
         .setShaderParameters .vertex [.FlushUniforms, .pathBuffer, .contourBuffer],
         .setShaderParameters .pixel [.FlushUniforms],
         .setViewport 0 0 0 k.kTessTextureWidth desc.tessDataHeight 1,
         .drawIndexedPrimitive .tessSpanIndexBuffer 0 desc.firstTessVertexSpan
            ((tessSpanCapacity ctx / sizeofTessVertexSpan + 2 ^ 64
                - desc.firstTessVertexSpan % 2 ^ 64) % 2 ^ 64)
            0 (k.kTessSpanIndicesCount / 3) desc.tessVertexSpanCount,
         .endRenderPass,
         .transition .tesselationTexture .RTV .SRVGraphics]
      else [] := by
  unfold tessellationPassOps
  split_ifs <;> simp [cmdsOf, check, deref]

theorem gradientPassOps_eq_nil {k : GpuConstants} {ctx : RenderContextRHIImpl}
    {desc : FlushDescriptor} (h : ¬ desc.complexGradSpanCount > 0) :
    gradientPassOps k ctx desc = [] := by
  simp [gradientPassOps, h]

theorem simpleGradientCopyOps_eq_nil {k : GpuConstants} {ctx : RenderContextRHIImpl}
    {desc : FlushDescriptor} (h : ¬ desc.simpleGradTexelsHeight > 0) :
    simpleGradientCopyOps k ctx desc = [] := by
  simp [simpleGradientCopyOps, h]

theorem tessellationPassOps_eq_nil {k : GpuConstants} {ctx : RenderContextRHIImpl}
    {desc : FlushDescriptor} (h : ¬ desc.tessVertexSpanCount > 0) :
    tessellationPassOps k ctx desc = [] := by
  simp [tessellationPassOps, h]

/-- The gradient pass with the end row and the byte offset as the source computes them,
for every descriptor: the end row of the viewport is the 32-bit sum of
`complexGradRowsTop` and `complexGradRowsHeight`, the offset of the span buffer the
`size_t` product of `firstComplexGradSpan` and `sizeof(GradientSpan)`. -/
theorem flush_gradient_pass_as_computed (k : GpuConstants) (ctx : RenderContextRHIImpl)
    (desc : FlushDescriptor) :
    ((∃ x ∈ (flush k ctx desc).issued, x.step = .gradientPass) →
      desc.complexGradSpanCount > 0) ∧
    ((flush k ctx desc).exit.isFatal = false →
      issuedIn .gradientPass (flush k ctx desc).issued =
        if desc.complexGradSpanCount > 0 then
          [.transition .gradiantTexture .SRVGraphics .RTV,
           .beginRenderPass (.colorTarget .gradiantTexture .Clear_Store) .Rive_Render_Gradient,
           .setViewport 0 desc.complexGradRowsTop 0 k.kGradTextureWidth
              ((desc.complexGradRowsTop + desc.complexGradRowsHeight) % 2 ^ 32) 1,
           .applyCachedRenderTargets,
           .setGraphicsPipelineState
              { shaders := .gradient, vertexPermutation := none, pixelPermutation := none,
                vertexDeclaration := .Gradient, primitiveType := .PT_TriangleStrip,
                blendState := .standard, rasterizerState := .solidNoneDepthClamp },
           .setShaderParameters .vertex [.FlushUniforms],
           .setShaderParameters .pixel [.FlushUniforms],
           .setStreamSource 0 .gradSpanBuffer
              ((desc.firstComplexGradSpan * k.sizeofGradientSpan) % 2 ^ 64),
           .drawPrimitive 0 2 desc.complexGradSpanCount,
           .endRenderPass,
           .transition .gradiantTexture .RTV .SRVGraphics]
        else []) := by
  constructor
  · rintro ⟨x, hx, hstep⟩
    by_contra hc
    have hm := (block_of_issued hx).2.2.1 hstep
    rw [gradientPassOps_eq_nil hc] at hm
    simp at hm
  · intro h
    obtain ⟨rt, -, -, -, hg, -, -, -, -⟩ := issuedIn_preLoop_of_not_fatal h
    rw [hg, cmdsOf_gradientPassOps]

/-- C14: `flush` issues commands of the simple gradient copy only if
`simpleGradTexelsHeight > 0`; a flush that does not stop fatally issues, as its simple
gradient copy, nothing when `simpleGradTexelsHeight = 0` and otherwise exactly one
`UpdateTexture2D` of the gradient texture at column 0, row 0 with width
`simpleGradTexelsWidth` and height `simpleGradTexelsHeight`, read at offset
`simpleGradDataOffsetInBytes`, between the two transitions; this does not depend on
`complexGradSpanCount`, and when both counts are positive the gradient-pass draw and the
copy are both issued. -/
theorem flush_simple_gradient_copy (k : GpuConstants) (ctx : RenderContextRHIImpl)
    (desc : FlushDescriptor) :
    ((∃ x ∈ (flush k ctx desc).issued, x.step = .simpleGradientCopy) →
      desc.simpleGradTexelsHeight > 0) ∧
    ((flush k ctx desc).exit.isFatal = false →
      issuedIn .simpleGradientCopy (flush k ctx desc).issued =
        if desc.simpleGradTexelsHeight > 0 then
          [.transition .gradiantTexture .SRVGraphics .CopyDest,
           .updateTexture2D .gradiantTexture 0 0 desc.simpleGradTexelsWidth
              desc.simpleGradTexelsHeight (k.kGradTextureWidth * 4)
              desc.simpleGradDataOffsetInBytes,
           .transition .gradiantTexture .CopyDest .SRVGraphics]
        else []) ∧
    ((flush k ctx desc).exit.isFatal = false → desc.complexGradSpanCount > 0 →
      desc.simpleGradTexelsHeight > 0 →
      Cmd.drawPrimitive 0 2 desc.complexGradSpanCount ∈
        issuedIn .gradientPass (flush k ctx desc).issued ∧
      Cmd.updateTexture2D .gradiantTexture 0 0 desc.simpleGradTexelsWidth
          desc.simpleGradTexelsHeight (k.kGradTextureWidth * 4)
          desc.simpleGradDataOffsetInBytes ∈
        issuedIn .simpleGradientCopy (flush k ctx desc).issued) := by
  refine ⟨?_, ?_, ?_⟩
  · rintro ⟨x, hx, hstep⟩
    by_contra hc
    have hm := (block_of_issued hx).2.2.2.1 hstep
    rw [simpleGradientCopyOps_eq_nil hc] at hm
    simp at hm
  · intro h
    obtain ⟨rt, -, -, -, -, hs, -, -, -⟩ := issuedIn_preLoop_of_not_fatal h
    rw [hs, cmdsOf_simpleGradientCopyOps]
  · intro h hg hh
    obtain ⟨rt, -, -, -, hgp, hs, -, -, -⟩ := issuedIn_preLoop_of_not_fatal h
    rw [hgp, hs, cmdsOf_gradientPassOps, cmdsOf_simpleGradientCopyOps, if_pos hg, if_pos hh]
    simp

/-- C14 at a concrete flush: the descriptor with work for every step copies a 4 by 1
region from offset 32 and also runs the gradient pass. -/
theorem flush_simple_gradient_copy_witness :
    (flush sampleConstants sampleContext allPassesDescriptor).exit.isFatal = false ∧
    Cmd.drawPrimitive 0 2 2 ∈
      issuedIn .gradientPass (flush sampleConstants sampleContext allPassesDescriptor).issued ∧
    Cmd.updateTexture2D .gradiantTexture 0 0 4 1 2048 32 ∈
      issuedIn .simpleGradientCopy
        (flush sampleConstants sampleContext allPassesDescriptor).issued :=
  ⟨by decide,
    (flush_simple_gradient_copy sampleConstants sampleContext allPassesDescriptor).2.2
      (by decide) (by decide) (by decide)⟩

/-- C15: `flush` issues commands of the tessellation pass only if
`tessVertexSpanCount > 0`; a flush that does not stop fatally issues, as its tessellation
pass, nothing when `tessVertexSpanCount = 0` and otherwise exactly this sequence: the
render pass into the tessellation texture, the triangle-list pipeline, and one indexed
draw call over the tessellation span index buffer with `tessVertexSpanCount` instances. -/
theorem flush_tessellation_pass (k : GpuConstants) (ctx : RenderContextRHIImpl)
    (desc : FlushDescriptor) :
    ((∃ x ∈ (flush k ctx desc).issued, x.step = .tessellationPass) →
      desc.tessVertexSpanCount > 0) ∧
    ((flush k ctx desc).exit.isFatal = false →
      issuedIn .tessellationPass (flush k ctx desc).issued =
        if desc.tessVertexSpanCount > 0 then
          [.transition .tesselationTexture .SRVGraphics .RTV,
           .beginRenderPass (.colorTarget .tesselationTexture .DontLoad_Store) .RiveTessUpdate,
           .applyCachedRenderTargets,
           .setGraphicsPipelineState
              { shaders := .tessellation, vertexPermutation := none, pixelPermutation := none,
                vertexDeclaration := .Tessellation, primitiveType := .PT_TriangleList,
                blendState := .standard, rasterizerState := .solidCCWDepthClip },
           .setStreamSource 0 .tessSpanBuffer
              ((desc.firstTessVertexSpan * sizeofTessVertexSpan) % 2 ^ 64),
           .setShaderParameters .vertex [.FlushUniforms, .pathBuffer, .contourBuffer],
           .setShaderParameters .pixel [.FlushUniforms],
           .setViewport 0 0 0 k.kTessTextureWidth desc.tessDataHeight 1,
           .drawIndexedPrimitive .tessSpanIndexBuffer 0 desc.firstTessVertexSpan
              ((tessSpanCapacity ctx / sizeofTessVertexSpan + 2 ^ 64
                  - desc.firstTessVertexSpan % 2 ^ 64) % 2 ^ 64)
              0 (k.kTessSpanIndicesCount / 3) desc.tessVertexSpanCount,
           .endRenderPass,
           .transition .tesselationTexture .RTV .SRVGraphics]
        else []) := by
  constructor
  · rintro ⟨x, hx, hstep⟩
    by_contra hc
    have hm := (block_of_issued hx).2.2.2.2.1 hstep
    rw [tessellationPassOps_eq_nil hc] at hm
    simp at hm
  · intro h
    obtain ⟨rt, -, -, -, -, -, ht, -, -⟩ := issuedIn_preLoop_of_not_fatal h
    rw [ht, cmdsOf_tessellationPassOps]

/-- C15 at a concrete flush: the descriptor with work for every step draws three
instances of six triangles. -/
theorem flush_tessellation_pass_witness :
    (flush sampleConstants sampleContext allPassesDescriptor).exit.isFatal = false ∧
    Cmd.drawIndexedPrimitive .tessSpanIndexBuffer 0 2 14 0 6 3 ∈
      issuedIn .tessellationPass
        (flush sampleConstants sampleContext allPassesDescriptor).issued := by
  refine ⟨by decide, ?_⟩
  rw [(flush_tessellation_pass sampleConstants sampleContext allPassesDescriptor).2
    (by decide)]
  decide

/-! ## Order of the commands of a flush -/

theorem Step.le_refl (s : Step) : s.le s :=
  Or.inr ⟨rfl, Nat.le_refl _⟩

/-- The draw call of a loop iteration is the last command of the iteration. -/
theorem drawTypeOps_draw_last (k : GpuConstants) (ctx : RenderContextRHIImpl)
    (desc : FlushDescriptor) (b : DrawBatch) :
    (drawTypeOps k ctx desc b).Pairwise
      (fun o₁ o₂ => ¬ (o₁.isDraw = true ∧ o₂.isEmit = true)) := by
  unfold drawTypeOps
  simp only [deref, syncIfPresent, sharedPixelBindings]
  split <;> (try split_ifs) <;> (try split) <;>
    simp [Op.isDraw, Op.isEmit, Cmd.isDraw]

theorem batchOps_draw_last (k : GpuConstants) (ctx : RenderContextRHIImpl)
    (desc : FlushDescriptor) (b : DrawBatch) :
    (batchOps k ctx desc b).Pairwise
      (fun o₁ o₂ => ¬ (o₁.isDraw = true ∧ o₂.isEmit = true)) := by
  unfold batchOps
  by_cases h0 : (b.elementCount == 0) = true
  · simp [h0]
  · simp only [h0, if_false, Bool.false_eq_true]
    have h1 := drawTypeOps_draw_last k ctx desc b
    rw [List.pairwise_append]
    refine ⟨?_, h1, ?_⟩
    · split_ifs <;> simp [Op.isDraw, Op.isEmit, Cmd.isDraw]
    · intro o₁ ho₁ o₂ _
      have : o₁.isDraw = false := by
        clear h1
        simp only [Op.isDraw, Cmd.isDraw] at *
        aesop
      simp [this]

theorem pairwise_flushOrder_emitted_batch (i : Nat) (ops : List Op)
    (h : ops.Pairwise (fun o₁ o₂ => ¬ (o₁.isDraw = true ∧ o₂.isEmit = true))) :
    (emitted (inStep (.batch i) ops)).Pairwise flushOrder := by
  induction ops with
  | nil => simp [inStep, emitted]
  | cons o rest ih =>
    rw [List.pairwise_cons] at h
    cases o with
    | require ok e => simpa [inStep, emitted] using ih h.2
    | emit c =>
      have hcons : emitted (inStep (.batch i) (Op.emit c :: rest)) =
          { step := .batch i, cmd := c } :: emitted (inStep (.batch i) rest) := by
        simp [inStep, emitted]
      rw [hcons, List.pairwise_cons]
      refine ⟨?_, ih h.2⟩
      intro y hy
      have hm := mem_emitted.mp hy
      rw [mem_inStep] at hm
      refine ⟨?_, ?_⟩
      · rw [hm.1]; exact Step.le_refl _
      · rintro ⟨hdraw, -⟩
        exact h.1 (Op.emit y.cmd) hm.2 ⟨hdraw, rfl⟩

theorem pairwise_flushOrder_emitted_drawLoop (k : GpuConstants) (ctx : RenderContextRHIImpl)
    (desc : FlushDescriptor) (l : List DrawBatch) (i : Nat) :
    (emitted (drawLoopOps k ctx desc i l)).Pairwise flushOrder := by
  induction l generalizing i with
  | nil => simp [drawLoopOps, emitted]
  | cons b rest ih =>
    simp only [drawLoopOps, emitted_append]
    refine List.pairwise_append.mpr
      ⟨pairwise_flushOrder_emitted_batch i _ (batchOps_draw_last k ctx desc b), ih (i + 1), ?_⟩
    intro x hx y hy
    have hxm := mem_emitted.mp hx
    rw [mem_inStep] at hxm
    have hym := mem_emitted.mp hy
    rw [mem_drawLoopOps] at hym
    obtain ⟨j, _, _, hstep, _⟩ := hym
    refine ⟨?_, ?_⟩
    · rw [hxm.1, hstep]
      exact Or.inr ⟨rfl, by simp [Step.batchIndex]; omega⟩
    · rintro ⟨-, i', hx', hy'⟩
      rw [hxm.1] at hx'
      rw [hstep] at hy'
      simp only [Step.batch.injEq] at hx' hy'
      omega

theorem pairwise_flushOrder_emitted_inStep (s : Step) (hs : ∀ i, s ≠ .batch i)
    (ops : List Op) : (emitted (inStep s ops)).Pairwise flushOrder := by
  apply List.pairwise_of_forall_mem_list
  intro x hx y hy
  have hxm := mem_emitted.mp hx
  rw [mem_inStep] at hxm
  have hym := mem_emitted.mp hy
  rw [mem_inStep] at hym
  refine ⟨?_, ?_⟩
  · rw [hxm.1, hym.1]; exact Step.le_refl _
  · rintro ⟨-, i, hx', -⟩
    exact hs i (hxm.1.symm.trans hx')

/-- Appending the commands of a later state keeps the order. -/
theorem pairwise_flushOrder_append {l₁ l₂ : List Issued} (n : Nat)
    (h₁ : l₁.Pairwise flushOrder) (h₂ : l₂.Pairwise flushOrder)
    (hl : ∀ x ∈ l₁, x.step.phase ≤ n) (hr : ∀ y ∈ l₂, n < y.step.phase) :
    (l₁ ++ l₂).Pairwise flushOrder := by
  refine List.pairwise_append.mpr ⟨h₁, h₂, ?_⟩
  intro x hx y hy
  have h1 := hl x hx
  have h2 := hr y hy
  refine ⟨Or.inl (by omega), ?_⟩
  rintro ⟨-, i, hx', hy'⟩
  rw [hx'] at h1
  rw [hy'] at h2
  simp only [Step.phase] at h1 h2
  omega

theorem phase_of_mem_emitted_inStep {s : Step} {ops : List Op} {x : Issued}
    (hx : x ∈ emitted (inStep s ops)) : x.step.phase = s.phase := by
  have hm := mem_emitted.mp hx
  rw [mem_inStep] at hm
  rw [hm.1]

theorem phase_of_mem_emitted_drawLoop {k : GpuConstants} {ctx : RenderContextRHIImpl}
    {desc : FlushDescriptor} {l : List DrawBatch} {i : Nat} {x : Issued}
    (hx : x ∈ emitted (drawLoopOps k ctx desc i l)) : x.step.phase = 7 := by
  have hm := mem_emitted.mp hx
  rw [mem_drawLoopOps] at hm
  obtain ⟨j, _, _, hstep, _⟩ := hm
  rw [hstep]; rfl

/-- One more block after a prefix whose commands all belong to earlier states. -/
theorem pairwise_flushOrder_snoc_block {l : List Issued} {block : List Issued} (n m : Nat)
    (hnm : n < m)
    (hl : l.Pairwise flushOrder ∧ ∀ x ∈ l, x.step.phase ≤ n)
    (hb : block.Pairwise flushOrder) (hphase : ∀ x ∈ block, x.step.phase = m) :
    (l ++ block).Pairwise flushOrder ∧ ∀ x ∈ l ++ block, x.step.phase ≤ m := by
  refine ⟨pairwise_flushOrder_append n hl.1 hb hl.2 (fun y hy => by rw [hphase y hy]; exact hnm),
    ?_⟩
  intro x hx
  rcases List.mem_append.mp hx with h | h
  · have := hl.2 x h; omega
  · rw [hphase x h]

theorem pairwise_flushOrder_emitted_flushOps (k : GpuConstants) (ctx : RenderContextRHIImpl)
    (desc : FlushDescriptor) (rt : RenderTargetRHI) :
    (emitted (flushOps k ctx desc rt)).Pairwise flushOrder := by
  simp only [flushOps, emitted_append]
  have h0 : (emitted (inStep .upload (uploadOps ctx desc))).Pairwise flushOrder ∧
      ∀ x ∈ emitted (inStep .upload (uploadOps ctx desc)), x.step.phase ≤ 0 :=
    ⟨pairwise_flushOrder_emitted_inStep _ (by intro i; simp) _,
      fun x hx => by rw [phase_of_mem_emitted_inStep hx]; simp [Step.phase]⟩
  have h1 := pairwise_flushOrder_snoc_block 0 1 (by decide) h0
    (pairwise_flushOrder_emitted_inStep .auxClear (by intro i; simp) (auxClearOps desc))
    (fun x hx => phase_of_mem_emitted_inStep hx)
  have h2 := pairwise_flushOrder_snoc_block 1 2 (by decide) h1
    (pairwise_flushOrder_emitted_inStep .gradientPass (by intro i; simp)
      (gradientPassOps k ctx desc))
    (fun x hx => phase_of_mem_emitted_inStep hx)
  have h3 := pairwise_flushOrder_snoc_block 2 3 (by decide) h2
    (pairwise_flushOrder_emitted_inStep .simpleGradientCopy (by intro i; simp)
      (simpleGradientCopyOps k ctx desc))
    (fun x hx => phase_of_mem_emitted_inStep hx)
  have h4 := pairwise_flushOrder_snoc_block 3 4 (by decide) h3
    (pairwise_flushOrder_emitted_inStep .tessellationPass (by intro i; simp)
      (tessellationPassOps k ctx desc))
    (fun x hx => phase_of_mem_emitted_inStep hx)
  have h5 := pairwise_flushOrder_snoc_block 4 5 (by decide) h4
    (pairwise_flushOrder_emitted_inStep .clearDestination (by intro i; simp)
      (clearDestinationOps desc))
    (fun x hx => phase_of_mem_emitted_inStep hx)
  have h6 := pairwise_flushOrder_snoc_block 5 6 (by decide) h5
    (pairwise_flushOrder_emitted_inStep .beginDrawPass (by intro i; simp)
      (beginDrawPassOps desc rt))
    (fun x hx => phase_of_mem_emitted_inStep hx)
  have h7 := pairwise_flushOrder_snoc_block 6 7 (by decide) h6
    (pairwise_flushOrder_emitted_drawLoop k ctx desc desc.drawList 0)
    (fun x hx => phase_of_mem_emitted_drawLoop hx)
  exact (pairwise_flushOrder_snoc_block 7 8 (by decide) h7
    (pairwise_flushOrder_emitted_inStep .endDrawPass (by intro i; simp) (endDrawPassOps desc))
    (fun x hx => phase_of_mem_emitted_inStep hx)).1

/-- The commands of a flush appear in the source order of their blocks, and in a loop
iteration nothing follows the draw call. -/
theorem pairwise_flushOrder_issued (k : GpuConstants) (ctx : RenderContextRHIImpl)
    (desc : FlushDescriptor) : (flush k ctx desc).issued.Pairwise flushOrder := by
  unfold flush
  cases desc.renderTarget with
  | none => simp
  | some rt =>
    exact (pairwise_flushOrder_emitted_flushOps k ctx desc rt).sublist (runOps_issued_sublist _)

/-- In an ordered command sequence, `x` stands before `y` unless `y` may precede `x`. -/
theorem position_lt_of_not_flushOrder {l : List Issued} (hl : l.Pairwise flushOrder)
    {p q : Nat} {x y : Issued} (hp : l[p]? = some x) (hq : l[q]? = some y)
    (hne : x ≠ y) (h : ¬ flushOrder y x) : p < q := by
  obtain ⟨hpl, hpx⟩ := List.getElem?_eq_some.mp hp
  obtain ⟨hql, hqy⟩ := List.getElem?_eq_some.mp hq
  by_contra hlt
  rcases Nat.lt_or_eq_of_le (Nat.le_of_not_lt hlt) with hqp | hqp
  · have := List.pairwise_iff_getElem.mp hl q p hql hpl hqp
    rw [hpx, hqy] at this
    exact h this
  · subst hqp
    rw [hpx] at hqy
    exact hne hqy

theorem position_lt_of_phase_lt {l : List Issued} (hl : l.Pairwise flushOrder)
    {p q : Nat} {x y : Issued} (hp : l[p]? = some x) (hq : l[q]? = some y)
    (h : x.step.phase < y.step.phase) : p < q := by
  refine position_lt_of_not_flushOrder hl hp hq ?_ ?_
  · rintro rfl; omega
  · rintro ⟨hle, -⟩
    rcases hle with h1 | ⟨h1, -⟩ <;> omega

/-! ## Which block issues which kind of command -/

theorem uploadOps_shape {ctx : RenderContextRHIImpl} {desc : FlushDescriptor} {c : Cmd}
    (hm : Op.emit c ∈ uploadOps ctx desc) :
    c.isDraw = false ∧ c.floatClear = none ∧ (∀ u, c.uintClearOf u = none) ∧
    c.renderPassInfoOf .Rive_Render_Flush = none ∧ c.isTextureUpdate = false ∧
    c.syncRangeOn (.logical .imageDrawUniform) = none ∧
    (∀ id, c.syncRangeOn (.renderBuffer id) = none) := by
  unfold uploadOps at hm
  simp only [check, syncIfPresent, Cmd.isDraw, Cmd.floatClear, Cmd.uintClearOf,
    Cmd.renderPassInfoOf, Cmd.isTextureUpdate, Cmd.syncRangeOn] at *
  aesop

theorem auxClearOps_shape {desc : FlushDescriptor} {c : Cmd}
    (hm : Op.emit c ∈ auxClearOps desc) :
    c.isDraw = false ∧ c.floatClear = none ∧ c.isSync = false ∧
    c.renderPassInfoOf .Rive_Render_Flush = none ∧ c.isTextureUpdate = false := by
  unfold auxClearOps at hm
  simp only [Cmd.isDraw, Cmd.floatClear, Cmd.isSync, Cmd.renderPassInfoOf,
    Cmd.isTextureUpdate] at *
  aesop

theorem gradientPassOps_shape {k : GpuConstants} {ctx : RenderContextRHIImpl}
    {desc : FlushDescriptor} {c : Cmd} (hm : Op.emit c ∈ gradientPassOps k ctx desc) :
    c.isSync = false ∧ c.floatClear = none ∧ (∀ u, c.uintClearOf u = none) ∧
    c.renderPassInfoOf .Rive_Render_Flush = none ∧ c.isTextureUpdate = false := by
  unfold gradientPassOps at hm
  simp only [check, deref, Cmd.isSync, Cmd.floatClear, Cmd.uintClearOf,
    Cmd.renderPassInfoOf, Cmd.isTextureUpdate] at *
  aesop

theorem simpleGradientCopyOps_shape {k : GpuConstants} {ctx : RenderContextRHIImpl}
    {desc : FlushDescriptor} {c : Cmd} (hm : Op.emit c ∈ simpleGradientCopyOps k ctx desc) :
    c.isSync = false ∧ c.isDraw = false ∧ c.floatClear = none ∧
    (∀ u, c.uintClearOf u = none) ∧ c.renderPassInfoOf .Rive_Render_Flush = none := by
  unfold simpleGradientCopyOps at hm
  simp only [check, deref, Cmd.isSync, Cmd.isDraw, Cmd.floatClear, Cmd.uintClearOf,
    Cmd.renderPassInfoOf] at *
  aesop

theorem tessellationPassOps_shape {k : GpuConstants} {ctx : RenderContextRHIImpl}
    {desc : FlushDescriptor} {c : Cmd} (hm : Op.emit c ∈ tessellationPassOps k ctx desc) :
    c.isSync = false ∧ c.floatClear = none ∧ (∀ u, c.uintClearOf u = none) ∧
    c.renderPassInfoOf .Rive_Render_Flush = none ∧ c.isTextureUpdate = false := by
  unfold tessellationPassOps at hm
  simp only [check, deref, Cmd.isSync, Cmd.floatClear, Cmd.uintClearOf,
    Cmd.renderPassInfoOf, Cmd.isTextureUpdate] at *
  aesop

theorem clearDestinationOps_shape {desc : FlushDescriptor} {c : Cmd}
    (hm : Op.emit c ∈ clearDestinationOps desc) :
    c.isSync = false ∧ c.isDraw = false ∧ (∀ u, c.uintClearOf u = none) ∧
    c.renderPassInfoOf .Rive_Render_Flush = none ∧ c.isTextureUpdate = false ∧
    desc.colorLoadAction = .clear ∧ c = .clearUAVFloat .targetUAV desc.clearColor := by
  unfold clearDestinationOps at hm
  simp only [Cmd.isSync, Cmd.isDraw, Cmd.uintClearOf, Cmd.renderPassInfoOf,
    Cmd.isTextureUpdate] at *
  aesop

theorem beginDrawPassOps_shape {desc : FlushDescriptor} {rt : RenderTargetRHI} {c : Cmd}
    (hm : Op.emit c ∈ beginDrawPassOps desc rt) :
    c.isSync = false ∧ c.isDraw = false ∧ c.floatClear = none ∧
    (∀ u, c.uintClearOf u = none) ∧ c.isTextureUpdate = false := by
  unfold beginDrawPassOps at hm
  simp only [Cmd.isSync, Cmd.isDraw, Cmd.floatClear, Cmd.uintClearOf,
    Cmd.isTextureUpdate] at *
  aesop

theorem batchOps_shape {k : GpuConstants} {ctx : RenderContextRHIImpl}
    {desc : FlushDescriptor} {b : DrawBatch} {c : Cmd}
    (hm : Op.emit c ∈ batchOps k ctx desc b) :
    c.floatClear = none ∧ (∀ u, c.uintClearOf u = none) ∧
    c.renderPassInfoOf .Rive_Render_Flush = none ∧ c.isTextureUpdate = false := by
  unfold batchOps drawTypeOps at hm
  simp only [deref, syncIfPresent, sharedPixelBindings, Cmd.floatClear, Cmd.uintClearOf,
    Cmd.renderPassInfoOf, Cmd.isTextureUpdate] at *
  aesop

/-- The `Sync` calls of a loop iteration belong to an image batch and go to the image
draw uniform buffer or to a mesh render buffer. -/
theorem batchOps_sync {k : GpuConstants} {ctx : RenderContextRHIImpl}
    {desc : FlushDescriptor} {b : DrawBatch} {target : SyncTarget} {range : SyncRange}
    (hm : Op.emit (.sync target range) ∈ batchOps k ctx desc b) :
    (b.drawType = .imageRect ∨ b.drawType = .imageMesh) ∧
    (target = .logical .imageDrawUniform ∨ ∃ id, target = .renderBuffer id) := by
  unfold batchOps drawTypeOps at hm
  simp only [deref, syncIfPresent, sharedPixelBindings] at *
  aesop

theorem endDrawPassOps_shape {desc : FlushDescriptor} {c : Cmd}
    (hm : Op.emit c ∈ endDrawPassOps desc) :
    c.isSync = false ∧ c.isDraw = false ∧ c.floatClear = none ∧
    (∀ u, c.uintClearOf u = none) ∧ c.renderPassInfoOf .Rive_Render_Flush = none ∧
    c.isTextureUpdate = false := by
  unfold endDrawPassOps at hm
  simp only [Cmd.isSync, Cmd.isDraw, Cmd.floatClear, Cmd.uintClearOf, Cmd.renderPassInfoOf,
    Cmd.isTextureUpdate] at *
  aesop

/-- The block that issues a command of a given kind. -/
theorem step_of_issued_kind {k : GpuConstants} {ctx : RenderContextRHIImpl}
    {desc : FlushDescriptor} {x : Issued} (hx : x ∈ (flush k ctx desc).issued) :
    (x.cmd.isTextureUpdate = true → x.step = .simpleGradientCopy) ∧
    (x.cmd.floatClear ≠ none → x.step = .clearDestination) ∧
    (∀ u, x.cmd.uintClearOf u ≠ none → x.step = .auxClear) ∧
    (x.cmd.renderPassInfoOf .Rive_Render_Flush ≠ none → x.step = .beginDrawPass) ∧
    (x.cmd.isDraw = true →
      x.step = .gradientPass ∨ x.step = .tessellationPass ∨ ∃ i, x.step = .batch i) ∧
    (x.cmd.isSync = true → x.step = .upload ∨ ∃ i, x.step = .batch i) := by
  obtain ⟨h1, h2, h3, h4, h5, h6, h7, h8, h9⟩ := block_of_issued hx
  cases hstep : x.step with
  | upload =>
    obtain ⟨a1, a2, a3, a4, a5, -, -⟩ := uploadOps_shape (h1 hstep)
    simp [a1, a2, a3, a4, a5]
  | auxClear =>
    obtain ⟨a1, a2, a3, a4, a5⟩ := auxClearOps_shape (h2 hstep)
    simp [a1, a2, a3, a4, a5]
  | gradientPass =>
    obtain ⟨a1, a2, a3, a4, a5⟩ := gradientPassOps_shape (h3 hstep)
    simp [a1, a2, a3, a4, a5]
  | simpleGradientCopy =>
    obtain ⟨a1, a2, a3, a4, a5⟩ := simpleGradientCopyOps_shape (h4 hstep)
    simp [a1, a2, a3, a4, a5]
  | tessellationPass =>
    obtain ⟨a1, a2, a3, a4, a5⟩ := tessellationPassOps_shape (h5 hstep)
    simp [a1, a2, a3, a4, a5]
  | clearDestination =>
    obtain ⟨a1, a2, a3, a4, a5, -, -⟩ := clearDestinationOps_shape (h6 hstep)
    simp [a1, a2, a3, a4, a5]
  | beginDrawPass =>
    obtain ⟨rt, -, hm⟩ := h7 hstep
    obtain ⟨a1, a2, a3, a4, a5⟩ := beginDrawPassOps_shape hm
    simp [a1, a2, a3, a4, a5]
  | batch i =>
    obtain ⟨b, -, hm⟩ := h8 i hstep
    obtain ⟨a1, a2, a3, a4⟩ := batchOps_shape hm
    simp [a1, a2, a3, a4]
  | endDrawPass =>
    obtain ⟨a1, a2, a3, a4, a5, a6⟩ := endDrawPassOps_shape (h9 hstep)
    simp [a1, a2, a3, a4, a5, a6]

/-- C16: in the command sequence of every flush, a command of an earlier state of the
flush state machine stands before every command of a later state (upload, auxiliary
clears, gradient pass, simple gradient copy, tessellation pass, destination clear, start
of the draw pass, draw loop, end of the draw pass).  The texture copy is issued by the
simple gradient copy only, the destination clear by the clear step only, and draw calls by
the gradient pass, the tessellation pass and the loop iterations only; so the
gradient-pass draw precedes the copy, the copy the tessellation draw, that draw the
destination clear, and the clear every batch draw. -/
theorem flush_state_order (k : GpuConstants) (ctx : RenderContextRHIImpl)
    (desc : FlushDescriptor) :
    (∀ (p q : Nat) (x y : Issued), (flush k ctx desc).issued[p]? = some x →
      (flush k ctx desc).issued[q]? = some y → x.step.phase < y.step.phase → p < q) ∧
    (∀ x ∈ (flush k ctx desc).issued,
      (x.cmd.isTextureUpdate = true → x.step = .simpleGradientCopy) ∧
      (x.cmd.floatClear ≠ none → x.step = .clearDestination) ∧
      (x.cmd.isDraw = true →
        x.step = .gradientPass ∨ x.step = .tessellationPass ∨ ∃ i, x.step = .batch i)) := by
  constructor
  · intro p q x y hp hq h
    exact position_lt_of_phase_lt (pairwise_flushOrder_issued k ctx desc) hp hq h
  · intro x hx
    obtain ⟨h1, h2, -, -, h5, -⟩ := step_of_issued_kind hx
    exact ⟨h1, h2, h5⟩

/-- C16 at a concrete flush: in the run of the descriptor with work for every step, the
gradient-pass draw is at position 18, the simple-gradient copy at 22, the
tessellation-pass draw at 32, the destination clear at 35 and the first batch draw at
46, and whatever positions hold these commands are in that order. -/
theorem flush_state_order_witness :
    (flush sampleConstants sampleContext allPassesDescriptor).issued[18]? =
      some ⟨.gradientPass, .drawPrimitive 0 2 2⟩ ∧
    (flush sampleConstants sampleContext allPassesDescriptor).issued[22]? =
      some ⟨.simpleGradientCopy, .updateTexture2D .gradiantTexture 0 0 4 1 2048 32⟩ ∧
    (flush sampleConstants sampleContext allPassesDescriptor).issued[32]? =
      some ⟨.tessellationPass, .drawIndexedPrimitive .tessSpanIndexBuffer 0 2 14 0 6 3⟩ ∧
    (flush sampleConstants sampleContext allPassesDescriptor).issued[35]? =
      some ⟨.clearDestination, .clearUAVFloat .targetUAV 255⟩ ∧
    (flush sampleConstants sampleContext allPassesDescriptor).issued[46]? =
      some ⟨.batch 0, .drawPrimitive 0 2 1⟩ ∧
    (∀ p q r s t : Nat,
      (flush sampleConstants sampleContext allPassesDescriptor).issued[p]? =
        some ⟨.gradientPass, .drawPrimitive 0 2 2⟩ →
      (flush sampleConstants sampleContext allPassesDescriptor).issued[q]? =
        some ⟨.simpleGradientCopy, .updateTexture2D .gradiantTexture 0 0 4 1 2048 32⟩ →
      (flush sampleConstants sampleContext allPassesDescriptor).issued[r]? =
        some ⟨.tessellationPass, .drawIndexedPrimitive .tessSpanIndexBuffer 0 2 14 0 6 3⟩ →
      (flush sampleConstants sampleContext allPassesDescriptor).issued[s]? =
        some ⟨.clearDestination, .clearUAVFloat .targetUAV 255⟩ →
      (flush sampleConstants sampleContext allPassesDescriptor).issued[t]? =
        some ⟨.batch 0, .drawPrimitive 0 2 1⟩ →
      p < q ∧ q < r ∧ r < s ∧ s < t) :=
  ⟨by decide, by decide, by decide, by decide, by decide,
    fun p q r s t hp hq hr hs ht =>
      ⟨(flush_state_order sampleConstants sampleContext allPassesDescriptor).1 p q _ _ hp hq
          (by decide),
        (flush_state_order sampleConstants sampleContext allPassesDescriptor).1 q r _ _ hq hr
          (by decide),
        (flush_state_order sampleConstants sampleContext allPassesDescriptor).1 r s _ _ hr hs
          (by decide),
        (flush_state_order sampleConstants sampleContext allPassesDescriptor).1 s t _ _ hs ht
          (by decide)⟩⟩

theorem phase_pos_of_ne_upload {s : Step} (h : s ≠ .upload) : 0 < s.phase := by
  cases s <;> simp [Step.phase] at * 

/-- A `Sync` call is issued by the upload step or by the loop iteration of an image
batch. -/
theorem sync_step_of_issued {k : GpuConstants} {ctx : RenderContextRHIImpl}
    {desc : FlushDescriptor} {x : Issued} (hx : x ∈ (flush k ctx desc).issued)
    (hs : x.cmd.isSync = true) :
    x.step = .upload ∨
      ∃ (i : Nat) (b : DrawBatch), x.step = .batch i ∧ desc.drawList[i]? = some b ∧
        (b.drawType = .imageRect ∨ b.drawType = .imageMesh) := by
  rcases (step_of_issued_kind hx).2.2.2.2.2 hs with h | ⟨i, h⟩
  · exact Or.inl h
  · obtain ⟨b, hb, hm⟩ := (block_of_issued hx).2.2.2.2.2.2.2.1 i h
    cases hc : x.cmd with
    | sync target range =>
      rw [hc] at hm
      exact Or.inr ⟨i, b, h, hb, (batchOps_sync hm).1⟩
    | _ => rw [hc] at hs; simp [Cmd.isSync] at hs

theorem draw_step_ne_upload {k : GpuConstants} {ctx : RenderContextRHIImpl}
    {desc : FlushDescriptor} {y : Issued} (hy : y ∈ (flush k ctx desc).issued)
    (hd : y.cmd.isDraw = true) : y.step ≠ .upload := by
  rcases (step_of_issued_kind hy).2.2.2.2.1 hd with h | h | ⟨i, h⟩ <;> rw [h] <;> simp

/-- Counterexample to C17: in the flush of a draw list that holds a triangle batch
followed by an image-rectangle batch, the draw of the first batch is issued at position
46 and the `Sync` of the image-draw uniform buffer at position 49, after it (and after
the draws of the gradient pass at 18). -/
theorem flush_sync_after_first_draw :
    (flush sampleConstants sampleContext allPassesDescriptor).exit = .completed ∧
    (flush sampleConstants sampleContext allPassesDescriptor).issued[18]? =
      some ⟨.gradientPass, .drawPrimitive 0 2 2⟩ ∧
    (flush sampleConstants sampleContext allPassesDescriptor).issued[46]? =
      some ⟨.batch 0, .drawPrimitive 0 2 1⟩ ∧
    (flush sampleConstants sampleContext allPassesDescriptor).issued[49]? =
      some ⟨.batch 1, .sync (.logical .imageDrawUniform) (.fromOffset 64)⟩ := by
  decide

/-- C17 (amended): every `Sync` that `flush` issues comes from the upload step or from
the loop iteration of an image-rectangle or image-mesh batch; the commands of the upload
step precede every other command of the flush, in particular every draw call; and a
`Sync` of the loop iteration of a batch precedes the draw call of that batch and of every
later batch. -/
theorem flush_syncs_before_draws (k : GpuConstants) (ctx : RenderContextRHIImpl)
    (desc : FlushDescriptor) :
    (∀ x ∈ (flush k ctx desc).issued, x.cmd.isSync = true →
      x.step = .upload ∨
        ∃ (i : Nat) (b : DrawBatch), x.step = .batch i ∧ desc.drawList[i]? = some b ∧
          (b.drawType = .imageRect ∨ b.drawType = .imageMesh)) ∧
    (∀ (p q : Nat) (x y : Issued), (flush k ctx desc).issued[p]? = some x →
      (flush k ctx desc).issued[q]? = some y → x.step = .upload → y.step ≠ .upload →
      p < q) ∧
    (∀ y ∈ (flush k ctx desc).issued, y.cmd.isDraw = true → y.step ≠ .upload) ∧
    (∀ (p q : Nat) (x y : Issued) (i j : Nat), (flush k ctx desc).issued[p]? = some x →
      (flush k ctx desc).issued[q]? = some y → x.cmd.isSync = true → y.cmd.isDraw = true →
      x.step = .batch i → y.step = .batch j → i ≤ j → p < q) := by
  refine ⟨fun x hx hs => sync_step_of_issued hx hs, ?_,
    fun y hy hd => draw_step_ne_upload hy hd, ?_⟩
  · intro p q x y hp hq hx hy
    apply position_lt_of_phase_lt (pairwise_flushOrder_issued k ctx desc) hp hq
    rw [hx]
    exact phase_pos_of_ne_upload hy
  · intro p q x y i j hp hq hs hd hx hy hij
    apply position_lt_of_not_flushOrder (pairwise_flushOrder_issued k ctx desc) hp hq
    · intro hxy
      rw [hxy] at hs
      cases hc : y.cmd <;> rw [hc] at hs hd <;> simp [Cmd.isSync, Cmd.isDraw] at hs hd
    · rintro ⟨hle, hnd⟩
      rcases Nat.lt_or_ge i j with hlt | hge
      · rw [hx, hy] at hle
        simp only [Step.le, Step.phase, Step.batchIndex, lt_self_iff_false, true_and,
          false_or] at hle
        omega
      · have hji : j = i := le_antisymm hge hij
        exact hnd ⟨hd, i, by rw [hy, hji], hx⟩

/-- C17 (amended) at a concrete flush: the `Sync` of the image-draw uniform buffer in the
iteration of the image-rectangle batch is at position 49 and the draw of that batch at
position 54, and they are in that order wherever they are. -/
theorem flush_syncs_before_draws_witness :
    (flush sampleConstants sampleContext allPassesDescriptor).issued[49]? =
      some ⟨.batch 1, .sync (.logical .imageDrawUniform) (.fromOffset 64)⟩ ∧
    (flush sampleConstants sampleContext allPassesDescriptor).issued[54]? =
      some ⟨.batch 1, .drawIndexedPrimitive .imageRectIndexBuffer 0 0 12 0 10 1⟩ ∧
    (∀ p q : Nat,
      (flush sampleConstants sampleContext allPassesDescriptor).issued[p]? =
        some ⟨.batch 1, .sync (.logical .imageDrawUniform) (.fromOffset 64)⟩ →
      (flush sampleConstants sampleContext allPassesDescriptor).issued[q]? =
        some ⟨.batch 1, .drawIndexedPrimitive .imageRectIndexBuffer 0 0 12 0 10 1⟩ →
      p < q) :=
  ⟨by decide, by decide, fun p q hp hq =>
    (flush_syncs_before_draws sampleConstants sampleContext allPassesDescriptor).2.2.2
      p q _ _ 1 1 hp hq rfl rfl rfl rfl (le_refl 1)⟩

theorem cmdsOf_append (a b : List Op) : cmdsOf (a ++ b) = cmdsOf a ++ cmdsOf b := by
  induction a with
  | nil => rfl
  | cons o rest ih => cases o <;> simp [cmdsOf, ih]

theorem cmdsOf_syncIfPresent (present : Bool) (target : SyncTarget) (range : SyncRange) :
    cmdsOf (syncIfPresent present target range) =
      if present then [.sync target range] else [] := by
  cases present <;> rfl

/-- The commands of the upload block. -/
theorem cmdsOf_uploadOps (ctx : RenderContextRHIImpl) (desc : FlushDescriptor) :
    cmdsOf (uploadOps ctx desc) =
      (if ctx.m_flushUniformBuffer.isSome then
          [.sync (.logical .flushUniform) (.fromOffset desc.flushUniformDataOffsetInBytes)]
        else [])
      ++ (if desc.pathCount > 0 then
          [.sync (.logical .path) (.elements desc.firstPath desc.pathCount),
           .sync (.logical .paint) (.elements desc.firstPaint desc.pathCount),
           .sync (.logical .paintAux) (.elements desc.firstPaintAux desc.pathCount)]
        else [])
      ++ (if desc.contourCount > 0 then
          [.sync (.logical .contour) (.elements desc.firstContour desc.contourCount)]
        else [])
      ++ (if ctx.m_gradSpanBuffer.isSome then [.sync (.logical .gradSpan) .whole] else [])
      ++ (if ctx.m_tessSpanBuffer.isSome then [.sync (.logical .tessSpan) .whole] else [])
      ++ (if ctx.m_triangleBuffer.isSome then [.sync (.logical .triangle) .whole] else []) := by
  unfold uploadOps
  simp only [cmdsOf_append, cmdsOf_syncIfPresent]
  have hp : cmdsOf (if desc.pathCount > 0 then
        [check ctx.m_pathBuffer.isSome,
         check ctx.m_paintBuffer.isSome,
         check ctx.m_paintAuxBuffer.isSome,
         .emit (.sync (.logical .path) (.elements desc.firstPath desc.pathCount)),
         .emit (.sync (.logical .paint) (.elements desc.firstPaint desc.pathCount)),
         .emit (.sync (.logical .paintAux) (.elements desc.firstPaintAux desc.pathCount))]
      else []) =
      (if desc.pathCount > 0 then
          [.sync (.logical .path) (.elements desc.firstPath desc.pathCount),
           .sync (.logical .paint) (.elements desc.firstPaint desc.pathCount),
           .sync (.logical .paintAux) (.elements desc.firstPaintAux desc.pathCount)]
        else []) := by
    split_ifs <;> simp [cmdsOf, check]
  have hc : cmdsOf (if desc.contourCount > 0 then
        [check ctx.m_contourBuffer.isSome,
         .emit (.sync (.logical .contour) (.elements desc.firstContour desc.contourCount))]
      else []) =
      (if desc.contourCount > 0 then
          [.sync (.logical .contour) (.elements desc.firstContour desc.contourCount)]
        else []) := by
    split_ifs <;> simp [cmdsOf, check]
  rw [hp, hc]

/-- Filtering the commands of a flush by kind can be done inside the one block that
issues commands of that kind. -/
theorem filterMap_cmd_eq_of_step {α : Type} (f : Cmd → Option α) (s : Step) (l : List Issued)
    (h : ∀ x ∈ l, f x.cmd ≠ none → x.step = s) :
    l.filterMap (fun x => f x.cmd) = (issuedIn s l).filterMap f := by
  induction l with
  | nil => rfl
  | cons x rest ih =>
    have ih := ih (fun y hy => h y (List.mem_cons_of_mem _ hy))
    by_cases hs : x.step = s
    · have : issuedIn s (x :: rest) = x.cmd :: issuedIn s rest := by
        simp [issuedIn, hs]
      rw [this, List.filterMap_cons, List.filterMap_cons, ih]
    · have hnone : f x.cmd = none := by
        by_contra hne
        exact hs (h x (List.mem_cons_self _ _) hne)
      have : issuedIn s (x :: rest) = issuedIn s rest := by
        simp [issuedIn, hs]
      rw [this, List.filterMap_cons, hnone, ih]

theorem eq_sync_of_syncRangeOn {c : Cmd} {target : SyncTarget}
    (h : c.syncRangeOn target ≠ none) : ∃ r, c = .sync target r := by
  cases c with
  | sync t r =>
    by_cases ht : t = target
    · exact ⟨r, by rw [ht]⟩
    · simp [Cmd.syncRangeOn, ht] at h
  | _ => simp [Cmd.syncRangeOn] at h

/-- A `Sync` on one of the buffers of the upload step is issued by the upload step. -/
theorem step_of_logical_sync {k : GpuConstants} {ctx : RenderContextRHIImpl}
    {desc : FlushDescriptor} {x : Issued} (hx : x ∈ (flush k ctx desc).issued)
    (b : LogicalBuffer) (hb : b ≠ .imageDrawUniform)
    (h : x.cmd.syncRangeOn (.logical b) ≠ none) : x.step = .upload := by
  obtain ⟨r, hr⟩ := eq_sync_of_syncRangeOn h
  have hsync : x.cmd.isSync = true := by rw [hr]; rfl
  rcases (step_of_issued_kind hx).2.2.2.2.2 hsync with hs | ⟨i, hs⟩
  · exact hs
  · obtain ⟨batch, -, hm⟩ := (block_of_issued hx).2.2.2.2.2.2.2.1 i hs
    rw [hr] at hm
    rcases (batchOps_sync hm).2 with ht | ⟨id, ht⟩
    · simp only [SyncTarget.logical.injEq] at ht
      exact absurd ht hb
    · cases ht

/-- The ranges synchronised on a buffer of the upload step, for a flush without fatal
stop: those of the upload block. -/
theorem syncRangesOn_of_not_fatal {k : GpuConstants} {ctx : RenderContextRHIImpl}
    {desc : FlushDescriptor} (h : (flush k ctx desc).exit.isFatal = false)
    (b : LogicalBuffer) (hb : b ≠ .imageDrawUniform) :
    syncRangesOn (.logical b) (flush k ctx desc).issued =
      (cmdsOf (uploadOps ctx desc)).filterMap (Cmd.syncRangeOn (.logical b)) := by
  obtain ⟨rt, -, hu, -⟩ := issuedIn_preLoop_of_not_fatal h
  unfold syncRangesOn
  rw [filterMap_cmd_eq_of_step _ .upload _
    (fun x hx hne => step_of_logical_sync hx b hb hne), hu]

/-- C18: in a flush that does not stop fatally, the contour buffer is synchronised once
with range `(firstContour, contourCount)` when `contourCount > 0` and not at all
otherwise; the path, paint and paint-aux buffers are each synchronised once, with ranges
`(firstPath, pathCount)`, `(firstPaint, pathCount)`, `(firstPaintAux, pathCount)`, when
`pathCount > 0` and not at all otherwise; the gradient-span, tessellation-span and
triangle buffers are each synchronised once when they are allocated and not at all
otherwise, whatever the counts and the draw list are.  In every flush these `Sync` calls
come from the upload step. -/
theorem flush_upload_syncs (k : GpuConstants) (ctx : RenderContextRHIImpl)
    (desc : FlushDescriptor) :
    ((flush k ctx desc).exit.isFatal = false →
      syncRangesOn (.logical .contour) (flush k ctx desc).issued =
        (if desc.contourCount > 0 then [.elements desc.firstContour desc.contourCount]
          else []) ∧
      syncRangesOn (.logical .path) (flush k ctx desc).issued =
        (if desc.pathCount > 0 then [.elements desc.firstPath desc.pathCount] else []) ∧
      syncRangesOn (.logical .paint) (flush k ctx desc).issued =
        (if desc.pathCount > 0 then [.elements desc.firstPaint desc.pathCount] else []) ∧
      syncRangesOn (.logical .paintAux) (flush k ctx desc).issued =
        (if desc.pathCount > 0 then [.elements desc.firstPaintAux desc.pathCount] else []) ∧
      syncRangesOn (.logical .gradSpan) (flush k ctx desc).issued =
        (if ctx.m_gradSpanBuffer.isSome then [.whole] else []) ∧
      syncRangesOn (.logical .tessSpan) (flush k ctx desc).issued =
        (if ctx.m_tessSpanBuffer.isSome then [.whole] else []) ∧
      syncRangesOn (.logical .triangle) (flush k ctx desc).issued =
        (if ctx.m_triangleBuffer.isSome then [.whole] else [])) ∧
    (∀ x ∈ (flush k ctx desc).issued, ∀ b, b ≠ .imageDrawUniform →
      x.cmd.syncRangeOn (.logical b) ≠ none → x.step = .upload) := by
  constructor
  · intro h
    refine ⟨?_, ?_, ?_, ?_, ?_, ?_, ?_⟩ <;>
      rw [syncRangesOn_of_not_fatal h _ (by decide), cmdsOf_uploadOps] <;>
      simp only [List.filterMap_append] <;>
      split_ifs <;> simp [Cmd.syncRangeOn]
  · intro x hx b hb hne
    exact step_of_logical_sync hx b hb hne

/-- C18 at a concrete flush: the descriptor with five paths from path 1 and two contours
from contour 4, on the sample context, where every buffer is allocated. -/
theorem flush_upload_syncs_witness :
    (flush sampleConstants sampleContext allPassesDescriptor).exit.isFatal = false ∧
    syncRangesOn (.logical .contour)
      (flush sampleConstants sampleContext allPassesDescriptor).issued = [.elements 4 2] ∧
    syncRangesOn (.logical .path)
      (flush sampleConstants sampleContext allPassesDescriptor).issued = [.elements 1 5] ∧
    syncRangesOn (.logical .paint)
      (flush sampleConstants sampleContext allPassesDescriptor).issued = [.elements 2 5] ∧
    syncRangesOn (.logical .paintAux)
      (flush sampleConstants sampleContext allPassesDescriptor).issued = [.elements 3 5] ∧
    syncRangesOn (.logical .gradSpan)
      (flush sampleConstants sampleContext allPassesDescriptor).issued = [.whole] ∧
    syncRangesOn (.logical .tessSpan)
      (flush sampleConstants sampleContext allPassesDescriptor).issued = [.whole] ∧
    syncRangesOn (.logical .triangle)
      (flush sampleConstants sampleContext allPassesDescriptor).issued = [.whole] :=
  ⟨by decide,
    (flush_upload_syncs sampleConstants sampleContext allPassesDescriptor).1 (by decide)⟩

theorem auxClearOps_uint {desc : FlushDescriptor} {u : Resource} {a b c d : Nat}
    (hm : Op.emit (.clearUAVUint u a b c d) ∈ auxClearOps desc) :
    (u = .coverageUAV ∧ a = desc.coverageClearValue ∧ b = desc.coverageClearValue ∧
        c = desc.coverageClearValue ∧ d = desc.coverageClearValue) ∨
      (u = .clipUAV ∧ desc.combinedShaderFeatures.ENABLE_CLIPPING = true ∧
        a = 0 ∧ b = 0 ∧ c = 0 ∧ d = 0) := by
  unfold auxClearOps at hm
  split_ifs at hm with h <;> simp at hm <;> aesop

theorem ne_none_of_eq_clearUAVUint {c : Cmd} {u : Resource} {a b e d : Nat}
    (h : c = .clearUAVUint u a b e d) : c.uintClearOf u ≠ none := by
  rw [h]; simp [Cmd.uintClearOf]

/-- The commands of the block of the two clears. -/
theorem cmdsOf_auxClearOps (desc : FlushDescriptor) :
    cmdsOf (auxClearOps desc) =
      .clearUAVUint .coverageUAV desc.coverageClearValue desc.coverageClearValue
          desc.coverageClearValue desc.coverageClearValue ::
        (if desc.combinedShaderFeatures.ENABLE_CLIPPING then [.clearUAVUint .clipUAV 0 0 0 0]
          else []) := by
  unfold auxClearOps
  split_ifs <;> simp [cmdsOf]

/-- C19: every `ClearUAVUint` that `flush` issues is one of the two clears before the
passes: that of the coverage view, with `coverageClearValue` in the four components, or
that of the clip view, with zero in the four components and only when `ENABLE_CLIPPING`
is set; none is issued by an iteration of the draw loop, and each is issued before every
command of the draw loop, so before the first batch draw.  In a flush that does not stop
fatally the coverage view is cleared exactly once and the clip view exactly once when
`ENABLE_CLIPPING` is set and not at all otherwise. -/
theorem flush_aux_clears (k : GpuConstants) (ctx : RenderContextRHIImpl)
    (desc : FlushDescriptor) :
    (∀ x ∈ (flush k ctx desc).issued, ∀ (u : Resource) (a b c d : Nat),
      x.cmd = .clearUAVUint u a b c d →
      x.step = .auxClear ∧
      ((u = .coverageUAV ∧ a = desc.coverageClearValue ∧ b = desc.coverageClearValue ∧
          c = desc.coverageClearValue ∧ d = desc.coverageClearValue) ∨
        (u = .clipUAV ∧ desc.combinedShaderFeatures.ENABLE_CLIPPING = true ∧
          a = 0 ∧ b = 0 ∧ c = 0 ∧ d = 0))) ∧
    (∀ (p q : Nat) (x y : Issued) (i : Nat), (flush k ctx desc).issued[p]? = some x →
      (flush k ctx desc).issued[q]? = some y → x.step = .auxClear → y.step = .batch i →
      p < q) ∧
    ((flush k ctx desc).exit.isFatal = false →
      uintClearsOf .coverageUAV (flush k ctx desc).issued =
        [(desc.coverageClearValue, desc.coverageClearValue, desc.coverageClearValue,
          desc.coverageClearValue)] ∧
      uintClearsOf .clipUAV (flush k ctx desc).issued =
        (if desc.combinedShaderFeatures.ENABLE_CLIPPING then [(0, 0, 0, 0)] else [])) := by
  refine ⟨?_, ?_, ?_⟩
  · intro x hx u a b c d hc
    have hs : x.step = .auxClear :=
      (step_of_issued_kind hx).2.2.1 u (ne_none_of_eq_clearUAVUint hc)
    have hm := (block_of_issued hx).2.1 hs
    rw [hc] at hm
    exact ⟨hs, auxClearOps_uint hm⟩
  · intro p q x y i hp hq hx hy
    apply position_lt_of_phase_lt (pairwise_flushOrder_issued k ctx desc) hp hq
    rw [hx, hy]
    simp [Step.phase]
  · intro h
    obtain ⟨rt, -, -, ha, -⟩ := issuedIn_preLoop_of_not_fatal h
    constructor
    · unfold uintClearsOf
      rw [filterMap_cmd_eq_of_step _ .auxClear _
        (fun x hx hne => (step_of_issued_kind hx).2.2.1 _ hne), ha, cmdsOf_auxClearOps]
      split_ifs <;> simp [Cmd.uintClearOf]
    · unfold uintClearsOf
      rw [filterMap_cmd_eq_of_step _ .auxClear _
        (fun x hx hne => (step_of_issued_kind hx).2.2.1 _ hne), ha, cmdsOf_auxClearOps]
      split_ifs <;> simp [Cmd.uintClearOf]

/-- C19 at a concrete flush: the descriptor with clipping and coverage clear value 9. -/
theorem flush_aux_clears_witness :
    (flush sampleConstants sampleContext allPassesDescriptor).exit.isFatal = false ∧
    uintClearsOf .coverageUAV (flush sampleConstants sampleContext allPassesDescriptor).issued =
      [(9, 9, 9, 9)] ∧
    uintClearsOf .clipUAV (flush sampleConstants sampleContext allPassesDescriptor).issued =
      [(0, 0, 0, 0)] :=
  ⟨by decide,
    (flush_aux_clears sampleConstants sampleContext allPassesDescriptor).2.2 (by decide)⟩

theorem ne_none_of_eq_clearUAVFloat {c : Cmd} {u : Resource} {v : Nat}
    (h : c = .clearUAVFloat u v) : c.floatClear ≠ none := by
  rw [h]; simp [Cmd.floatClear]

/-- The commands of the statement `switch (desc.colorLoadAction)`. -/
theorem cmdsOf_clearDestinationOps (desc : FlushDescriptor) :
    cmdsOf (clearDestinationOps desc) =
      if desc.colorLoadAction = .clear then [.clearUAVFloat .targetUAV desc.clearColor]
      else [] := by
  unfold clearDestinationOps
  cases desc.colorLoadAction <;> simp [cmdsOf]

/-- The render pass infos with which the block that begins the draw pass calls
`BeginRenderPass`. -/
theorem renderPassInfos_beginDrawPassOps (desc : FlushDescriptor) (rt : RenderTargetRHI) :
    (cmdsOf (beginDrawPassOps desc rt)).filterMap (Cmd.renderPassInfoOf .Rive_Render_Flush) =
      [if !desc.combinedShaderFeatures.ENABLE_ADVANCED_BLEND then
          .colorTarget .destTexture (loadActionFor desc.colorLoadAction)
        else .resolveRect 0 0 rt.width rt.height] := by
  unfold beginDrawPassOps
  cases desc.combinedShaderFeatures.ENABLE_ADVANCED_BLEND <;>
    simp [cmdsOf, Cmd.renderPassInfoOf]

/-- Counterexample to C20: with `ENABLE_ADVANCED_BLEND` and
`colorLoadAction = preserveRenderTarget` the flush completes and begins its draw pass
with a render pass info that holds a resolve rectangle and no colour target, so no load
action `Load_Store`. -/
theorem flush_preserve_without_load_action :
    (flush sampleConstants sampleContext advancedBlendPreserveDescriptor).exit = .completed ∧
    advancedBlendPreserveDescriptor.colorLoadAction = .preserveRenderTarget ∧
    renderPassInfosOf .Rive_Render_Flush
      (flush sampleConstants sampleContext advancedBlendPreserveDescriptor).issued =
        [.resolveRect 0 0 64 64] := by
  decide

/-- C20 (amended): every `ClearUAVFloat` that `flush` issues is the clear of the
destination: it is on the view of the target, with `clearColor`, and `colorLoadAction`
is `clear`.  A flush that does not stop fatally issues that clear exactly once when
`colorLoadAction = clear` and no `ClearUAVFloat` otherwise; it begins the draw pass
exactly once and, when `ENABLE_ADVANCED_BLEND` is not set, on the destination texture
with the load action of `colorLoadAction`: `Load_Store` for `clear` and
`preserveRenderTarget`, `DontLoad_Store` for `dontCare`; when `ENABLE_ADVANCED_BLEND` is
set the render pass holds the resolve rectangle of the target and no colour target. -/
theorem flush_destination_clear (k : GpuConstants) (ctx : RenderContextRHIImpl)
    (desc : FlushDescriptor) :
    (∀ x ∈ (flush k ctx desc).issued, ∀ (u : Resource) (c : Nat),
      x.cmd = .clearUAVFloat u c →
      x.step = .clearDestination ∧ desc.colorLoadAction = .clear ∧ u = .targetUAV ∧
        c = desc.clearColor) ∧
    ((flush k ctx desc).exit.isFatal = false →
      floatClearsOf (flush k ctx desc).issued =
        (if desc.colorLoadAction = .clear then [(.targetUAV, desc.clearColor)] else []) ∧
      (desc.combinedShaderFeatures.ENABLE_ADVANCED_BLEND = false →
        renderPassInfosOf .Rive_Render_Flush (flush k ctx desc).issued =
          [.colorTarget .destTexture (loadActionFor desc.colorLoadAction)]) ∧
      (desc.combinedShaderFeatures.ENABLE_ADVANCED_BLEND = true →
        ∃ rt, desc.renderTarget = some rt ∧
          renderPassInfosOf .Rive_Render_Flush (flush k ctx desc).issued =
            [.resolveRect 0 0 rt.width rt.height])) ∧
    (loadActionFor .clear = .Load_Store ∧ loadActionFor .preserveRenderTarget = .Load_Store ∧
      loadActionFor .dontCare = .DontLoad_Store) := by
  refine ⟨?_, ?_, rfl, rfl, rfl⟩
  · intro x hx u c hc
    have hs : x.step = .clearDestination :=
      (step_of_issued_kind hx).2.1 (ne_none_of_eq_clearUAVFloat hc)
    have hm := (block_of_issued hx).2.2.2.2.2.1 hs
    obtain ⟨-, -, -, -, -, hcl, he⟩ := clearDestinationOps_shape hm
    rw [hc] at he
    injection he with hu hv
    exact ⟨hs, hcl, hu, hv⟩
  · intro h
    obtain ⟨rt, hrt, -, -, -, -, -, hd, hb⟩ := issuedIn_preLoop_of_not_fatal h
    have hinfo : renderPassInfosOf .Rive_Render_Flush (flush k ctx desc).issued =
        [if !desc.combinedShaderFeatures.ENABLE_ADVANCED_BLEND then
            .colorTarget .destTexture (loadActionFor desc.colorLoadAction)
          else .resolveRect 0 0 rt.width rt.height] := by
      unfold renderPassInfosOf
      rw [filterMap_cmd_eq_of_step _ .beginDrawPass _
        (fun x hx hne => (step_of_issued_kind hx).2.2.2.1 hne), hb,
        renderPassInfos_beginDrawPassOps]
    refine ⟨?_, ?_, ?_⟩
    · unfold floatClearsOf
      rw [filterMap_cmd_eq_of_step _ .clearDestination _
        (fun x hx hne => (step_of_issued_kind hx).2.1 hne), hd, cmdsOf_clearDestinationOps]
      split_ifs <;> simp [Cmd.floatClear]
    · intro hadv
      rw [hinfo, hadv]
      rfl
    · intro hadv
      refine ⟨rt, hrt, ?_⟩
      rw [hinfo, hadv]
      rfl

/-- C20 (amended) at a concrete flush: the descriptor with `colorLoadAction = clear`,
clear colour 255 and no advanced blend. -/
theorem flush_destination_clear_witness :
    (flush sampleConstants sampleContext allPassesDescriptor).exit.isFatal = false ∧
    allPassesDescriptor.combinedShaderFeatures.ENABLE_ADVANCED_BLEND = false ∧
    floatClearsOf (flush sampleConstants sampleContext allPassesDescriptor).issued =
      [(.targetUAV, 255)] ∧
    renderPassInfosOf .Rive_Render_Flush
      (flush sampleConstants sampleContext allPassesDescriptor).issued =
        [.colorTarget .destTexture .Load_Store] :=
  ⟨by decide, rfl,
    ((flush_destination_clear sampleConstants sampleContext allPassesDescriptor).2.1
      (by decide)).1,
    ((flush_destination_clear sampleConstants sampleContext allPassesDescriptor).2.1
      (by decide)).2.1 rfl⟩

/-! ## The actor component -/

/-- `AddArtboard` returns null and changes nothing when one of its guards fails. -/
theorem AddArtboard_refused (rendererModule : IRiveRendererModule) (newObject : Nat)
    (comp : URiveActorComponent) (InRiveFile : Option URiveFile)
    (InArtboardName InStateMachineName : String)
    (h : InRiveFile = none ∨
      (∃ file, InRiveFile = some file ∧ (file.isValid = false ∨ file.isInitialized = false)) ∨
      rendererModule.isAvailable = false ∨ rendererModule.renderer = none ∨
      (∃ r, rendererModule.renderer = some r ∧ r.isInitialized = false)) :
    comp.AddArtboard rendererModule newObject InRiveFile InArtboardName InStateMachineName =
      (none, comp) := by
  unfold URiveActorComponent.AddArtboard
  rcases h with h | ⟨file, h, hv | hi⟩ | h | h | ⟨r, h, hr⟩
  · rw [h]
  · rw [h]; simp [hv]
  · rw [h]; simp [hi]
  · cases InRiveFile <;> simp [h]
  · cases InRiveFile <;> simp [h]
  · cases InRiveFile <;> simp [h, hr]

/-- `AddArtboard` with every guard passed: the artboard it builds is returned and
appended. -/
theorem AddArtboard_accepted (rendererModule : IRiveRendererModule) (newObject : Nat)
    (comp : URiveActorComponent) (file : URiveFile) (r : IRiveRenderer)
    (InArtboardName InStateMachineName : String)
    (hv : file.isValid = true) (hi : file.isInitialized = true)
    (ha : rendererModule.isAvailable = true) (hr : rendererModule.renderer = some r)
    (hri : r.isInitialized = true) :
    ∃ a : URiveArtboard, a.object = newObject ∧
      comp.AddArtboard rendererModule newObject (some file) InArtboardName InStateMachineName =
        (some a, { comp with Artboards := comp.Artboards ++ [a] }) := by
  unfold URiveActorComponent.AddArtboard
  simp only [hv, hi, ha, hr, hri, Bool.not_true, Bool.false_eq_true, if_false]
  cases comp.RiveAudioEngine <;> exact ⟨_, rfl, rfl⟩

/-- C26: `AddArtboard` returns null and leaves the component as it was (the artboard
list included) whenever the Rive file is null or invalid or not initialized, the
renderer module is not available, the renderer is null or the renderer is not
initialized; in every other case it returns a new artboard, the object made by
`NewObject`, which is appended as the last element of the artboard list, the other
members are unchanged and `GetArtboardCount` is one more than before. -/
theorem AddArtboard_contract (rendererModule : IRiveRendererModule) (newObject : Nat)
    (comp : URiveActorComponent) (InRiveFile : Option URiveFile)
    (InArtboardName InStateMachineName : String) :
    ((InRiveFile = none ∨
      (∃ file, InRiveFile = some file ∧ (file.isValid = false ∨ file.isInitialized = false)) ∨
      rendererModule.isAvailable = false ∨ rendererModule.renderer = none ∨
      (∃ r, rendererModule.renderer = some r ∧ r.isInitialized = false)) →
      comp.AddArtboard rendererModule newObject InRiveFile InArtboardName InStateMachineName =
        (none, comp)) ∧
    (¬ (InRiveFile = none ∨
      (∃ file, InRiveFile = some file ∧ (file.isValid = false ∨ file.isInitialized = false)) ∨
      rendererModule.isAvailable = false ∨ rendererModule.renderer = none ∨
      (∃ r, rendererModule.renderer = some r ∧ r.isInitialized = false)) →
      ∃ a : URiveArtboard, a.object = newObject ∧
        (comp.AddArtboard rendererModule newObject InRiveFile InArtboardName
          InStateMachineName).1 = some a ∧
        (comp.AddArtboard rendererModule newObject InRiveFile InArtboardName
          InStateMachineName).2.Artboards = comp.Artboards ++ [a] ∧
        (comp.AddArtboard rendererModule newObject InRiveFile InArtboardName
          InStateMachineName).2.Artboards.getLast? = some a ∧
        (comp.AddArtboard rendererModule newObject InRiveFile InArtboardName
          InStateMachineName).2.RiveRenderTarget = comp.RiveRenderTarget ∧
        (comp.AddArtboard rendererModule newObject InRiveFile InArtboardName
          InStateMachineName).2.RiveAudioEngine = comp.RiveAudioEngine ∧
        (comp.AddArtboard rendererModule newObject InRiveFile InArtboardName
          InStateMachineName).2.GetArtboardCount = comp.GetArtboardCount + 1) := by
  refine ⟨AddArtboard_refused rendererModule newObject comp InRiveFile InArtboardName
    InStateMachineName, ?_⟩
  intro h
  simp only [not_or, not_exists, not_and] at h
  obtain ⟨hf, hfile, ha, hr, hri⟩ := h
  obtain ⟨file, rfl⟩ := Option.ne_none_iff_exists'.mp hf
  obtain ⟨r, hr'⟩ := Option.ne_none_iff_exists'.mp hr
  have hv : file.isValid = true := by
    have := (hfile file rfl).1
    simpa using this
  have hi : file.isInitialized = true := by
    have := (hfile file rfl).2
    simpa using this
  have ha' : rendererModule.isAvailable = true := by simpa using ha
  have hri' : r.isInitialized = true := by
    have := hri r hr'
    simpa using this
  obtain ⟨a, hobj, heq⟩ := AddArtboard_accepted rendererModule newObject comp file r
    InArtboardName InStateMachineName hv hi ha' hr' hri'
  refine ⟨a, hobj, ?_⟩
  rw [heq]
  refine ⟨rfl, rfl, ?_, rfl, rfl, ?_⟩
  · simp
  · simp [URiveActorComponent.GetArtboardCount]

/-- C26 at a concrete call: on the component with two artboards, a null file is refused
and a ready file with a ready renderer adds the third artboard, object 12. -/
theorem AddArtboard_contract_witness :
    sampleComponent.AddArtboard readyRendererModule 12 none "Main" "Idle" =
      (none, sampleComponent) ∧
    (sampleComponent.AddArtboard readyRendererModule 12 (some readyRiveFile) "Main"
      "Idle").2.GetArtboardCount = 3 ∧
    ∃ a : URiveArtboard, a.object = 12 ∧
      (sampleComponent.AddArtboard readyRendererModule 12 (some readyRiveFile) "Main"
        "Idle").1 = some a ∧
      (sampleComponent.AddArtboard readyRendererModule 12 (some readyRiveFile) "Main"
        "Idle").2.Artboards.getLast? = some a :=
  ⟨(AddArtboard_contract readyRendererModule 12 sampleComponent none "Main" "Idle").1
      (Or.inl rfl),
    by decide,
    by
      obtain ⟨a, h1, h2, -, h4, -⟩ :=
        (AddArtboard_contract readyRendererModule 12 sampleComponent (some readyRiveFile)
          "Main" "Idle").2 (by decide)
      exact ⟨a, h1, h2, h4⟩⟩

/-- `GetArtboardAtIndex` inside the list: the element at the index. -/
theorem GetArtboardAtIndex_in_range (comp : URiveActorComponent) (i : Nat) (a : URiveArtboard)
    (h : comp.Artboards[i]? = some a) :
    comp.GetArtboardAtIndex (i : Int) = .returned (some a) := by
  have hlt : i < comp.Artboards.length := (List.getElem?_eq_some.mp h).1
  have hne : comp.Artboards.isEmpty = false := by
    cases hl : comp.Artboards with
    | nil => rw [hl] at hlt; simp at hlt
    | cons x xs => rfl
  unfold URiveActorComponent.GetArtboardAtIndex URiveActorComponent.GetArtboardCount TArrayAt
  rw [hne]
  have h1 : ¬ ((i : Int) ≥ (comp.Artboards.length : Int)) := by omega
  simp [h1, h]

/-- `GetArtboardAtIndex` at or after the end of the list, and on an empty list: null. -/
theorem GetArtboardAtIndex_null (comp : URiveActorComponent) (i : Int)
    (h : comp.Artboards = [] ∨ (comp.Artboards.length : Int) ≤ i) :
    comp.GetArtboardAtIndex i = .returned none := by
  unfold URiveActorComponent.GetArtboardAtIndex URiveActorComponent.GetArtboardCount
  rcases h with h | h
  · simp [h]
  · by_cases he : comp.Artboards.isEmpty = true
    · simp [he]
    · simp [he, h]

/-- `GetArtboardAtIndex` with a negative index on a list that is not empty: neither
guard applies and the array is indexed at the negative position. -/
theorem GetArtboardAtIndex_negative (comp : URiveActorComponent) (i : Int)
    (hne : comp.Artboards ≠ []) (hi : i < 0) :
    comp.GetArtboardAtIndex i = .indexedOutOfBounds i := by
  unfold URiveActorComponent.GetArtboardAtIndex URiveActorComponent.GetArtboardCount TArrayAt
  have he : comp.Artboards.isEmpty = false := by
    cases hl : comp.Artboards with
    | nil => exact absurd hl hne
    | cons x xs => rfl
  have h1 : ¬ (i ≥ (comp.Artboards.length : Int)) := by omega
  have h2 : ¬ (0 ≤ i) := by omega
  simp [he, h1, h2]

theorem GetDefaultArtboard_eq (comp : URiveActorComponent) :
    comp.GetDefaultArtboard = comp.GetArtboardAtIndex 0 := rfl

/-- C29, the failing input: on a component with two artboards, index `-1` passes both
guards (the list is not empty, `-1 >= 2` is false) and `Artboards[-1]` is evaluated: the
array is indexed out of bounds instead of null being returned. -/
theorem GetArtboardAtIndex_minus_one_out_of_bounds :
    sampleComponent.GetArtboardCount = 2 ∧
    sampleComponent.GetArtboardAtIndex (-1) = .indexedOutOfBounds (-1) ∧
    sampleComponent.GetArtboardAtIndex (-1) ≠ .returned none := by
  decide

/-! ## Construction of a render target -/

theorem toInt32_toUInt32 (v : Int) (h1 : -2 ^ 31 ≤ v) (h2 : v < 2 ^ 31) :
    toInt32 (toUInt32 v) = v := by
  unfold toInt32 toUInt32
  have hnn : 0 ≤ v % 2 ^ 32 := Int.emod_nonneg _ (by norm_num)
  have hlt : v % 2 ^ 32 < 2 ^ 32 := Int.emod_lt_of_pos _ (by norm_num)
  have hcast : (((v % 2 ^ 32).toNat : Nat) : Int) = v % 2 ^ 32 := Int.toNat_of_nonneg hnn
  have hmod : (v % 2 ^ 32).toNat % 2 ^ 32 = (v % 2 ^ 32).toNat := by
    apply Nat.mod_eq_of_lt
    omega
  rw [hmod]
  split_ifs with hc
  · rw [hcast]
    omega
  · rw [hcast]
    omega

/-- The calls of the constructor, whatever the extent of the target is. -/
theorem construct_calls (t : Texture2D) :
    (RenderTargetRHI.construct t).calls =
      [.createTexture (auxiliaryTextureDesc "RiveAtomicCoverage" t.GetSizeX t.GetSizeY
          .PF_R32_UINT [.UAV, .Memoryless]),
       .createTexture (auxiliaryTextureDesc "RiveScratchColor" t.GetSizeX t.GetSizeY
          .PF_R8G8B8A8 [.UAV]),
       .createTexture (auxiliaryTextureDesc "RiveClip" t.GetSizeX t.GetSizeY .PF_R32_UINT
          [.UAV]),
       .transition .m_coverageUAV false .Unknown .UAVGraphics,
       .transition .m_scratchColorTexture true .Unknown .UAVGraphics,
       .transition .m_clipTexture true .Unknown .UAVGraphics,
       .transition .m_textureTarget true .Unknown .UAVGraphics,
       .createUnorderedAccessView .m_atomicCoverageTexture true,
       .createUnorderedAccessView .m_clipTexture true,
       .createUnorderedAccessView .m_scratchColorTexture true,
       .createUnorderedAccessView .m_textureTarget true] := by
  rfl

/-- The three auxiliary textures have the extent of the destination texture, and the
only call of the constructor that names a member without a resource is the transition
of `m_coverageUAV`. -/
theorem construct_extents_and_unset (t : Texture2D)
    (hw1 : -2 ^ 31 ≤ t.width) (hw2 : t.width < 2 ^ 31)
    (hh1 : -2 ^ 31 ≤ t.height) (hh2 : t.height < 2 ^ 31) :
    (∀ d ∈ createdTextureDescs (RenderTargetRHI.construct t).calls,
      d.sizeX = t.width ∧ d.sizeY = t.height) ∧
    (createdTextureDescs (RenderTargetRHI.construct t).calls).length = 3 ∧
    (RenderTargetRHI.construct t).calls.filter RenderTargetCall.namesUnsetMember =
      [.transition .m_coverageUAV false .Unknown .UAVGraphics] := by
  rw [construct_calls]
  refine ⟨?_, rfl, rfl⟩
  intro d hd
  simp only [createdTextureDescs, List.mem_cons, List.mem_singleton, List.not_mem_nil,
    or_false] at hd
  rcases hd with rfl | rfl | rfl <;>
    exact ⟨toInt32_toUInt32 _ hw1 hw2, toInt32_toUInt32 _ hh1 hh2⟩

/-- C30, the failing input: in the construction of a target over a 64 by 32 texture the
first transition (call 3) names `m_coverageUAV` while that member holds no view: the
view is created by call 7, after the four transitions. -/
theorem construct_transitions_coverage_view_before_creation :
    (RenderTargetRHI.construct sampleDestinationTexture).calls[3]? =
      some (.transition .m_coverageUAV false .Unknown .UAVGraphics) ∧
    (RenderTargetRHI.construct sampleDestinationTexture).calls[7]? =
      some (.createUnorderedAccessView .m_atomicCoverageTexture true) ∧
    (RenderTargetRHI.construct sampleDestinationTexture).calls.filter
        RenderTargetCall.namesUnsetMember =
      [.transition .m_coverageUAV false .Unknown .UAVGraphics] := by
  decide

/-! ## Reaching a loop iteration -/

/-- A run of two pieces of code: either the first piece passes all its conditions and
the run continues with the second, or a condition of the first piece fails and the run
is that of the first piece alone. -/
theorem runOps_append_cases (a b : List (Step × Op)) :
    ((∀ s ok e, (s, Op.require ok e) ∈ a → ok = true) ∧
      runOps (a ++ b) =
        { issued := emitted a ++ (runOps b).issued, exit := (runOps b).exit }) ∨
    ((∃ s e, (s, Op.require false e) ∈ a) ∧ runOps (a ++ b) = runOps a) := by
  induction a with
  | nil => exact Or.inl ⟨by simp, by simp [emitted]⟩
  | cons o rest ih =>
    obtain ⟨s, o⟩ := o
    cases o with
    | emit c =>
      rcases ih with ⟨hok, h⟩ | ⟨⟨s1, e, hm⟩, h⟩
      · refine Or.inl ⟨?_, by simp [runOps, emitted, h]⟩
        intro s1 ok e hm
        rcases List.mem_cons.mp hm with heq | hm
        · cases heq
        · exact hok s1 ok e hm
      · exact Or.inr ⟨⟨s1, e, List.mem_cons_of_mem _ hm⟩, by simp [runOps, h]⟩
    | require ok e =>
      cases ok with
      | false => exact Or.inr ⟨⟨s, e, List.mem_cons_self _ _⟩, by simp [runOps]⟩
      | true =>
        rcases ih with ⟨hok, h⟩ | ⟨⟨s1, e1, hm⟩, h⟩
        · refine Or.inl ⟨?_, by simp [runOps, emitted, h]⟩
          intro s1 ok1 e1 hm
          rcases List.mem_cons.mp hm with heq | hm
          · cases heq; rfl
          · exact hok s1 ok1 e1 hm
        · exact Or.inr ⟨⟨s1, e1, List.mem_cons_of_mem _ hm⟩, by simp [runOps, h]⟩

/-- The draw loop, cut at the iteration of the batch at position `i`. -/
theorem drawLoopOps_split (k : GpuConstants) (ctx : RenderContextRHIImpl)
    (desc : FlushDescriptor) (l : List DrawBatch) (i j : Nat) (b : DrawBatch)
    (h : l[i]? = some b) :
    drawLoopOps k ctx desc j l =
      drawLoopOps k ctx desc j (l.take i) ++ (inStep (.batch (j + i)) (batchOps k ctx desc b)
        ++ drawLoopOps k ctx desc (j + i + 1) (l.drop (i + 1))) := by
  induction l generalizing i j with
  | nil => simp at h
  | cons x rest ih =>
    cases i with
    | zero =>
      simp only [List.getElem?_cons_zero, Option.some.injEq] at h
      subst h
      simp [drawLoopOps]
    | succ n =>
      simp only [List.getElem?_cons_succ] at h
      have := ih n (j + 1) h
      simp only [drawLoopOps, List.take_succ_cons, List.drop_succ_cons, List.append_assoc]
      rw [this]
      have e1 : j + 1 + n = j + (n + 1) := by omega
      rw [e1]

/-- The code of `flush`, cut at the iteration of the batch at position `i`. -/
theorem flushOps_split (k : GpuConstants) (ctx : RenderContextRHIImpl)
    (desc : FlushDescriptor) (rt : RenderTargetRHI) (i : Nat) (b : DrawBatch)
    (h : desc.drawList[i]? = some b) :
    flushOps k ctx desc rt =
      beforeBatchOps k ctx desc rt i ++ (inStep (.batch i) (batchOps k ctx desc b)
        ++ afterBatchOps k ctx desc i) := by
  rw [flushOps_eq_preLoop_append, loopAndEndOps, drawLoopOps_split k ctx desc _ i 0 b h]
  simp only [beforeBatchOps, afterBatchOps, List.append_assoc, Nat.zero_add]

/-- The code before the iteration of batch `i` belongs to the blocks before the loop or
to the iteration of an earlier batch. -/
theorem step_of_mem_beforeBatchOps {k : GpuConstants} {ctx : RenderContextRHIImpl}
    {desc : FlushDescriptor} {rt : RenderTargetRHI} {i : Nat} {s : Step} {o : Op}
    (h : (s, o) ∈ beforeBatchOps k ctx desc rt i) :
    s.phase < 7 ∨ ∃ j, j < i ∧ s = .batch j := by
  unfold beforeBatchOps at h
  rcases List.mem_append.mp h with h | h
  · left
    rcases mem_preLoopOps.mp h with h | h | h | h | h | h | h <;> rw [h.1] <;> decide
  · right
    obtain ⟨j, b, hj, hs, -⟩ := (mem_drawLoopOps _ 0).mp h
    refine ⟨j, ?_, by simpa using hs⟩
    have := (List.getElem?_eq_some.mp hj).1
    simp only [List.length_take] at this
    omega

theorem step_ne_batch_of_mem_beforeBatchOps {k : GpuConstants} {ctx : RenderContextRHIImpl}
    {desc : FlushDescriptor} {rt : RenderTargetRHI} {i : Nat} {s : Step} {o : Op}
    (h : (s, o) ∈ beforeBatchOps k ctx desc rt i) : s ≠ .batch i := by
  rcases step_of_mem_beforeBatchOps h with hp | ⟨j, hj, hs⟩
  · intro he
    rw [he] at hp
    simp [Step.phase] at hp
  · rw [hs]
    intro he
    injection he with he
    omega

/-- A flush that issues a command of the iteration of batch `i` has passed every
condition before that iteration: its commands are those of the code before the
iteration followed by the run of the rest. -/
theorem flush_reaches_batch {k : GpuConstants} {ctx : RenderContextRHIImpl}
    {desc : FlushDescriptor} {i : Nat} {b : DrawBatch} (hb : desc.drawList[i]? = some b)
    (hx : ∃ x ∈ (flush k ctx desc).issued, x.step = .batch i) :
    ∃ rt, desc.renderTarget = some rt ∧
      (∀ s ok e, (s, Op.require ok e) ∈ beforeBatchOps k ctx desc rt i → ok = true) ∧
      flush k ctx desc =
        { issued := emitted (beforeBatchOps k ctx desc rt i) ++
            (runOps (inStep (.batch i) (batchOps k ctx desc b)
              ++ afterBatchOps k ctx desc i)).issued,
          exit := (runOps (inStep (.batch i) (batchOps k ctx desc b)
              ++ afterBatchOps k ctx desc i)).exit } := by
  obtain ⟨x, hx, hstep⟩ := hx
  cases hrt : desc.renderTarget with
  | none => simp [flush, hrt] at hx
  | some rt =>
    have hflush : flush k ctx desc = runOps (beforeBatchOps k ctx desc rt i ++
        (inStep (.batch i) (batchOps k ctx desc b) ++ afterBatchOps k ctx desc i)) := by
      simp only [flush, hrt]
      rw [flushOps_split k ctx desc rt i b hb]
    rcases runOps_append_cases (beforeBatchOps k ctx desc rt i)
      (inStep (.batch i) (batchOps k ctx desc b) ++ afterBatchOps k ctx desc i) with
      ⟨hok, h⟩ | ⟨-, h⟩
    · exact ⟨rt, rfl, hok, by rw [hflush, h]⟩
    · exfalso
      rw [hflush, h] at hx
      have hm := mem_issued_runOps hx
      exact step_ne_batch_of_mem_beforeBatchOps hm hstep

/-- The commands that a list of steps issues from one block: those of its emitted
commands. -/
theorem issuedIn_batch_before {k : GpuConstants} {ctx : RenderContextRHIImpl}
    {desc : FlushDescriptor} {rt : RenderTargetRHI} (i : Nat) :
    issuedIn (.batch i) (emitted (beforeBatchOps k ctx desc rt i)) = [] := by
  apply issuedIn_eq_nil_of_step_ne
  intro x hx
  exact step_ne_batch_of_mem_beforeBatchOps (mem_emitted.mp hx)

theorem step_of_mem_afterBatchOps {k : GpuConstants} {ctx : RenderContextRHIImpl}
    {desc : FlushDescriptor} {i : Nat} {s : Step} {o : Op}
    (h : (s, o) ∈ afterBatchOps k ctx desc i) :
    s = .endDrawPass ∨ ∃ j, i < j ∧ s = .batch j := by
  unfold afterBatchOps at h
  rcases List.mem_append.mp h with h | h
  · right
    obtain ⟨j, b, -, hs, -⟩ := (mem_drawLoopOps _ (i + 1)).mp h
    exact ⟨i + 1 + j, by omega, hs⟩
  · left
    exact (mem_inStep.mp h).1

theorem step_ne_batch_of_mem_afterBatchOps {k : GpuConstants} {ctx : RenderContextRHIImpl}
    {desc : FlushDescriptor} {i : Nat} {s : Step} {o : Op}
    (h : (s, o) ∈ afterBatchOps k ctx desc i) : s ≠ .batch i := by
  rcases step_of_mem_afterBatchOps h with hs | ⟨j, hj, hs⟩
  · rw [hs]; simp
  · rw [hs]
    intro he
    injection he with he
    omega

/-- In a flush that runs to its end, the commands of the iteration of a batch are the
commands of the loop body for that batch. -/
theorem issuedIn_batch_of_completed {k : GpuConstants} {ctx : RenderContextRHIImpl}
    {desc : FlushDescriptor} {i : Nat} {b : DrawBatch} (hb : desc.drawList[i]? = some b)
    (hc : (flush k ctx desc).exit = .completed) :
    issuedIn (.batch i) (flush k ctx desc).issued = cmdsOf (batchOps k ctx desc b) := by
  cases hrt : desc.renderTarget with
  | none => simp [flush, hrt] at hc
  | some rt =>
    have hflush : flush k ctx desc = runOps (flushOps k ctx desc rt) := by
      simp only [flush, hrt]
    rw [hflush] at hc ⊢
    have hiss := (runOps_completed _ (fun s ok e hm => flushOps_require_ne_completed hm) hc).2
    rw [hiss, flushOps_split k ctx desc rt i b hb, emitted_append, emitted_append,
      issuedIn_append, issuedIn_append, issuedIn_batch_before, issuedIn_emitted_inStep_self]
    have : issuedIn (.batch i) (emitted (afterBatchOps k ctx desc i)) = [] := by
      apply issuedIn_eq_nil_of_step_ne
      intro x hx
      exact step_ne_batch_of_mem_afterBatchOps (mem_emitted.mp hx)
    rw [this]
    simp

/-! ## Batches of a draw type that this mode does not draw -/

theorem batchOps_eq_transitions_append (k : GpuConstants) (ctx : RenderContextRHIImpl)
    (desc : FlushDescriptor) (b : DrawBatch) (h0 : b.elementCount ≠ 0) :
    batchOps k ctx desc b = batchTransitionOps desc ++ drawTypeOps k ctx desc b := by
  unfold batchOps batchTransitionOps
  simp [h0]

theorem batchOps_eq_nil (k : GpuConstants) (ctx : RenderContextRHIImpl)
    (desc : FlushDescriptor) (b : DrawBatch) (h0 : b.elementCount = 0) :
    batchOps k ctx desc b = [] := by
  unfold batchOps
  simp [h0]

theorem batchTransitionOps_no_require {desc : FlushDescriptor} {s : Step} {ok : Bool}
    {e : Exit} (h : (s, Op.require ok e) ∈ inStep s (batchTransitionOps desc)) : ok = true := by
  have := (mem_inStep.mp h).2
  unfold batchTransitionOps at this
  aesop

theorem drawTypeOps_invalid (k : GpuConstants) (ctx : RenderContextRHIImpl)
    (desc : FlushDescriptor) (b : DrawBatch)
    (ht : b.drawType = .gpuAtomicInitialize ∨ b.drawType = .stencilClipReset) :
    drawTypeOps k ctx desc b = [.require false (.fatal .unreachable)] := by
  unfold drawTypeOps
  rcases ht with ht | ht <;> rw [ht]

theorem inStep_append (s : Step) (a b : List Op) :
    inStep s (a ++ b) = inStep s a ++ inStep s b := by
  simp [inStep]

/-- The code of `flush` up to and including the transitions of the iteration of batch
`i` issues commands of the blocks before the loop and of the iterations up to `i`. -/
theorem step_of_mem_before_and_transitions {k : GpuConstants} {ctx : RenderContextRHIImpl}
    {desc : FlushDescriptor} {rt : RenderTargetRHI} {i : Nat} {s : Step} {o : Op}
    (h : (s, o) ∈ beforeBatchOps k ctx desc rt i ++ inStep (.batch i) (batchTransitionOps desc)) :
    s ≠ .endDrawPass ∧ ∀ j, s = .batch j → j ≤ i := by
  rcases List.mem_append.mp h with h | h
  · rcases step_of_mem_beforeBatchOps h with hp | ⟨j, hj, hs⟩
    · constructor
      · intro he; rw [he] at hp; simp [Step.phase] at hp
      · intro j he; rw [he] at hp; simp [Step.phase] at hp
    · rw [hs]
      refine ⟨by simp, ?_⟩
      intro j1 he
      injection he with he
      omega
  · rw [(mem_inStep.mp h).1]
    refine ⟨by simp, ?_⟩
    intro j he
    injection he with he
    omega

/-- Counterexample to C21: a draw list that holds a `gpuAtomicInitialize` batch and a
`stencilClipReset` batch, both with `elementCount = 0`: the flush skips both and runs
to its end, ending its render pass. -/
theorem flush_skips_invalid_batch_without_elements :
    zeroElementInvalidDescriptor.drawList =
      [plainBatch .gpuAtomicInitialize 0 0, plainBatch .stencilClipReset 0 0] ∧
    (flush sampleConstants sampleContext zeroElementInvalidDescriptor).exit = .completed ∧
    (flush sampleConstants sampleContext zeroElementInvalidDescriptor).issued.getLast? =
      some ⟨.endDrawPass, .transition .destTexture .RTV .UAVGraphics⟩ := by
  decide

/-- C21 (amended): for a batch of draw type `gpuAtomicInitialize` or `stencilClipReset`
with `elementCount > 0` at position `i` of the draw list, the flush does not run to its
end; when it reaches the iteration of that batch (it issues a command of that
iteration) it stops in the unreachable condition, after the transitions at the top of
the iteration and nothing else of it; and it issues no command of a later iteration nor
of the end of the render pass. -/
theorem flush_invalid_draw_type (k : GpuConstants) (ctx : RenderContextRHIImpl)
    (desc : FlushDescriptor) (i : Nat) (b : DrawBatch) (hb : desc.drawList[i]? = some b)
    (ht : b.drawType = .gpuAtomicInitialize ∨ b.drawType = .stencilClipReset)
    (h0 : b.elementCount ≠ 0) :
    (flush k ctx desc).exit ≠ .completed ∧
    ((∃ x ∈ (flush k ctx desc).issued, x.step = .batch i) →
      (flush k ctx desc).exit = .fatal .unreachable ∧
      issuedIn (.batch i) (flush k ctx desc).issued = cmdsOf (batchTransitionOps desc)) ∧
    (∀ x ∈ (flush k ctx desc).issued,
      x.step ≠ .endDrawPass ∧ ∀ j, x.step = .batch j → j ≤ i) := by
  have hops : batchOps k ctx desc b =
      batchTransitionOps desc ++ [.require false (.fatal .unreachable)] := by
    rw [batchOps_eq_transitions_append k ctx desc b h0, drawTypeOps_invalid k ctx desc b ht]
  have hrun : ∀ rest : List (Step × Op),
      runOps (inStep (.batch i) (batchOps k ctx desc b) ++ rest) =
        { issued := emitted (inStep (.batch i) (batchTransitionOps desc)),
          exit := .fatal .unreachable } := by
    intro rest
    rw [hops, inStep_append, List.append_assoc,
      runOps_append_of_requires_ok _ _ (fun s ok e hm => by
        have hs := (mem_inStep.mp hm).1
        subst hs
        exact batchTransitionOps_no_require hm)]
    simp [inStep, runOps]
  refine ⟨?_, ?_, ?_⟩
  · intro hc
    cases hrt : desc.renderTarget with
    | none => simp [flush, hrt] at hc
    | some rt =>
      have hflush : flush k ctx desc = runOps (flushOps k ctx desc rt) := by
        simp only [flush, hrt]
      rw [hflush] at hc
      have hok := (runOps_completed _ (fun s ok e hm => flushOps_require_ne_completed hm) hc).1
      have hm : (Step.batch i, Op.require false (.fatal .unreachable)) ∈
          flushOps k ctx desc rt := by
        rw [mem_flushOps]
        refine Or.inr (Or.inr (Or.inr (Or.inr (Or.inr (Or.inr (Or.inr (Or.inl
          ⟨i, b, hb, rfl, ?_⟩)))))))
        rw [hops]
        simp
      exact absurd (hok _ _ _ hm) (by simp)
  · intro hx
    obtain ⟨rt, -, -, hflush⟩ := flush_reaches_batch hb hx
    rw [hflush, hrun]
    refine ⟨rfl, ?_⟩
    simp only [issuedIn_append, issuedIn_batch_before, issuedIn_emitted_inStep_self,
      List.nil_append]
  · intro x hx
    cases hrt : desc.renderTarget with
    | none => simp [flush, hrt] at hx
    | some rt =>
      have hflush : flush k ctx desc = runOps
          ((beforeBatchOps k ctx desc rt i ++ inStep (.batch i) (batchTransitionOps desc)) ++
            ((Step.batch i, Op.require false (.fatal .unreachable)) ::
              afterBatchOps k ctx desc i)) := by
        simp only [flush, hrt]
        rw [flushOps_split k ctx desc rt i b hb, hops, inStep_append]
        simp [inStep]
      rw [hflush] at hx
      have hmem : (x.step, Op.emit x.cmd) ∈
          beforeBatchOps k ctx desc rt i ++ inStep (.batch i) (batchTransitionOps desc) := by
        rcases runOps_append_cases
          (beforeBatchOps k ctx desc rt i ++ inStep (.batch i) (batchTransitionOps desc))
          ((Step.batch i, Op.require false (.fatal .unreachable)) ::
            afterBatchOps k ctx desc i) with ⟨-, h⟩ | ⟨-, h⟩
        · rw [h] at hx
          simp only [runOps, List.append_nil] at hx
          exact mem_emitted.mp (by simpa using hx)
        · rw [h] at hx
          exact mem_issued_runOps hx
      exact step_of_mem_before_and_transitions hmem

/-- C21 (amended) at a concrete flush: a triangulation batch, then a `stencilClipReset`
batch of one element, then a resolve batch; the flush reaches the second batch and stops
there in the unreachable condition. -/
theorem flush_invalid_draw_type_witness :
    invalidBatchDescriptor.drawList[1]? = some (plainBatch .stencilClipReset 1 0) ∧
    (∃ x ∈ (flush sampleConstants sampleContext invalidBatchDescriptor).issued,
      x.step = .batch 1) ∧
    (flush sampleConstants sampleContext invalidBatchDescriptor).exit = .fatal .unreachable ∧
    issuedIn (.batch 1) (flush sampleConstants sampleContext invalidBatchDescriptor).issued =
      [.transition .coverageUAV .UAVGraphics .UAVGraphics] ∧
    (∀ x ∈ (flush sampleConstants sampleContext invalidBatchDescriptor).issued,
      x.step ≠ .endDrawPass ∧ ∀ j, x.step = .batch j → j ≤ 1) :=
  ⟨rfl, ⟨⟨.batch 1, .transition .coverageUAV .UAVGraphics .UAVGraphics⟩, by decide, rfl⟩,
    ((flush_invalid_draw_type sampleConstants sampleContext invalidBatchDescriptor 1
      (plainBatch .stencilClipReset 1 0) rfl (Or.inr rfl) (by decide)).2.1
        ⟨⟨.batch 1, .transition .coverageUAV .UAVGraphics .UAVGraphics⟩, by decide, rfl⟩).1,
    ((flush_invalid_draw_type sampleConstants sampleContext invalidBatchDescriptor 1
      (plainBatch .stencilClipReset 1 0) rfl (Or.inr rfl) (by decide)).2.1
        ⟨⟨.batch 1, .transition .coverageUAV .UAVGraphics .UAVGraphics⟩, by decide, rfl⟩).2,
    (flush_invalid_draw_type sampleConstants sampleContext invalidBatchDescriptor 1
      (plainBatch .stencilClipReset 1 0) rfl (Or.inr rfl) (by decide)).2.2⟩

/-! ## Pipelines and draws of the loop iterations -/

/-- Every pipeline state set by a loop iteration carries the permutations of
`desc.combinedShaderFeatures` and the blend state of the draw pass. -/
theorem batchOps_pipeline {k : GpuConstants} {ctx : RenderContextRHIImpl}
    {desc : FlushDescriptor} {b : DrawBatch} {pso : PipelineState}
    (hm : Op.emit (.setGraphicsPipelineState pso) ∈ batchOps k ctx desc b) :
    pso.pixelPermutation = some (GetPermutationForFeatures desc.combinedShaderFeatures
      AtomicPixelPermutationDomain.default AtomicVertexPermutationDomain.default).1 ∧
    pso.vertexPermutation = some (GetPermutationForFeatures desc.combinedShaderFeatures
      AtomicPixelPermutationDomain.default AtomicVertexPermutationDomain.default).2 ∧
    pso.blendState = drawPassBlendState desc.combinedShaderFeatures := by
  unfold batchOps drawTypeOps at hm
  simp only [deref, syncIfPresent, sharedPixelBindings, batchPipelineState] at *
  aesop

/-- The resolve pipeline is set only by the iteration of a `gpuAtomicResolve` batch
with elements. -/
theorem batchOps_resolve_pipeline {k : GpuConstants} {ctx : RenderContextRHIImpl}
    {desc : FlushDescriptor} {b : DrawBatch} {pso : PipelineState}
    (hm : Op.emit (.setGraphicsPipelineState pso) ∈ batchOps k ctx desc b)
    (hs : pso.shaders = .atomicResolve) :
    b.drawType = .gpuAtomicResolve ∧ b.elementCount ≠ 0 := by
  unfold batchOps drawTypeOps at hm
  simp only [deref, syncIfPresent, sharedPixelBindings, batchPipelineState] at *
  aesop

theorem eq_pipeline_of_boundShaders {c : Cmd} {s : ShaderPair}
    (h : c.boundShaders = some s) : ∃ pso, c = .setGraphicsPipelineState pso ∧ pso.shaders = s := by
  cases c with
  | setGraphicsPipelineState pso =>
    simp only [Cmd.boundShaders, Option.some.injEq] at h
    exact ⟨pso, rfl, h⟩
  | _ => simp [Cmd.boundShaders] at h

theorem gradientPassOps_pipeline {k : GpuConstants} {ctx : RenderContextRHIImpl}
    {desc : FlushDescriptor} {pso : PipelineState}
    (hm : Op.emit (.setGraphicsPipelineState pso) ∈ gradientPassOps k ctx desc) :
    pso.shaders = .gradient := by
  unfold gradientPassOps at hm
  simp only [check, deref] at hm
  aesop

theorem tessellationPassOps_pipeline {k : GpuConstants} {ctx : RenderContextRHIImpl}
    {desc : FlushDescriptor} {pso : PipelineState}
    (hm : Op.emit (.setGraphicsPipelineState pso) ∈ tessellationPassOps k ctx desc) :
    pso.shaders = .tessellation := by
  unfold tessellationPassOps at hm
  simp only [check, deref] at hm
  aesop

theorem no_pipeline_in_uploadOps {ctx : RenderContextRHIImpl} {desc : FlushDescriptor}
    {pso : PipelineState} (hm : Op.emit (.setGraphicsPipelineState pso) ∈ uploadOps ctx desc) :
    False := by
  unfold uploadOps at hm
  simp only [check, syncIfPresent] at hm
  aesop

theorem no_pipeline_in_auxClearOps {desc : FlushDescriptor} {pso : PipelineState}
    (hm : Op.emit (.setGraphicsPipelineState pso) ∈ auxClearOps desc) : False := by
  unfold auxClearOps at hm
  aesop

theorem no_pipeline_in_simpleGradientCopyOps {k : GpuConstants} {ctx : RenderContextRHIImpl}
    {desc : FlushDescriptor} {pso : PipelineState}
    (hm : Op.emit (.setGraphicsPipelineState pso) ∈ simpleGradientCopyOps k ctx desc) :
    False := by
  unfold simpleGradientCopyOps at hm
  simp only [check, deref] at hm
  aesop

theorem no_pipeline_in_clearDestinationOps {desc : FlushDescriptor} {pso : PipelineState}
    (hm : Op.emit (.setGraphicsPipelineState pso) ∈ clearDestinationOps desc) : False := by
  unfold clearDestinationOps at hm
  aesop

theorem no_pipeline_in_beginDrawPassOps {desc : FlushDescriptor} {rt : RenderTargetRHI}
    {pso : PipelineState}
    (hm : Op.emit (.setGraphicsPipelineState pso) ∈ beginDrawPassOps desc rt) : False := by
  unfold beginDrawPassOps at hm
  aesop

theorem no_pipeline_in_endDrawPassOps {desc : FlushDescriptor} {pso : PipelineState}
    (hm : Op.emit (.setGraphicsPipelineState pso) ∈ endDrawPassOps desc) : False := by
  unfold endDrawPassOps at hm
  aesop

/-- Where `flush` sets the resolve pipeline: in the iteration of a `gpuAtomicResolve`
batch with elements. -/
theorem resolve_pipeline_of_issued {k : GpuConstants} {ctx : RenderContextRHIImpl}
    {desc : FlushDescriptor} {x : Issued} (hx : x ∈ (flush k ctx desc).issued)
    (hs : x.cmd.boundShaders = some .atomicResolve) :
    ∃ (i : Nat) (b : DrawBatch), x.step = .batch i ∧ desc.drawList[i]? = some b ∧
      b.drawType = .gpuAtomicResolve ∧ b.elementCount ≠ 0 := by
  obtain ⟨pso, hc, hsh⟩ := eq_pipeline_of_boundShaders hs
  obtain ⟨rt, -, hm⟩ := mem_flush_issued hx
  rw [hc] at hm
  rcases mem_flushOps.mp hm with h | h | h | h | h | h | h | ⟨j, b, hb, hstep, hmem⟩ | h
  · exact (no_pipeline_in_uploadOps h.2).elim
  · exact (no_pipeline_in_auxClearOps h.2).elim
  · have := gradientPassOps_pipeline h.2
    rw [hsh] at this
    cases this
  · exact (no_pipeline_in_simpleGradientCopyOps h.2).elim
  · have := tessellationPassOps_pipeline h.2
    rw [hsh] at this
    cases this
  · exact (no_pipeline_in_clearDestinationOps h.2).elim
  · exact (no_pipeline_in_beginDrawPassOps h.2).elim
  · obtain ⟨h1, h2⟩ := batchOps_resolve_pipeline hmem hsh
    exact ⟨j, b, hstep, hb, h1, h2⟩
  · exact (no_pipeline_in_endDrawPassOps h.2).elim

/-- The commands of the loop body for a resolve batch with elements. -/
theorem cmdsOf_batchOps_resolve (k : GpuConstants) (ctx : RenderContextRHIImpl)
    (desc : FlushDescriptor) (b : DrawBatch) (ht : b.drawType = .gpuAtomicResolve)
    (h0 : b.elementCount ≠ 0) :
    cmdsOf (batchOps k ctx desc b) =
      cmdsOf (batchTransitionOps desc) ++
        [.setGraphicsPipelineState
            (batchPipelineState desc .atomicResolve .Resolve .PT_TriangleStrip
              .solidNoneDepthClip),
         .setShaderParameters .vertex [.FlushUniforms],
         .setShaderParameters .pixel ([.gradTexture, .gradSampler] ++ sharedPixelBindings),
         .drawPrimitive 0 2 1] := by
  rw [batchOps_eq_transitions_append k ctx desc b h0, cmdsOf_append]
  congr 1
  unfold drawTypeOps
  rw [ht]
  simp [cmdsOf, deref]

/-- The commands of the loop body for a patch batch with elements. -/
theorem cmdsOf_batchOps_patches (k : GpuConstants) (ctx : RenderContextRHIImpl)
    (desc : FlushDescriptor) (b : DrawBatch)
    (ht : b.drawType = .midpointFanPatches ∨ b.drawType = .outerCurvePatches)
    (h0 : b.elementCount ≠ 0) :
    cmdsOf (batchOps k ctx desc b) =
      cmdsOf (batchTransitionOps desc) ++
        [.setGraphicsPipelineState
            (batchPipelineState desc .path .Paths .PT_TriangleList .staticSolidCCW),
         .setShaderParameters .vertex
            [.FlushUniforms, .tessVertexTexture, .pathBuffer, .contourBuffer,
             .baseInstance b.baseElement],
         .setShaderParameters .pixel
            ([.FlushUniforms, .gradSampler, .gradTexture] ++ sharedPixelBindings),
         .setStreamSource 0 .patchVertexBuffer 0,
         .drawIndexedPrimitive .patchIndexBuffer 0 0 k.kPatchVertexBufferCount
            (k.PatchBaseIndex b.drawType) (k.PatchIndexCount b.drawType / 3)
            b.elementCount] := by
  rw [batchOps_eq_transitions_append k ctx desc b h0, cmdsOf_append]
  congr 1
  unfold drawTypeOps
  rcases ht with ht | ht <;> rw [ht] <;> simp [cmdsOf, deref]

/-- The conditions of the loop body for a patch batch hold when the five buffers that
the patch case dereferences are allocated. -/
theorem batchOps_patches_requires_ok {k : GpuConstants} {ctx : RenderContextRHIImpl}
    {desc : FlushDescriptor} {b : DrawBatch}
    (ht : b.drawType = .midpointFanPatches ∨ b.drawType = .outerCurvePatches)
    (h1 : ctx.m_flushUniformBuffer.isSome = true) (h2 : ctx.m_paintAuxBuffer.isSome = true)
    (h3 : ctx.m_paintBuffer.isSome = true) (h4 : ctx.m_pathBuffer.isSome = true)
    (h5 : ctx.m_contourBuffer.isSome = true) {ok : Bool} {e : Exit}
    (hm : Op.require ok e ∈ batchOps k ctx desc b) : ok = true := by
  unfold batchOps drawTypeOps at hm
  rcases ht with ht | ht <;> simp only [ht, deref] at hm <;> aesop

/-- A draw call of the loop body for a patch batch is the indexed draw over the patch
index buffer. -/
theorem batchOps_patches_draw {k : GpuConstants} {ctx : RenderContextRHIImpl}
    {desc : FlushDescriptor} {b : DrawBatch} {c : Cmd}
    (ht : b.drawType = .midpointFanPatches ∨ b.drawType = .outerCurvePatches)
    (hm : Op.emit c ∈ batchOps k ctx desc b) (hd : c.isDraw = true) :
    c = .drawIndexedPrimitive .patchIndexBuffer 0 0 k.kPatchVertexBufferCount
      (k.PatchBaseIndex b.drawType) (k.PatchIndexCount b.drawType / 3) b.elementCount := by
  unfold batchOps drawTypeOps at hm
  rcases ht with ht | ht <;> simp only [ht, deref] at hm <;>
    simp only [Cmd.isDraw] at * <;> aesop

/-- A flush that reaches the iteration of a batch whose conditions all hold issues, for
that iteration, the commands of the loop body. -/
theorem issuedIn_batch_of_reached {k : GpuConstants} {ctx : RenderContextRHIImpl}
    {desc : FlushDescriptor} {i : Nat} {b : DrawBatch} (hb : desc.drawList[i]? = some b)
    (hx : ∃ x ∈ (flush k ctx desc).issued, x.step = .batch i)
    (hok : ∀ ok e, Op.require ok e ∈ batchOps k ctx desc b → ok = true) :
    issuedIn (.batch i) (flush k ctx desc).issued = cmdsOf (batchOps k ctx desc b) := by
  obtain ⟨rt, -, -, hflush⟩ := flush_reaches_batch hb hx
  rw [hflush, runOps_append_of_requires_ok _ _
    (fun s ok e hm => hok ok e (mem_inStep.mp hm).2)]
  simp only [issuedIn_append, issuedIn_batch_before, issuedIn_emitted_inStep_self,
    List.nil_append]
  have : issuedIn (.batch i) (runOps (afterBatchOps k ctx desc i)).issued = [] := by
    apply issuedIn_eq_nil_of_step_ne
    intro x hx
    exact step_ne_batch_of_mem_afterBatchOps (mem_issued_runOps hx)
  rw [this, List.append_nil]

/-- The commands that any flush issues for the iteration of a batch form a subsequence
of the commands of the loop body. -/
theorem issuedIn_batch_sublist {k : GpuConstants} {ctx : RenderContextRHIImpl}
    {desc : FlushDescriptor} {i : Nat} {b : DrawBatch} (hb : desc.drawList[i]? = some b) :
    (issuedIn (.batch i) (flush k ctx desc).issued).Sublist (cmdsOf (batchOps k ctx desc b)) := by
  cases hrt : desc.renderTarget with
  | none => simp [flush, hrt, issuedIn]
  | some rt =>
    have hflush : flush k ctx desc = runOps (flushOps k ctx desc rt) := by
      simp only [flush, hrt]
    have hsub := runOps_issued_sublist (flushOps k ctx desc rt)
    have h1 : (issuedIn (.batch i) (runOps (flushOps k ctx desc rt)).issued).Sublist
        (issuedIn (.batch i) (emitted (flushOps k ctx desc rt))) := by
      unfold issuedIn
      exact (hsub.filter _).map _
    rw [hflush]
    have h2 : issuedIn (.batch i) (emitted (flushOps k ctx desc rt)) =
        cmdsOf (batchOps k ctx desc b) := by
      rw [flushOps_split k ctx desc rt i b hb, emitted_append, emitted_append,
        issuedIn_append, issuedIn_append, issuedIn_batch_before, issuedIn_emitted_inStep_self]
      have : issuedIn (.batch i) (emitted (afterBatchOps k ctx desc i)) = [] := by
        apply issuedIn_eq_nil_of_step_ne
        intro x hx
        exact step_ne_batch_of_mem_afterBatchOps (mem_emitted.mp hx)
      rw [this]
      simp
    rw [← h2]
    exact h1

theorem filter_isDraw_cmdsOf (ops : List Op) :
    ((cmdsOf ops).filter Cmd.isDraw).length = (ops.filter Op.isDraw).length := by
  induction ops with
  | nil => rfl
  | cons o rest ih =>
    cases o with
    | emit c =>
      by_cases hd : c.isDraw = true
      · simp [cmdsOf, Op.isDraw, hd, ih]
      · simp [cmdsOf, Op.isDraw, hd, ih]
    | require ok e => simp [cmdsOf, Op.isDraw, ih]

/-! ## The resolve draw -/

/-- Counterexample to C22: with `ENABLE_ADVANCED_BLEND` set and an empty draw list the
flush runs to its end without any draw call and without setting the resolve pipeline. -/
theorem flush_advanced_blend_without_resolve :
    advancedBlendPreserveDescriptor.combinedShaderFeatures.ENABLE_ADVANCED_BLEND = true ∧
    advancedBlendPreserveDescriptor.drawList = [] ∧
    (flush sampleConstants sampleContext advancedBlendPreserveDescriptor).exit = .completed ∧
    (flushCmds sampleConstants sampleContext advancedBlendPreserveDescriptor).filter
      Cmd.isDraw = [] ∧
    (flushCmds sampleConstants sampleContext advancedBlendPreserveDescriptor).filterMap
      Cmd.boundShaders = [] := by
  decide

/-- C22 (amended): `flush` sets the resolve pipeline only in the iteration of a
`gpuAtomicResolve` batch with `elementCount > 0` of the draw list, so not at all for an
empty list or a list without such a batch, also with `ENABLE_ADVANCED_BLEND`; a flush
that runs to its end issues for every such batch, after the transitions of the
iteration, the resolve pipeline (triangle strip), its parameters and the draw
`DrawPrimitive(0, 2, 1)` of one instance; and the draw calls of the batches before it
in the list are issued before its draw. -/
theorem flush_resolve_draw (k : GpuConstants) (ctx : RenderContextRHIImpl)
    (desc : FlushDescriptor) :
    (∀ x ∈ (flush k ctx desc).issued, x.cmd.boundShaders = some .atomicResolve →
      ∃ (i : Nat) (b : DrawBatch), x.step = .batch i ∧ desc.drawList[i]? = some b ∧
        b.drawType = .gpuAtomicResolve ∧ b.elementCount ≠ 0) ∧
    ((flush k ctx desc).exit = .completed →
      ∀ (i : Nat) (b : DrawBatch), desc.drawList[i]? = some b →
        b.drawType = .gpuAtomicResolve → b.elementCount ≠ 0 →
        issuedIn (.batch i) (flush k ctx desc).issued =
          cmdsOf (batchTransitionOps desc) ++
            [.setGraphicsPipelineState
                (batchPipelineState desc .atomicResolve .Resolve .PT_TriangleStrip
                  .solidNoneDepthClip),
             .setShaderParameters .vertex [.FlushUniforms],
             .setShaderParameters .pixel
                ([.gradTexture, .gradSampler] ++ sharedPixelBindings),
             .drawPrimitive 0 2 1]) ∧
    (∀ (i j p q : Nat) (x y : Issued), (flush k ctx desc).issued[p]? = some x →
      (flush k ctx desc).issued[q]? = some y → x.isDrawOfBatch j → y.isDrawOfBatch i →
      j < i → p < q) := by
  refine ⟨fun x hx hs => resolve_pipeline_of_issued hx hs, ?_, ?_⟩
  · intro hc i b hb ht h0
    rw [issuedIn_batch_of_completed hb hc, cmdsOf_batchOps_resolve k ctx desc b ht h0]
  · intro i j p q x y hp hq hx hy hji
    exact position_lt_of_pairwise (pairwise_flush_issued k ctx desc) hji hp hx hq hy

/-- C22 (amended) at a concrete flush: with `ENABLE_ADVANCED_BLEND`, a triangulation
batch and a final resolve batch, the flush runs to its end and the iteration of the
resolve batch issues the resolve pipeline and the single-instance strip draw. -/
theorem flush_resolve_draw_witness :
    advancedBlendResolveDescriptor.combinedShaderFeatures.ENABLE_ADVANCED_BLEND = true ∧
    (flush sampleConstants sampleContext advancedBlendResolveDescriptor).exit = .completed ∧
    issuedIn (.batch 1)
        (flush sampleConstants sampleContext advancedBlendResolveDescriptor).issued =
      [.transition .coverageUAV .UAVGraphics .UAVGraphics,
       .transition .targetUAV .UAVGraphics .UAVGraphics,
       .setGraphicsPipelineState
          (batchPipelineState advancedBlendResolveDescriptor .atomicResolve .Resolve
            .PT_TriangleStrip .solidNoneDepthClip),
       .setShaderParameters .vertex [.FlushUniforms],
       .setShaderParameters .pixel ([.gradTexture, .gradSampler] ++ sharedPixelBindings),
       .drawPrimitive 0 2 1] :=
  ⟨rfl, by decide,
    (flush_resolve_draw sampleConstants sampleContext advancedBlendResolveDescriptor).2.1
      (by decide) 1 (plainBatch .gpuAtomicResolve 1 0) rfl rfl (by decide)⟩

/-- The render pass info of the draw pass of a flush that does not stop fatally. -/
theorem renderPassInfosOf_of_not_fatal {k : GpuConstants} {ctx : RenderContextRHIImpl}
    {desc : FlushDescriptor} (h : (flush k ctx desc).exit.isFatal = false) :
    ∃ rt, desc.renderTarget = some rt ∧
      renderPassInfosOf .Rive_Render_Flush (flush k ctx desc).issued =
        [if !desc.combinedShaderFeatures.ENABLE_ADVANCED_BLEND then
            .colorTarget .destTexture (loadActionFor desc.colorLoadAction)
          else .resolveRect 0 0 rt.width rt.height] := by
  obtain ⟨rt, hrt, -, -, -, -, -, -, hb⟩ := issuedIn_preLoop_of_not_fatal h
  refine ⟨rt, hrt, ?_⟩
  unfold renderPassInfosOf
  rw [filterMap_cmd_eq_of_step _ .beginDrawPass _
    (fun x hx hne => (step_of_issued_kind hx).2.2.2.1 hne), hb,
    renderPassInfos_beginDrawPassOps]

/-- Counterexample to C23: without `ENABLE_ADVANCED_BLEND`, a draw list that holds a
`gpuAtomicResolve` batch with one element makes the flush set the resolve pipeline and
issue the resolve draw. -/
theorem flush_resolve_without_advanced_blend :
    twoBatchDescriptor.combinedShaderFeatures.ENABLE_ADVANCED_BLEND = false ∧
    twoBatchDescriptor.drawList =
      [plainBatch .interiorTriangulation 6 0, plainBatch .gpuAtomicResolve 1 0] ∧
    (flush sampleConstants sampleContext twoBatchDescriptor).exit = .completed ∧
    (issuedIn (.batch 1)
      (flush sampleConstants sampleContext twoBatchDescriptor).issued).filterMap
        Cmd.boundShaders = [.atomicResolve] ∧
    (issuedIn (.batch 1)
      (flush sampleConstants sampleContext twoBatchDescriptor).issued).filter Cmd.isDraw =
        [.drawPrimitive 0 2 1] := by
  decide

/-- C23 (amended): for a descriptor without `ENABLE_ADVANCED_BLEND`, `flush` sets the
resolve pipeline only for a `gpuAtomicResolve` batch with `elementCount > 0`, so a draw
list without such a batch gets no resolve draw; every pipeline set in the draw loop has
the fixed-function blend state (One, InverseSourceAlpha); and a flush that does not stop
fatally begins its draw pass once, with the destination texture as colour target. -/
theorem flush_fixed_function_blend (k : GpuConstants) (ctx : RenderContextRHIImpl)
    (desc : FlushDescriptor)
    (hadv : desc.combinedShaderFeatures.ENABLE_ADVANCED_BLEND = false) :
    ((∀ b ∈ desc.drawList, b.drawType = .gpuAtomicResolve → b.elementCount = 0) →
      ∀ x ∈ (flush k ctx desc).issued, x.cmd.boundShaders ≠ some .atomicResolve) ∧
    (∀ x ∈ (flush k ctx desc).issued, ∀ (i : Nat) (pso : PipelineState),
      x.step = .batch i → x.cmd = .setGraphicsPipelineState pso →
      pso.blendState = .fixedFunctionOneInverseSourceAlpha) ∧
    ((flush k ctx desc).exit.isFatal = false →
      renderPassInfosOf .Rive_Render_Flush (flush k ctx desc).issued =
        [.colorTarget .destTexture (loadActionFor desc.colorLoadAction)]) := by
  refine ⟨?_, ?_, ?_⟩
  · intro hnone x hx hs
    obtain ⟨i, b, -, hb, ht, h0⟩ := resolve_pipeline_of_issued hx hs
    exact h0 (hnone b (List.getElem?_mem hb) ht)
  · intro x hx i pso hstep hc
    obtain ⟨b, -, hm⟩ := (block_of_issued hx).2.2.2.2.2.2.2.1 i hstep
    rw [hc] at hm
    rw [(batchOps_pipeline hm).2.2]
    simp [drawPassBlendState, hadv]
  · intro h
    obtain ⟨rt, -, hinfo⟩ := renderPassInfosOf_of_not_fatal h
    rw [hinfo, hadv]
    rfl

/-- C23 (amended) at a concrete flush: the descriptor with work for every step has no
advanced blend and no resolve batch: no resolve pipeline is set and the draw pass has
the destination texture as colour target. -/
theorem flush_fixed_function_blend_witness :
    allPassesDescriptor.combinedShaderFeatures.ENABLE_ADVANCED_BLEND = false ∧
    (∀ x ∈ (flush sampleConstants sampleContext allPassesDescriptor).issued,
      x.cmd.boundShaders ≠ some .atomicResolve) ∧
    renderPassInfosOf .Rive_Render_Flush
      (flush sampleConstants sampleContext allPassesDescriptor).issued =
        [.colorTarget .destTexture .Load_Store] :=
  ⟨rfl,
    (flush_fixed_function_blend sampleConstants sampleContext allPassesDescriptor rfl).1
      (by decide),
    (flush_fixed_function_blend sampleConstants sampleContext allPassesDescriptor rfl).2.2
      (by decide)⟩

/-! ## The shader permutations -/

/-- C24: `GetPermutationForFeatures` writes, whatever the two output domains held
before, a pixel permutation whose clip, clip-rect, nested-clip, advanced-blend, even-odd
and HSL-blend entries are the corresponding bits of the features and whose
fixed-function-colour-blend entry is the negation of the advanced-blend bit (so the two
are never equal), and a vertex permutation whose clip, clip-rect and advanced-blend
entries are the corresponding bits; and every pipeline state that a loop iteration of
`flush` sets carries the two permutations of `desc.combinedShaderFeatures`. -/
theorem GetPermutationForFeatures_mapping (f : ShaderFeatures)
    (p : AtomicPixelPermutationDomain) (v : AtomicVertexPermutationDomain) :
    (GetPermutationForFeatures f p v).1 =
      { FEnableClip := f.ENABLE_CLIPPING, FEnableClipRect := f.ENABLE_CLIP_RECT,
        FEnableNestedClip := f.ENABLE_NESTED_CLIPPING,
        FEnableAdvanceBlend := f.ENABLE_ADVANCED_BLEND,
        FEnableFixedFunctionColorBlend := !f.ENABLE_ADVANCED_BLEND,
        FEnableEvenOdd := f.ENABLE_EVEN_ODD,
        FEnableHSLBlendMode := f.ENABLE_HSL_BLEND_MODES } ∧
    (GetPermutationForFeatures f p v).2 =
      { FEnableClip := f.ENABLE_CLIPPING, FEnableClipRect := f.ENABLE_CLIP_RECT,
        FEnableAdvanceBlend := f.ENABLE_ADVANCED_BLEND } ∧
    (GetPermutationForFeatures f p v).1.FEnableAdvanceBlend ≠
      (GetPermutationForFeatures f p v).1.FEnableFixedFunctionColorBlend ∧
    (∀ (k : GpuConstants) (ctx : RenderContextRHIImpl) (desc : FlushDescriptor),
      ∀ x ∈ (flush k ctx desc).issued, ∀ (i : Nat) (pso : PipelineState),
        x.step = .batch i → x.cmd = .setGraphicsPipelineState pso →
        pso.pixelPermutation =
          some (GetPermutationForFeatures desc.combinedShaderFeatures p v).1 ∧
        pso.vertexPermutation =
          some (GetPermutationForFeatures desc.combinedShaderFeatures p v).2) := by
  refine ⟨rfl, rfl, ?_, ?_⟩
  · show f.ENABLE_ADVANCED_BLEND ≠ !f.ENABLE_ADVANCED_BLEND
    cases f.ENABLE_ADVANCED_BLEND <;> decide
  · intro k ctx desc x hx i pso hstep hc
    obtain ⟨b, -, hm⟩ := (block_of_issued hx).2.2.2.2.2.2.2.1 i hstep
    rw [hc] at hm
    obtain ⟨h1, h2, -⟩ := batchOps_pipeline hm
    exact ⟨h1, h2⟩

/-- C24 at a concrete flush: with clipping set and nothing else, both batches of the
descriptor with work for every step get the same permutations: clip set,
fixed-function colour blend set, everything else clear. -/
theorem GetPermutationForFeatures_mapping_witness :
    (∃ x ∈ (flush sampleConstants sampleContext allPassesDescriptor).issued,
      x.step = .batch 0 ∧ x.cmd.boundShaders = some .interiorTriangles) ∧
    (∃ x ∈ (flush sampleConstants sampleContext allPassesDescriptor).issued,
      x.step = .batch 1 ∧ x.cmd.boundShaders = some .imageRect) ∧
    (∀ x ∈ (flush sampleConstants sampleContext allPassesDescriptor).issued,
      ∀ (i : Nat) (pso : PipelineState),
        x.step = .batch i → x.cmd = .setGraphicsPipelineState pso →
        pso.pixelPermutation =
          some { FEnableClip := true, FEnableClipRect := false, FEnableNestedClip := false,
                 FEnableAdvanceBlend := false, FEnableFixedFunctionColorBlend := true,
                 FEnableEvenOdd := false, FEnableHSLBlendMode := false } ∧
        pso.vertexPermutation =
          some { FEnableClip := true, FEnableClipRect := false,
                 FEnableAdvanceBlend := false }) :=
  ⟨by decide, by decide,
    (GetPermutationForFeatures_mapping allPassesDescriptor.combinedShaderFeatures
      AtomicPixelPermutationDomain.default AtomicVertexPermutationDomain.default).2.2.2
        sampleConstants sampleContext allPassesDescriptor⟩

/-! ## Patch batches -/

/-- C25: for a batch of draw type `midpointFanPatches` or `outerCurvePatches` with
`elementCount > 0` at position `i` of the draw list, every draw call that `flush` issues
in the iteration of that batch is the indexed draw over the patch index buffer with
`kPatchVertexBufferCount` vertices, start index `PatchBaseIndex(drawType)`,
`PatchIndexCount(drawType) / 3` triangles and `elementCount` instances, and there is at
most one; when the flush reaches the iteration and the five buffers that the patch case
reads are allocated, and likewise when the flush runs to its end, the iteration issues
exactly: its transitions, the path pipeline (triangle list), the vertex parameters with
`baseInstance = batch.baseElement`, the pixel parameters, the patch vertex buffer as
stream 0 and that one draw. -/
theorem flush_draws_patch_batch (k : GpuConstants) (ctx : RenderContextRHIImpl)
    (desc : FlushDescriptor) (i : Nat) (b : DrawBatch) (hb : desc.drawList[i]? = some b)
    (ht : b.drawType = .midpointFanPatches ∨ b.drawType = .outerCurvePatches)
    (h0 : b.elementCount > 0) :
    (∀ x ∈ (flush k ctx desc).issued, x.step = .batch i → x.cmd.isDraw = true →
      x.cmd = .drawIndexedPrimitive .patchIndexBuffer 0 0 k.kPatchVertexBufferCount
        (k.PatchBaseIndex b.drawType) (k.PatchIndexCount b.drawType / 3) b.elementCount) ∧
    ((issuedIn (.batch i) (flush k ctx desc).issued).filter Cmd.isDraw).length ≤ 1 ∧
    (((flush k ctx desc).exit = .completed ∨
      ((∃ x ∈ (flush k ctx desc).issued, x.step = .batch i) ∧
        ctx.m_flushUniformBuffer.isSome = true ∧ ctx.m_paintAuxBuffer.isSome = true ∧
        ctx.m_paintBuffer.isSome = true ∧ ctx.m_pathBuffer.isSome = true ∧
        ctx.m_contourBuffer.isSome = true)) →
      issuedIn (.batch i) (flush k ctx desc).issued =
        cmdsOf (batchTransitionOps desc) ++
          [.setGraphicsPipelineState
              (batchPipelineState desc .path .Paths .PT_TriangleList .staticSolidCCW),
           .setShaderParameters .vertex
              [.FlushUniforms, .tessVertexTexture, .pathBuffer, .contourBuffer,
               .baseInstance b.baseElement],
           .setShaderParameters .pixel
              ([.FlushUniforms, .gradSampler, .gradTexture] ++ sharedPixelBindings),
           .setStreamSource 0 .patchVertexBuffer 0,
           .drawIndexedPrimitive .patchIndexBuffer 0 0 k.kPatchVertexBufferCount
              (k.PatchBaseIndex b.drawType) (k.PatchIndexCount b.drawType / 3)
              b.elementCount]) := by
  have h0' : b.elementCount ≠ 0 := by omega
  refine ⟨?_, ?_, ?_⟩
  · intro x hx hstep hd
    obtain ⟨b1, hb1, hm⟩ := (block_of_issued hx).2.2.2.2.2.2.2.1 i hstep
    rw [hb] at hb1
    injection hb1 with hb1
    subst hb1
    exact batchOps_patches_draw ht hm hd
  · have hsub := (@issuedIn_batch_sublist k ctx desc i b hb).filter Cmd.isDraw
    have hlen := hsub.length_le
    rw [filter_isDraw_cmdsOf] at hlen
    exact le_trans hlen (batchOps_draws_le_one k ctx desc b)
  · intro h
    rw [← cmdsOf_batchOps_patches k ctx desc b ht h0']
    rcases h with hc | ⟨hx, h1, h2, h3, h4, h5⟩
    · exact issuedIn_batch_of_completed hb hc
    · exact issuedIn_batch_of_reached hb hx
        (fun ok e hm => batchOps_patches_requires_ok ht h1 h2 h3 h4 h5 hm)

/-- C25 at a concrete flush: one outer-curve batch of four elements from element 7, with
the sample constants (100 patch vertices, outer-curve indices from 60, 90 of them). -/
theorem flush_draws_patch_batch_witness :
    outerCurveDescriptor.drawList[0]? = some (plainBatch .outerCurvePatches 4 7) ∧
    (flush sampleConstants sampleContext outerCurveDescriptor).exit = .completed ∧
    issuedIn (.batch 0) (flush sampleConstants sampleContext outerCurveDescriptor).issued =
      [.transition .coverageUAV .UAVGraphics .UAVGraphics,
       .setGraphicsPipelineState
          (batchPipelineState outerCurveDescriptor .path .Paths .PT_TriangleList
            .staticSolidCCW),
       .setShaderParameters .vertex
          [.FlushUniforms, .tessVertexTexture, .pathBuffer, .contourBuffer, .baseInstance 7],
       .setShaderParameters .pixel
          ([.FlushUniforms, .gradSampler, .gradTexture] ++ sharedPixelBindings),
       .setStreamSource 0 .patchVertexBuffer 0,
       .drawIndexedPrimitive .patchIndexBuffer 0 0 100 60 30 4] :=
  ⟨rfl, by decide,
    (flush_draws_patch_batch sampleConstants sampleContext outerCurveDescriptor 0
      (plainBatch .outerCurvePatches 4 7) rfl (Or.inr rfl) (by decide)).2.2
        (Or.inl (by decide))⟩

/-! ## Batches without elements -/

/-- A run depends on the code only, not on the blocks the code is attributed to. -/
theorem runOps_congr_code (l₁ l₂ : List (Step × Op))
    (h : l₁.map Prod.snd = l₂.map Prod.snd) :
    (runOps l₁).issued.map Issued.cmd = (runOps l₂).issued.map Issued.cmd ∧
      (runOps l₁).exit = (runOps l₂).exit := by
  induction l₁ generalizing l₂ with
  | nil =>
    cases l₂ with
    | nil => exact ⟨rfl, rfl⟩
    | cons y rest => simp at h
  | cons x rest ih =>
    cases l₂ with
    | nil => simp at h
    | cons y rest2 =>
      simp only [List.map_cons, List.cons.injEq] at h
      obtain ⟨hxy, hrest⟩ := h
      obtain ⟨s1, o1⟩ := x
      obtain ⟨s2, o2⟩ := y
      simp only at hxy
      subst hxy
      obtain ⟨ih1, ih2⟩ := ih rest2 hrest
      cases o1 with
      | emit c => simp [runOps, ih1, ih2]
      | require ok e =>
        cases ok with
        | false => simp [runOps]
        | true => simp [runOps, ih1, ih2]

theorem map_snd_inStep (s : Step) (ops : List Op) : (inStep s ops).map Prod.snd = ops := by
  induction ops with
  | nil => rfl
  | cons o rest ih =>
    simp only [inStep, List.map_cons, List.cons.injEq, true_and] at ih ⊢
    exact ih

/-- The code of the draw loop does not change when the batches without elements are
removed from the list. -/
theorem map_snd_drawLoopOps_filter (k : GpuConstants) (ctx : RenderContextRHIImpl)
    (desc desc1 : FlushDescriptor)
    (hdesc : ∀ b, batchOps k ctx desc1 b = batchOps k ctx desc b)
    (l : List DrawBatch) (i j : Nat) :
    (drawLoopOps k ctx desc1 i (l.filter fun b => b.elementCount != 0)).map Prod.snd =
      (drawLoopOps k ctx desc j l).map Prod.snd := by
  induction l generalizing i j with
  | nil => rfl
  | cons b rest ih =>
    by_cases h0 : b.elementCount = 0
    · have hf : (b.elementCount != 0) = false := by simp [h0]
      rw [List.filter_cons_of_neg (by simp [h0])]
      simp only [drawLoopOps, List.map_append, map_snd_inStep,
        batchOps_eq_nil k ctx desc b h0, List.nil_append]
      exact ih i (j + 1)
    · rw [List.filter_cons_of_pos (by simp [h0])]
      simp only [drawLoopOps, List.map_append, map_snd_inStep, hdesc]
      rw [ih (i + 1) (j + 1)]

theorem map_snd_flushOps (k : GpuConstants) (ctx : RenderContextRHIImpl)
    (desc : FlushDescriptor) (rt : RenderTargetRHI) :
    (flushOps k ctx (withoutZeroElementBatches desc) rt).map Prod.snd =
      (flushOps k ctx desc rt).map Prod.snd := by
  have h := map_snd_drawLoopOps_filter k ctx desc (withoutZeroElementBatches desc)
    (fun _ => rfl) desc.drawList 0 0
  simp only [flushOps, List.map_append, map_snd_inStep]
  have h1 : (drawLoopOps k ctx (withoutZeroElementBatches desc) 0
      (withoutZeroElementBatches desc).drawList).map Prod.snd =
      (drawLoopOps k ctx desc 0 desc.drawList).map Prod.snd := h
  rw [h1]
  rfl

/-- C28: the commands that `flush` issues for a descriptor, and the way the run ends,
are those for the same descriptor with every batch of `elementCount == 0` removed from
the draw list; and no command at all is issued by the loop iteration of a batch without
elements. -/
theorem flush_without_zero_element_batches (k : GpuConstants) (ctx : RenderContextRHIImpl)
    (desc : FlushDescriptor) :
    flushCmds k ctx (withoutZeroElementBatches desc) = flushCmds k ctx desc ∧
    (flush k ctx (withoutZeroElementBatches desc)).exit = (flush k ctx desc).exit ∧
    (∀ (i : Nat) (b : DrawBatch), desc.drawList[i]? = some b → b.elementCount = 0 →
      ∀ x ∈ (flush k ctx desc).issued, x.step ≠ .batch i) := by
  have hrt : (withoutZeroElementBatches desc).renderTarget = desc.renderTarget := rfl
  refine ⟨?_, ?_, ?_⟩
  · unfold flushCmds flush
    rw [hrt]
    cases desc.renderTarget with
    | none => rfl
    | some rt => exact (runOps_congr_code _ _ (map_snd_flushOps k ctx desc rt)).1
  · unfold flush
    rw [hrt]
    cases desc.renderTarget with
    | none => rfl
    | some rt => exact (runOps_congr_code _ _ (map_snd_flushOps k ctx desc rt)).2
  · intro i b hb h0 x hx hstep
    obtain ⟨b1, hb1, hm⟩ := (block_of_issued hx).2.2.2.2.2.2.2.1 i hstep
    rw [hb] at hb1
    injection hb1 with hb1
    subst hb1
    rw [batchOps_eq_nil k ctx desc b h0] at hm
    simp at hm

/-- C28 at a concrete flush: a patch batch without elements between a triangulation
batch and a resolve batch; the flush issues what it issues for the two other batches. -/
theorem flush_without_zero_element_batches_witness :
    zeroElementBetweenDescriptor.drawList[1]? = some (plainBatch .midpointFanPatches 0 3) ∧
    withoutZeroElementBatches zeroElementBetweenDescriptor = twoBatchDescriptor ∧
    flushCmds sampleConstants sampleContext twoBatchDescriptor =
      flushCmds sampleConstants sampleContext zeroElementBetweenDescriptor ∧
    (∀ x ∈ (flush sampleConstants sampleContext zeroElementBetweenDescriptor).issued,
      x.step ≠ .batch 1) :=
  ⟨rfl, rfl,
    (flush_without_zero_element_batches sampleConstants sampleContext
      zeroElementBetweenDescriptor).1,
    (flush_without_zero_element_batches sampleConstants sampleContext
      zeroElementBetweenDescriptor).2.2 1 (plainBatch .midpointFanPatches 0 3) rfl rfl⟩

/-! ## Render passes begun and ended by a flush -/

theorem renderPassOpenAfter_append (s : Bool) (a b : List Cmd) :
    renderPassOpenAfter s (a ++ b) =
      (renderPassOpenAfter s a).bind fun t => renderPassOpenAfter t b := by
  induction a generalizing s with
  | nil => simp [renderPassOpenAfter]
  | cons c rest ih =>
    simp only [List.cons_append, renderPassOpenAfter]
    cases h : c.renderPassStep s with
    | none => simp
    | some t => simp [ih]

/-- Commands that neither begin nor end a render pass leave the pass as it is. -/
theorem renderPassOpenAfter_of_no_boundary (s : Bool) (l : List Cmd)
    (h : ∀ c ∈ l, ∀ t, c.renderPassStep t = some t) : renderPassOpenAfter s l = some s := by
  induction l with
  | nil => rfl
  | cons c rest ih =>
    simp only [renderPassOpenAfter, h c (List.mem_cons_self _ _) s, Option.some_bind]
    exact ih (fun c1 hc1 => h c1 (List.mem_cons_of_mem _ hc1))

theorem map_cmd_emitted_inStep (s : Step) (ops : List Op) :
    (emitted (inStep s ops)).map Issued.cmd = cmdsOf ops := by
  induction ops with
  | nil => rfl
  | cons o rest ih =>
    cases o with
    | emit c =>
      simp only [inStep, List.map_cons, emitted, cmdsOf, List.cons.injEq, true_and] at ih ⊢
      exact ih
    | require ok e =>
      simp only [inStep, List.map_cons, emitted, cmdsOf] at ih ⊢
      exact ih

theorem uploadOps_pass_unchanged (ctx : RenderContextRHIImpl) (desc : FlushDescriptor)
    (s : Bool) : renderPassOpenAfter s (cmdsOf (uploadOps ctx desc)) = some s := by
  rw [cmdsOf_uploadOps]
  split_ifs <;> rfl

theorem auxClearOps_pass_unchanged (desc : FlushDescriptor) (s : Bool) :
    renderPassOpenAfter s (cmdsOf (auxClearOps desc)) = some s := by
  rw [cmdsOf_auxClearOps]
  split_ifs <;> rfl

theorem simpleGradientCopyOps_pass_unchanged (k : GpuConstants) (ctx : RenderContextRHIImpl)
    (desc : FlushDescriptor) (s : Bool) :
    renderPassOpenAfter s (cmdsOf (simpleGradientCopyOps k ctx desc)) = some s := by
  rw [cmdsOf_simpleGradientCopyOps]
  split_ifs <;> rfl

theorem clearDestinationOps_pass_unchanged (desc : FlushDescriptor) (s : Bool) :
    renderPassOpenAfter s (cmdsOf (clearDestinationOps desc)) = some s := by
  rw [cmdsOf_clearDestinationOps]
  split_ifs <;> rfl

/-- The gradient pass begins and ends its render pass. -/
theorem gradientPassOps_pass_closed (k : GpuConstants) (ctx : RenderContextRHIImpl)
    (desc : FlushDescriptor) :
    renderPassOpenAfter false (cmdsOf (gradientPassOps k ctx desc)) = some false := by
  rw [cmdsOf_gradientPassOps]
  split_ifs <;> rfl

/-- The tessellation pass begins and ends its render pass. -/
theorem tessellationPassOps_pass_closed (k : GpuConstants) (ctx : RenderContextRHIImpl)
    (desc : FlushDescriptor) :
    renderPassOpenAfter false (cmdsOf (tessellationPassOps k ctx desc)) = some false := by
  rw [cmdsOf_tessellationPassOps]
  split_ifs <;> rfl

/-- The block before the loop begins the draw pass. -/
theorem beginDrawPassOps_pass_open (desc : FlushDescriptor) (rt : RenderTargetRHI) :
    renderPassOpenAfter false (cmdsOf (beginDrawPassOps desc rt)) = some true := by
  unfold beginDrawPassOps
  cases desc.combinedShaderFeatures.ENABLE_ADVANCED_BLEND <;> rfl

/-- The block after the loop ends the draw pass and returns the destination texture to
`UAVGraphics`. -/
theorem endDrawPassOps_pass_closed (desc : FlushDescriptor) :
    renderPassOpenAfter true (cmdsOf (endDrawPassOps desc)) = some false ∧
    (cmdsOf (endDrawPassOps desc)).getLast? =
      some (.transition .destTexture
        (if desc.combinedShaderFeatures.ENABLE_ADVANCED_BLEND then .UAVGraphics else .RTV)
        .UAVGraphics) := by
  unfold endDrawPassOps
  cases desc.combinedShaderFeatures.ENABLE_ADVANCED_BLEND <;> exact ⟨rfl, rfl⟩

/-- A loop iteration neither begins nor ends a render pass. -/
theorem batchOps_no_pass_boundary {k : GpuConstants} {ctx : RenderContextRHIImpl}
    {desc : FlushDescriptor} {b : DrawBatch} {c : Cmd}
    (hm : Op.emit c ∈ batchOps k ctx desc b) : ∀ t, c.renderPassStep t = some t := by
  unfold batchOps drawTypeOps at hm
  simp only [deref, syncIfPresent, sharedPixelBindings] at *
  aesop

/-- After the code before the loop, run without a failed condition, the draw pass is in
progress. -/
theorem preLoopOps_pass_open (k : GpuConstants) (ctx : RenderContextRHIImpl)
    (desc : FlushDescriptor) (rt : RenderTargetRHI) :
    renderPassOpenAfter false ((emitted (preLoopOps k ctx desc rt)).map Issued.cmd) =
      some true := by
  simp only [preLoopOps, emitted_append, List.map_append, map_cmd_emitted_inStep,
    renderPassOpenAfter_append, uploadOps_pass_unchanged, auxClearOps_pass_unchanged,
    gradientPassOps_pass_closed, simpleGradientCopyOps_pass_unchanged,
    tessellationPassOps_pass_closed, clearDestinationOps_pass_unchanged,
    beginDrawPassOps_pass_open, Option.some_bind]

/-- The commands that a run of the draw loop issues leave the render pass as it is. -/
theorem drawLoop_pass_unchanged {k : GpuConstants} {ctx : RenderContextRHIImpl}
    {desc : FlushDescriptor} (l : List Issued)
    (h : ∀ x ∈ l, (x.step, Op.emit x.cmd) ∈ drawLoopOps k ctx desc 0 desc.drawList)
    (s : Bool) : renderPassOpenAfter s (l.map Issued.cmd) = some s := by
  apply renderPassOpenAfter_of_no_boundary
  intro c hc
  obtain ⟨x, hx, rfl⟩ := List.mem_map.mp hc
  obtain ⟨j, b, -, -, hm⟩ := (mem_drawLoopOps _ 0).mp (h x hx)
  exact batchOps_no_pass_boundary hm

/-- A flush that runs to its end leaves no render pass in progress and ends with the
transition of the destination texture to `UAVGraphics`. -/
theorem flush_completed_balanced {k : GpuConstants} {ctx : RenderContextRHIImpl}
    {desc : FlushDescriptor} (hc : (flush k ctx desc).exit = .completed) :
    renderPassOpenAfter false (flushCmds k ctx desc) = some false ∧
    (flushCmds k ctx desc).getLast? =
      some (.transition .destTexture
        (if desc.combinedShaderFeatures.ENABLE_ADVANCED_BLEND then .UAVGraphics else .RTV)
        .UAVGraphics) := by
  cases hrt : desc.renderTarget with
  | none => simp [flush, hrt] at hc
  | some rt =>
    have hflush : flush k ctx desc = runOps (flushOps k ctx desc rt) := by
      simp only [flush, hrt]
    rw [hflush] at hc
    have hiss := (runOps_completed _ (fun s ok e hm => flushOps_require_ne_completed hm) hc).2
    have hcmds : flushCmds k ctx desc =
        (emitted (preLoopOps k ctx desc rt)).map Issued.cmd ++
          ((emitted (drawLoopOps k ctx desc 0 desc.drawList)).map Issued.cmd ++
            cmdsOf (endDrawPassOps desc)) := by
      unfold flushCmds
      rw [hflush, hiss, flushOps_eq_preLoop_append, loopAndEndOps]
      simp only [emitted_append, List.map_append, map_cmd_emitted_inStep]
    have hloop := @drawLoop_pass_unchanged k ctx desc
      (emitted (drawLoopOps k ctx desc 0 desc.drawList)) (fun x hx => mem_emitted.mp hx) true
    constructor
    · rw [hcmds]
      simp only [renderPassOpenAfter_append, preLoopOps_pass_open, hloop,
        (endDrawPassOps_pass_closed desc).1, Option.some_bind]
    · rw [hcmds, ← List.append_assoc, List.getLast?_append, (endDrawPassOps_pass_closed desc).2]
      rfl

/-- The only condition of `flush` that makes it return early is a failed cast in the
iteration of an image-mesh batch. -/
theorem batchOps_returnedEarly {k : GpuConstants} {ctx : RenderContextRHIImpl}
    {desc : FlushDescriptor} {b : DrawBatch} {ok : Bool} {e : Exit}
    (hm : Op.require ok e ∈ batchOps k ctx desc b) (he : e.isFatal = false) :
    b.drawType = .imageMesh ∧ b.elementCount ≠ 0 ∧ e = .returnedEarly ∧
      (liteRttiCast b.indexBuffer = none ∨ liteRttiCast b.vertexBuffer = none ∨
        liteRttiCast b.uvBuffer = none) := by
  have h0 : b.elementCount ≠ 0 := by
    intro h
    rw [batchOps_eq_nil k ctx desc b h] at hm
    simp at hm
  have hfat : ∀ f, e ≠ .fatal f := by
    intro f hf
    rw [hf] at he
    cases he
  rw [batchOps_eq_transitions_append k ctx desc b h0] at hm
  rcases List.mem_append.mp hm with hm | hm
  · exfalso
    unfold batchTransitionOps at hm
    aesop
  · unfold drawTypeOps at hm
    cases hdt : b.drawType <;> simp only [hdt, deref, syncIfPresent] at hm
    case imageMesh =>
      cases hi : liteRttiCast b.indexBuffer <;> cases hv : liteRttiCast b.vertexBuffer <;>
        cases hu : liteRttiCast b.uvBuffer <;> simp only [hi, hv, hu] at hm <;> aesop
    all_goals aesop

/-- A flush that returns early (through `LITE_RTTI_CAST_OR_RETURN`) does so in the
iteration of an image-mesh batch one of whose buffers fails the cast; it leaves the draw
pass in progress: no command of the end of the function is issued. -/
theorem flush_returnedEarly_pass_open {k : GpuConstants} {ctx : RenderContextRHIImpl}
    {desc : FlushDescriptor} (he : (flush k ctx desc).exit = .returnedEarly) :
    renderPassOpenAfter false (flushCmds k ctx desc) = some true ∧
    (∀ x ∈ (flush k ctx desc).issued, x.step ≠ .endDrawPass) ∧
    (∃ b ∈ desc.drawList, b.drawType = .imageMesh ∧ b.elementCount ≠ 0 ∧
      (liteRttiCast b.indexBuffer = none ∨ liteRttiCast b.vertexBuffer = none ∨
        liteRttiCast b.uvBuffer = none)) := by
  have hnf : (flush k ctx desc).exit.isFatal = false := by rw [he]; rfl
  obtain ⟨rt, -, -, hiss, hexit⟩ := flush_of_not_fatal hnf
  rw [he] at hexit
  have hcases := runOps_append_cases (drawLoopOps k ctx desc 0 desc.drawList)
    (inStep .endDrawPass (endDrawPassOps desc))
  have hend : runOps (inStep .endDrawPass (endDrawPassOps desc)) =
      { issued := emitted (inStep .endDrawPass (endDrawPassOps desc)), exit := .completed } :=
    runOps_of_requires_ok _
      (fun s ok e hm => (endDrawPassOps_no_require (mem_inStep.mp hm).2).elim)
  rcases hcases with ⟨-, h⟩ | ⟨⟨s, e, hreq⟩, h⟩
  · exfalso
    rw [loopAndEndOps, h, hend] at hexit
    cases hexit
  · rw [loopAndEndOps, h] at hiss hexit
    have hmem : ∀ x ∈ (runOps (drawLoopOps k ctx desc 0 desc.drawList)).issued,
        (x.step, Op.emit x.cmd) ∈ drawLoopOps k ctx desc 0 desc.drawList :=
      fun x hx => mem_issued_runOps hx
    refine ⟨?_, ?_, ?_⟩
    · unfold flushCmds
      rw [hiss, List.map_append, renderPassOpenAfter_append, preLoopOps_pass_open,
        Option.some_bind]
      exact drawLoop_pass_unchanged _ hmem true
    · intro x hx
      rw [hiss] at hx
      rcases List.mem_append.mp hx with hx | hx
      · intro hs
        have hm := mem_emitted.mp hx
        rw [hs] at hm
        rcases mem_preLoopOps.mp hm with h1 | h1 | h1 | h1 | h1 | h1 | h1 <;> cases h1.1
      · obtain ⟨j, b, -, hs, -⟩ := (mem_drawLoopOps _ 0).mp (hmem x hx)
        rw [hs]
        simp
    · -- the condition that failed
      have hex : ∃ s ok e, (s, Op.require ok e) ∈ drawLoopOps k ctx desc 0 desc.drawList ∧
          e = .returnedEarly := by
        by_contra hno
        have hfat : ∀ s ok e, (s, Op.require ok e) ∈ drawLoopOps k ctx desc 0 desc.drawList →
            e ≠ .returnedEarly := fun s ok e hm heq => hno ⟨s, ok, e, hm, heq⟩
        have key : ∀ l : List (Step × Op),
            (∀ s ok e, (s, Op.require ok e) ∈ l → e ≠ .returnedEarly) →
            (runOps l).exit ≠ .returnedEarly := by
          intro l
          induction l with
          | nil => intro _ hh; cases hh
          | cons o rest ih =>
            intro hl
            obtain ⟨s1, o1⟩ := o
            have ih := ih (fun s ok e hm => hl s ok e (List.mem_cons_of_mem _ hm))
            cases o1 with
            | emit c => simpa [runOps] using ih
            | require ok e1 =>
              cases ok with
              | false =>
                simp only [runOps, Bool.false_eq_true, if_false]
                exact hl s1 false e1 (List.mem_cons_self _ _)
              | true => simpa [runOps] using ih
        exact key _ hfat hexit.symm
      obtain ⟨s1, ok, e1, hm, heq⟩ := hex
      obtain ⟨j, b, hb, -, hmb⟩ := (mem_drawLoopOps _ 0).mp hm
      have hnf1 : e1.isFatal = false := by rw [heq]; rfl
      obtain ⟨h1, h2, -, h4⟩ := batchOps_returnedEarly hmb hnf1
      exact ⟨b, List.getElem?_mem hb, h1, h2, h4⟩

/-- C27, the failing input: the draw list holds one image-mesh batch whose index buffer
pointer is null; the flush begins the draw pass, reaches the batch and returns through
`LITE_RTTI_CAST_OR_RETURN`: the render pass is left in progress (no `EndRenderPass`
follows its `BeginRenderPass`) and the destination texture, moved from `UAVGraphics` to
`RTV`, is not moved back. -/
theorem flush_mesh_without_index_buffer_leaves_pass_open :
    (flush sampleConstants sampleContext meshWithoutIndexBufferDescriptor).exit =
      .returnedEarly ∧
    renderPassOpenAfter false
      (flushCmds sampleConstants sampleContext meshWithoutIndexBufferDescriptor) = some true ∧
    Cmd.beginRenderPass (.colorTarget .destTexture .Load_Store) .Rive_Render_Flush ∈
      flushCmds sampleConstants sampleContext meshWithoutIndexBufferDescriptor ∧
    Cmd.endRenderPass ∉
      flushCmds sampleConstants sampleContext meshWithoutIndexBufferDescriptor ∧
    Cmd.transition .destTexture .UAVGraphics .RTV ∈
      flushCmds sampleConstants sampleContext meshWithoutIndexBufferDescriptor ∧
    Cmd.transition .destTexture .RTV .UAVGraphics ∉
      flushCmds sampleConstants sampleContext meshWithoutIndexBufferDescriptor ∧
    (flushCmds sampleConstants sampleContext meshWithoutIndexBufferDescriptor).getLast? =
      some (.sync (.logical .imageDrawUniform) (.fromOffset 0)) := by
  decide

end RiveRHI
